import Mathlib

/-!
Verification of the cross-account reference resolver and dependency-ordered
graph builder of the landing-zone accelerator network-associations stack.

The definitions below are a shallow embedding of the TypeScript class
`NetworkAssociationsStack` (and `NetworkVpcEndpointsStack.setNfwPolicyMap`).
CDK synthesis-time collaborators that always return opaque tokens
(`StringParameter.valueForStringParameter`, `SsmParameterLookup`,
`TransitGatewayAttachment.fromLookup`, `getResourceShare`, `pascalCase`)
are modelled as total function fields of the environment `NaEnv`, because at
synthesis time they never fail: they return unresolved token identifiers.
Thrown JavaScript errors are modelled with `Except`: `RtError.thrown` for
`throw new Error(msg)` and `RtError.typeError f` for the `TypeError` raised by
reading property `f` of `undefined`.
-/

/-- Runtime errors of the embedded TypeScript: a thrown `Error` with its
message, or a `TypeError` from reading the named property of `undefined`. -/
inductive RtError where
  | thrown (msg : String)
  | typeError (field : String)
deriving DecidableEq

/-- String-keyed maps (`Map<string, string>`) as association lists in
insertion order, mirroring the JavaScript `Map` used by the stack. -/
abbrev SMap := List (String × String)

/-- Lookup in an `SMap`, mirroring `Map.get`: the first binding of the key,
if any. -/
def mget : SMap → String → Option String
  | [], _ => none
  | p :: rest, k => if p.1 == k then some p.2 else mget rest k

/-- Update in an `SMap`, mirroring `Map.set`: replace the binding in place
if the key is present (keys are unique in a `Map`), otherwise append it. -/
def mset : SMap → String → String → SMap
  | [], k, v => [(k, v)]
  | p :: rest, k, v => if p.1 == k then (k, v) :: rest else p :: mset rest k v

/-- Route entry of a VPC route table (`RouteTableEntryConfig`). -/
structure RouteTableEntryConfig where
  name : String
  rtype : Option String := none
  target : Option String := none
  destination : Option String := none
  destinationPrefixList : Option String := none
deriving DecidableEq

/-- VPC route table (`RouteTableConfig`). -/
structure RouteTableConfig where
  name : String
  routes : List RouteTableEntryConfig := []
deriving DecidableEq

/-- The transit gateway a VPC attachment points at
(`TransitGatewayAttachmentTargetConfig`). -/
structure TgwAttachmentTarget where
  name : String
  account : String
deriving DecidableEq

/-- A VPC transit gateway attachment declaration
(`TransitGatewayAttachmentConfig`). -/
structure TgwVpcAttachmentConfig where
  name : String
  transitGateway : TgwAttachmentTarget
  routeTableAssociations : List String := []
  routeTablePropagations : List String := []
deriving DecidableEq

/-- VPC configuration (`VpcConfig`); the fields consumed by the
network-associations stack.  The embedding covers the plain `VpcConfig`
variant, for which `getTransitGatewayAttachmentAccounts` returns the single
owning account and no exclusions. -/
structure VpcConfig where
  name : String
  account : String
  region : String
  routeTables : List RouteTableConfig := []
  transitGatewayAttachments : List TgwVpcAttachmentConfig := []
  dnsFirewallRuleGroupNames : List (String × Nat) := []
  queryLogNames : List String := []
  resolverRuleNames : List String := []
  interfaceEndpointsCentral : Bool := false
  interfaceEndpointServices : List String := []
  useCentralEndpoints : Bool := false
deriving DecidableEq

/-- A transit gateway static route table entry's attachment target, the
tagged union behind the `NetworkConfigTypes.…is(routeItem.attachment)`
shape dispatch. -/
inductive TgwRouteAttachment where
  | vpcAttach (account : String) (vpcName : String)
  | dxGatewayAttach (directConnectGatewayName : String)
  | vpnAttach (vpnConnectionName : String)
  | tgwPeeringAttach (transitGatewayPeeringName : String)
deriving DecidableEq

/-- Transit gateway route table entry (`TransitGatewayRouteEntryConfig`). -/
structure TgwRouteEntryConfig where
  destinationCidrBlock : Option String := none
  destinationPrefixList : Option String := none
  blackhole : Option Bool := none
  attachment : Option TgwRouteAttachment := none
deriving DecidableEq

/-- Transit gateway route table (`TransitGatewayRouteTableConfig`). -/
structure TransitGatewayRouteTableConfig where
  name : String
  routes : List TgwRouteEntryConfig := []
deriving DecidableEq

/-- Transit gateway configuration (`TransitGatewayConfig`). -/
structure TransitGatewayConfig where
  name : String
  account : String
  region : String
  routeTables : List TransitGatewayRouteTableConfig := []
deriving DecidableEq

/-- VPN connection configuration (`VpnConnectionConfig`).  The two route
table lists are optional because the source gates on their truthiness
before iterating. -/
structure VpnConnectionConfig where
  name : String
  transitGateway : Option String := none
  routeTableAssociations : Option (List String) := none
  routeTablePropagations : Option (List String) := none
deriving DecidableEq

/-- Customer gateway configuration (`CustomerGatewayConfig`). -/
structure CustomerGatewayConfig where
  name : String
  account : String
  region : String
  vpnConnections : List VpnConnectionConfig := []
deriving DecidableEq

/-- One entry of the `vpcPeering` configuration list (`PeeringConfig`):
a peering name and the requester/accepter VPC names (`vpcs[0]`, `vpcs[1]`). -/
structure PeeringConfigEntry where
  name : String
  requesterVpcName : String
  accepterVpcName : String
deriving DecidableEq

/-- The in-memory `Peering` interface built by `setPeeringList`.  The source
stores `accepterVpc[0]` without checking that the filter produced anything,
so the accepter is an `Option`: `none` models the `undefined` stored when the
accepter VPC name matches no configured VPC. -/
structure Peering where
  name : String
  requester : VpcConfig
  accepter : Option VpcConfig
deriving DecidableEq

/-- One side of a transit gateway peering (`requester` / `accepter` of
`TransitGatewayPeeringConfig`). -/
structure TgwPeeringSideConfig where
  account : String
  transitGatewayName : String
deriving DecidableEq

/-- Transit gateway peering configuration (`TransitGatewayPeeringConfig`). -/
structure TgwPeeringConfig where
  name : String
  requester : TgwPeeringSideConfig
  accepter : TgwPeeringSideConfig
deriving DecidableEq

/-- Direct Connect gateway configuration (`DxGatewayConfig`). -/
structure DxGatewayConfig where
  name : String
  account : String
deriving DecidableEq

/-- Direct Connect gateway / transit gateway association declaration
(`DxTransitGatewayAssociationConfig`). -/
structure DxTransitGatewayAssociationConfig where
  name : String
  account : String
  allowedPrefixes : List String := []
  routeTableAssociations : List String := []
  routeTablePropagations : List String := []
deriving DecidableEq

/-- A central-network-services firewall declaration
(`NfwFirewallConfig`): the VPC it lives in and its policy name. -/
structure NfwFirewallConfig where
  name : String
  vpc : String
  firewallPolicy : String
deriving DecidableEq

/-- The `centralNetworkServices` configuration block: the delegated admin
account, the query-log destinations, and the network firewalls. -/
structure CentralNetworkConfig where
  delegatedAdminAccount : String
  queryLogDestinations : List String := []
  networkFirewalls : List NfwFirewallConfig := []
deriving DecidableEq

/-- Prefix list configuration (`PrefixListConfig`): the deployment targets
(`accounts`, `regions`) decide whether the list belongs in this scope. -/
structure PrefixListConfig where
  name : String
  accounts : List String := []
  regions : List String := []
deriving DecidableEq

/-- The declarative network configuration consumed by the stack. -/
structure NetworkConfig where
  vpcs : List VpcConfig := []
  transitGateways : List TransitGatewayConfig := []
  customerGateways : List CustomerGatewayConfig := []
  vpcPeering : List PeeringConfigEntry := []
  transitGatewayPeering : List TgwPeeringConfig := []
  prefixLists : List PrefixListConfig := []
  centralNetworkServices : Option CentralNetworkConfig := none
deriving DecidableEq

/-- The (account, region) scope of one stack run together with the
synthesis-time collaborators, modelled as total functions because at CDK
synthesis they return opaque tokens and never fail:
`acctId` is `AccountsConfig.getAccountId`, `ssm` is
`StringParameter.valueForStringParameter`, `remoteSsm` is the cross-account
`SsmParameterLookup` custom resource (param name, owning account id, region),
`attachLookup` is `TransitGatewayAttachment.fromLookup`
(name, owning account id, transit gateway id, attachment type),
`share` is `getResourceShare` (share name, resource type tag, owner id),
`pascal` is the `pascalCase` formatter, and `dxAssocAttachmentId` is the
attachment identifier published (or not) by the
`DirectConnectGatewayAssociation` construct for a given association key. -/
structure NaEnv where
  account : String
  region : String
  partition : String
  homeRegion : String
  acctId : String → String
  ssm : String → String
  remoteSsm : String → String → String → String
  attachLookup : String → String → String → String → String
  share : String → String → String → String
  pascal : String → String
  dxAssocAttachmentId : String → Option String

/-- Embedding of `NetworkAssociationsStack.setPeeringList`: build the list of
peering pairs whose requester VPC lives in the current scope.  The unguarded
`requesterVpc[0].account` of the source surfaces as a `TypeError` when the
requester VPC name matches no configured VPC. -/
def setPeeringList (env : NaEnv) (vpcs : List VpcConfig) :
    List PeeringConfigEntry → Except RtError (List Peering)
  | [] => Except.ok []
  | p :: rest =>
    let requesterVpc := vpcs.filter (fun item => item.name == p.requesterVpcName)
    let accepterVpc := vpcs.filter (fun item => item.name == p.accepterVpcName)
    match requesterVpc.head? with
    | none => Except.error (RtError.typeError ("account"))
    | some req =>
      let requesterAccountId := env.acctId req.account
      match setPeeringList env vpcs rest with
      | Except.error e => Except.error e
      | Except.ok tail =>
        if env.account == requesterAccountId && env.region == req.region then
          Except.ok ({ name := p.name, requester := req,
                       accepter := accepterVpc.head? } :: tail)
        else
          Except.ok tail

/-- Whether one accepter route table entry requires the cross-account route
protocol for the given peering: a `vpcPeering` route targeting the peering
while accepter and requester differ in account or region (the condition of
`createCrossAcctRouteProvider`). -/
def entryNeedsCrossAcctRoute (p : Peering) (acc : VpcConfig)
    (e : RouteTableEntryConfig) : Bool :=
  e.rtype.isSome && (e.rtype == some ("vpcPeering")) &&
  (e.target == some (p.name)) &&
  (acc.account != p.requester.account || acc.region != p.requester.region)

/-- Embedding of `createCrossAcctRouteProvider` restricted to one peering's
accepter route tables: fold the `createFramework` flag over the entries.
Reading `accepter.routeTables` of an `undefined` accepter is a `TypeError`. -/
def crossAcctFlagForPeering (p : Peering) (createFramework : Bool) :
    Except RtError Bool :=
  match p.accepter with
  | none => Except.error (RtError.typeError ("routeTables"))
  | some acc =>
    Except.ok (acc.routeTables.foldl
      (fun b rt => rt.routes.foldl
        (fun b e => if entryNeedsCrossAcctRoute p acc e then true else b) b)
      createFramework)

/-- Embedding of `NetworkAssociationsStack.createCrossAcctRouteProvider`:
returns `true` exactly when the shared cross-account route provider is
created for this stack run.  The provider construct itself is an external
collaborator; only its presence matters to the claims. -/
def createCrossAcctRouteProvider :
    List Peering → Except RtError Bool
  | [] => Except.ok false
  | p :: rest =>
    match crossAcctFlagForPeering p false with
    | Except.error e => Except.error e
    | Except.ok b =>
      match createCrossAcctRouteProvider rest with
      | Except.error e => Except.error e
      | Except.ok b' => Except.ok (b || b')

/-- A peering route creation request emitted by the graph builder: `direct`
is `VpcPeering.addPeeringRoute` in the current scope, `crossAcct` is
`VpcPeering.addCrossAcctPeeringRoute` through the shared provider. -/
inductive PeeringRouteEvent where
  | direct (routeId routeTableId : String)
      (destination destinationPrefixListId : Option String)
  | crossAcct (routeId routeTableId : String)
      (destination destinationPrefixListId : Option String)
deriving DecidableEq

/-- Whether a route table entry is a peering route for the named peering
(the filter at the top of both route-creation loops). -/
def isPeeringRouteEntry (peeringName : String)
    (e : RouteTableEntryConfig) : Bool :=
  e.rtype.isSome && (e.rtype == some ("vpcPeering")) &&
  (e.target == some (peeringName))

/-- Embedding of the entry loop of `createRequesterVpcPeeringRoutes` for one
route table of the requester VPC. -/
def requesterRouteEntries (env : NaEnv) (requesterVpc : VpcConfig)
    (peeringName : String) (prefixListMap routeTableMap : SMap)
    (routeTable : RouteTableConfig) :
    List RouteTableEntryConfig → Except RtError (List PeeringRouteEvent)
  | [] => Except.ok []
  | e :: rest =>
    if isPeeringRouteEntry peeringName e then
      let routeTableId? := mget routeTableMap (requesterVpc.name ++ "_" ++ routeTable.name)
      let routeId := env.pascal (requesterVpc.name ++ "Vpc") ++
        env.pascal (routeTable.name ++ "RouteTable") ++ env.pascal e.name
      match routeTableId? with
      | none => Except.error (RtError.thrown ("Route Table " ++ routeTable.name ++ " not found"))
      | some routeTableId =>
        match e.destinationPrefixList with
        | some pl =>
          match mget prefixListMap pl with
          | none => Except.error (RtError.thrown
              ("[network-associations-stack] Prefix list " ++ pl ++ " not found"))
          | some plId =>
            match requesterRouteEntries env requesterVpc peeringName prefixListMap routeTableMap routeTable rest with
            | Except.error er => Except.error er
            | Except.ok evs =>
              Except.ok (PeeringRouteEvent.direct routeId routeTableId none (some plId) :: evs)
        | none =>
          match requesterRouteEntries env requesterVpc peeringName prefixListMap routeTableMap routeTable rest with
          | Except.error er => Except.error er
          | Except.ok evs =>
            Except.ok (PeeringRouteEvent.direct routeId routeTableId e.destination none :: evs)
    else
      requesterRouteEntries env requesterVpc peeringName prefixListMap routeTableMap routeTable rest

/-- The route-table loop of `createRequesterVpcPeeringRoutes`. -/
def requesterRouteTables (env : NaEnv) (requesterVpc : VpcConfig)
    (peeringName : String) (prefixListMap routeTableMap : SMap) :
    List RouteTableConfig → Except RtError (List PeeringRouteEvent)
  | [] => Except.ok []
  | rt :: rest =>
    match requesterRouteEntries env requesterVpc peeringName prefixListMap routeTableMap rt rt.routes with
    | Except.error e => Except.error e
    | Except.ok evs =>
      match requesterRouteTables env requesterVpc peeringName prefixListMap routeTableMap rest with
      | Except.error e => Except.error e
      | Except.ok evs' => Except.ok (evs ++ evs')

/-- Embedding of `NetworkAssociationsStack.createRequesterVpcPeeringRoutes`. -/
def createRequesterVpcPeeringRoutes (env : NaEnv) (requesterVpc : VpcConfig)
    (peeringName : String) (prefixListMap routeTableMap : SMap) :
    Except RtError (List PeeringRouteEvent) :=
  requesterRouteTables env requesterVpc peeringName prefixListMap routeTableMap
    requesterVpc.routeTables

/-- Embedding of the entry loop of `createAccepterVpcPeeringRoutes` for one
accepter route table.  In the cross-scope branch the source reads the
composite-keyed prefix list from the map WITHOUT the not-found check that the
same-scope branch performs, so a missing prefix list silently leaves
`destinationPrefixListId` undefined (`none`) in the emitted request. -/
def accepterRouteEntries (env : NaEnv) (accepterAccountId : String)
    (accepterVpc requesterVpc : VpcConfig) (peeringName : String)
    (crossAcctRouteProviderPresent : Bool) (prefixListMap routeTableMap : SMap)
    (routeTable : RouteTableConfig) :
    List RouteTableEntryConfig → Except RtError (List PeeringRouteEvent)
  | [] => Except.ok []
  | e :: rest =>
    if isPeeringRouteEntry peeringName e then
      let routeId := env.pascal (accepterVpc.name ++ "Vpc") ++
        env.pascal (routeTable.name ++ "RouteTable") ++ env.pascal e.name
      match mget routeTableMap (accepterVpc.name ++ "_" ++ routeTable.name) with
      | none => Except.error (RtError.thrown
          ("[network-associations-stack] Route Table " ++ routeTable.name ++ " not found"))
      | some routeTableId =>
        if requesterVpc.account == accepterVpc.account &&
           requesterVpc.region == accepterVpc.region then
          match e.destinationPrefixList with
          | some pl =>
            match mget prefixListMap pl with
            | none => Except.error (RtError.thrown
                ("[network-associations-stack] Prefix list " ++ pl ++ " not found"))
            | some plId =>
              match accepterRouteEntries env accepterAccountId accepterVpc requesterVpc peeringName crossAcctRouteProviderPresent prefixListMap routeTableMap routeTable rest with
              | Except.error er => Except.error er
              | Except.ok evs =>
                Except.ok (PeeringRouteEvent.direct routeId routeTableId none (some plId) :: evs)
          | none =>
            match accepterRouteEntries env accepterAccountId accepterVpc requesterVpc peeringName crossAcctRouteProviderPresent prefixListMap routeTableMap routeTable rest with
            | Except.error er => Except.error er
            | Except.ok evs =>
              Except.ok (PeeringRouteEvent.direct routeId routeTableId e.destination none :: evs)
        else
          let destinationPrefixListId :=
            match e.destinationPrefixList with
            | some pl => mget prefixListMap
                (accepterVpc.account ++ "_" ++ accepterVpc.region ++ "_" ++ pl)
            | none => none
          let destination :=
            match e.destinationPrefixList with
            | some _ => none
            | none => e.destination
          if !crossAcctRouteProviderPresent then
            Except.error (RtError.thrown
              ("[network-associations-stack] Cross-account route provider not created but required for " ++ e.name))
          else
            match accepterRouteEntries env accepterAccountId accepterVpc requesterVpc peeringName crossAcctRouteProviderPresent prefixListMap routeTableMap routeTable rest with
            | Except.error er => Except.error er
            | Except.ok evs =>
              Except.ok (PeeringRouteEvent.crossAcct routeId routeTableId destination destinationPrefixListId :: evs)
    else
      accepterRouteEntries env accepterAccountId accepterVpc requesterVpc peeringName crossAcctRouteProviderPresent prefixListMap routeTableMap routeTable rest

/-- The route-table loop of `createAccepterVpcPeeringRoutes`. -/
def accepterRouteTables (env : NaEnv) (accepterAccountId : String)
    (accepterVpc requesterVpc : VpcConfig) (peeringName : String)
    (crossAcctRouteProviderPresent : Bool) (prefixListMap routeTableMap : SMap) :
    List RouteTableConfig → Except RtError (List PeeringRouteEvent)
  | [] => Except.ok []
  | rt :: rest =>
    match accepterRouteEntries env accepterAccountId accepterVpc requesterVpc peeringName crossAcctRouteProviderPresent prefixListMap routeTableMap rt rt.routes with
    | Except.error e => Except.error e
    | Except.ok evs =>
      match accepterRouteTables env accepterAccountId accepterVpc requesterVpc peeringName crossAcctRouteProviderPresent prefixListMap routeTableMap rest with
      | Except.error e => Except.error e
      | Except.ok evs' => Except.ok (evs ++ evs')

/-- Embedding of `NetworkAssociationsStack.createAccepterVpcPeeringRoutes`. -/
def createAccepterVpcPeeringRoutes (env : NaEnv) (accepterAccountId : String)
    (accepterVpc requesterVpc : VpcConfig) (peeringName : String)
    (crossAcctRouteProviderPresent : Bool) (prefixListMap routeTableMap : SMap) :
    Except RtError (List PeeringRouteEvent) :=
  accepterRouteTables env accepterAccountId accepterVpc requesterVpc peeringName
    crossAcctRouteProviderPresent prefixListMap routeTableMap accepterVpc.routeTables

/-- `Map.set` over a whole map: the `forEach((value, key) => map.set(key,
value))` merge the map setters end with. -/
def msetAll (m : SMap) : SMap → SMap
  | [] => m
  | (k, v) :: rest => msetAll (mset m k v) rest

/-- Whether a prefix list belongs in this scope (the
`accountIds.includes(account) && regions.includes(region)` check of
`setPrefixListMap`). -/
def plInScope (env : NaEnv) (item : PrefixListConfig) : Bool :=
  (item.accounts.map env.acctId).contains env.account &&
  item.regions.contains env.region

/-- The in-scope loop of `setPrefixListMap`: one parameter read and one
`Map.set` per prefix list deployed to this scope.  The returned list records
the keys written, in `Map.set` order. -/
def prefixListItems (env : NaEnv) (m : SMap) :
    List PrefixListConfig → SMap × List String
  | [] => (m, [])
  | item :: rest =>
    if plInScope env item then
      let prefixListId := env.ssm ("/accelerator/network/prefixList/" ++ item.name ++ "/id")
      let r := prefixListItems env (mset m item.name prefixListId) rest
      (r.1, item.name :: r.2)
    else prefixListItems env m rest

/-- The cross-account condition of `setCrossAcctPrefixLists` and
`setCrossAcctRouteTables`: the accepter's resolved account id or region
differs from the requester's. -/
def peeringCrossAccountCondition (env : NaEnv) (p : Peering) (acc : VpcConfig) : Bool :=
  env.acctId acc.account != env.acctId p.requester.account ||
  acc.region != p.requester.region

/-- The route-entry loop of `setCrossAcctPrefixLists` for one accepter route
table: a guarded `Map.set` under the `account_region_prefixList` key for each
cross-account `vpcPeering` entry that names a destination prefix list. -/
def crossAcctPlEntries (env : NaEnv) (p : Peering) (acc : VpcConfig)
    (m : SMap) : List RouteTableEntryConfig → SMap
  | [] => m
  | e :: rest =>
    match e.destinationPrefixList with
    | some pl =>
      let mapKey := acc.account ++ "_" ++ acc.region ++ "_" ++ pl
      if isPeeringRouteEntry p.name e && peeringCrossAccountCondition env p acc &&
         !(mget m mapKey).isSome then
        let prefixListId := env.remoteSsm
          ("/accelerator/network/prefixList/" ++ pl ++ "/id")
          (env.acctId acc.account) acc.region
        crossAcctPlEntries env p acc (mset m mapKey prefixListId) rest
      else crossAcctPlEntries env p acc m rest
    | none => crossAcctPlEntries env p acc m rest

/-- The route-table loop of `setCrossAcctPrefixLists` for one peering's
accepter. -/
def crossAcctPlTables (env : NaEnv) (p : Peering) (acc : VpcConfig)
    (m : SMap) : List RouteTableConfig → SMap
  | [] => m
  | rt :: rest =>
    crossAcctPlTables env p acc (crossAcctPlEntries env p acc m rt.routes) rest

/-- Embedding of `NetworkAssociationsStack.setCrossAcctPrefixLists`: reading
`peering.accepter.account` of an `undefined` accepter is a `TypeError`. -/
def setCrossAcctPrefixLists (env : NaEnv) :
    List Peering → SMap → Except RtError SMap
  | [], m => Except.ok m
  | p :: rest, m =>
    match p.accepter with
    | none => Except.error (RtError.typeError ("account"))
    | some acc =>
      setCrossAcctPrefixLists env rest (crossAcctPlTables env p acc m acc.routeTables)

/-- Embedding of `NetworkAssociationsStack.setPrefixListMap`: the in-scope
writes followed by the `forEach` merge of the cross-account map.  The second
component is the full key write list: the in-scope keys in write order, then
the cross-account map's keys in its insertion order (each written at most
once there, by the `has` guard). -/
def setPrefixListMap (env : NaEnv) (cfg : NetworkConfig)
    (peerings : List Peering) : Except RtError (SMap × List String) :=
  let r := prefixListItems env [] cfg.prefixLists
  match setCrossAcctPrefixLists env peerings [] with
  | Except.error e => Except.error e
  | Except.ok cm => Except.ok (msetAll r.1 cm, r.2 ++ cm.map Prod.fst)

/-- The route-table loop of `setRouteTableMap` for one in-scope VPC: one
parameter read and one `Map.set` under the `vpcName_routeTableName` key per
route table. -/
def routeTableItems (env : NaEnv) (vpcItem : VpcConfig) (m : SMap) :
    List RouteTableConfig → SMap × List String
  | [] => (m, [])
  | rt :: rest =>
    let key := vpcItem.name ++ "_" ++ rt.name
    let routeTableId := env.ssm ("/accelerator/network/vpc/" ++ vpcItem.name ++
      "/routeTable/" ++ rt.name ++ "/id")
    let r := routeTableItems env vpcItem (mset m key routeTableId) rest
    (r.1, key :: r.2)

/-- The VPC loop of `setRouteTableMap`. -/
def routeTableVpcs (env : NaEnv) (m : SMap) : List VpcConfig → SMap × List String
  | [] => (m, [])
  | v :: rest =>
    if env.acctId v.account == env.account && v.region == env.region then
      let r := routeTableItems env v m v.routeTables
      let r2 := routeTableVpcs env r.1 rest
      (r2.1, r.2 ++ r2.2)
    else routeTableVpcs env m rest

/-- The keys the in-scope loop of `setRouteTableMap` writes, in write
order: one `vpcName_routeTableName` key per route table of each VPC in this
scope. -/
def localRtKeys (env : NaEnv) : List VpcConfig → List String
  | [] => []
  | v :: rest =>
    if env.acctId v.account == env.account && v.region == env.region then
      v.routeTables.map (fun rt => v.name ++ "_" ++ rt.name) ++ localRtKeys env rest
    else localRtKeys env rest

/-- The route-entry loop of `setCrossAcctRouteTables` for one accepter route
table: a guarded `Map.set` under the `accepterVpcName_routeTableName` key for
each cross-account `vpcPeering` entry. -/
def crossAcctRtEntries (env : NaEnv) (p : Peering) (acc : VpcConfig)
    (rt : RouteTableConfig) (m : SMap) : List RouteTableEntryConfig → SMap
  | [] => m
  | e :: rest =>
    let key := acc.name ++ "_" ++ rt.name
    if isPeeringRouteEntry p.name e && peeringCrossAccountCondition env p acc &&
       !(mget m key).isSome then
      let routeTableId := env.remoteSsm
        ("/accelerator/network/vpc/" ++ acc.name ++ "/routeTable/" ++ rt.name ++ "/id")
        (env.acctId acc.account) acc.region
      crossAcctRtEntries env p acc rt (mset m key routeTableId) rest
    else crossAcctRtEntries env p acc rt m rest

/-- The route-table loop of `setCrossAcctRouteTables` for one peering's
accepter. -/
def crossAcctRtTables (env : NaEnv) (p : Peering) (acc : VpcConfig)
    (m : SMap) : List RouteTableConfig → SMap
  | [] => m
  | rt :: rest =>
    crossAcctRtTables env p acc (crossAcctRtEntries env p acc rt m rt.routes) rest

/-- Embedding of `NetworkAssociationsStack.setCrossAcctRouteTables`. -/
def setCrossAcctRouteTables (env : NaEnv) :
    List Peering → SMap → Except RtError SMap
  | [], m => Except.ok m
  | p :: rest, m =>
    match p.accepter with
    | none => Except.error (RtError.typeError ("account"))
    | some acc =>
      setCrossAcctRouteTables env rest (crossAcctRtTables env p acc m acc.routeTables)

/-- Embedding of `NetworkAssociationsStack.setRouteTableMap`, restricted to
the plain `VpcConfig` variant as elsewhere in this development: the in-scope
writes followed by the `forEach` merge of the cross-account map, with the
full key write list as second component. -/
def setRouteTableMap (env : NaEnv) (cfg : NetworkConfig)
    (peerings : List Peering) : Except RtError (SMap × List String) :=
  let r := routeTableVpcs env [] cfg.vpcs
  match setCrossAcctRouteTables env peerings [] with
  | Except.error e => Except.error e
  | Except.ok rm => Except.ok (msetAll r.1 rm, r.2 ++ rm.map Prod.fst)

/-- The composite attachment key used by the stack to index the shared
`transitGatewayAttachments` map for VPC attachments: the owning account name
and the VPC name joined with the underscore separator
(line `const attachmentKey = ownin­gAccount_vpcItem.name` of the source). -/
def tgwAttachmentKey (owningAccount vpcName : String) : String :=
  owningAccount ++ "_" ++ vpcName

/-- Trace events of the transit gateway graph build.  `attachResolved` is a
write to the `transitGatewayAttachments` map, `assocCreated` and
`propCreated` are `TransitGatewayRouteTableAssociation` /
`…Propagation` construct requests, `staticRouteCreated` and `plRefCreated`
are `TransitGatewayStaticRoute` / `TransitGatewayPrefixListReference`
requests; `attachKey` is the map key the request was resolved through
(`none` when the route has no map-based attachment target). -/
inductive TgwEvent where
  | attachResolved (attachKey attachId : String)
  | assocCreated (attachKey attachId routeTableId : String)
  | propCreated (attachKey attachId routeTableId : String)
  | staticRouteCreated (routeId routeTableId : String)
      (attachKey attachId : Option String) (blackhole : Option Bool)
  | plRefCreated (plRouteId routeTableId prefixListId : String)
      (attachKey attachId : Option String) (blackhole : Option Bool)
deriving DecidableEq

/-- Mutable state of the transit gateway phase: the three resolution maps of
the stack plus the trace of emitted events. -/
structure TgwState where
  transitGateways : SMap := []
  transitGatewayRouteTables : SMap := []
  transitGatewayAttachments : SMap := []
  trace : List TgwEvent := []
deriving DecidableEq

/-- Embedding of `setTransitGatewayMap`. -/
def setTransitGatewayMap (env : NaEnv) (st : TgwState)
    (tgwItem : TransitGatewayConfig) : TgwState :=
  if env.acctId tgwItem.account == env.account && tgwItem.region == env.region then
    let transitGatewayId := env.ssm ("/accelerator/network/transitGateways/" ++ tgwItem.name ++ "/id")
    { st with transitGateways := mset st.transitGateways tgwItem.name transitGatewayId }
  else st

/-- Embedding of `setTransitGatewayRouteTableMap`. -/
def setTransitGatewayRouteTableMap (env : NaEnv) (st : TgwState)
    (tgwItem : TransitGatewayConfig) : TgwState :=
  if env.acctId tgwItem.account == env.account && tgwItem.region == env.region then
    tgwItem.routeTables.foldl
      (fun st rt =>
        let transitGatewayRouteTableId := env.ssm ("/accelerator/network/transitGateways/" ++
          tgwItem.name ++ "/routeTables/" ++ rt.name ++ "/id")
        let key := tgwItem.name ++ "_" ++ rt.name
        let m := mset st.transitGatewayRouteTables key transitGatewayRouteTableId
        { st with transitGatewayRouteTables := m })
      st
  else st

/-- Inner loop of `setTransitGatewayVpcAttachmentsMap` over the VPC's
transit gateway attachment declarations (plain `VpcConfig` variant: the
single owning account is the VPC's account and nothing is excluded). -/
def setTgwVpcAttachItems (env : NaEnv) (vpcItem : VpcConfig) (st : TgwState) :
    List TgwVpcAttachmentConfig → Except RtError TgwState
  | [] => Except.ok st
  | item :: rest =>
    let accountId := env.acctId item.transitGateway.account
    if accountId == env.account then
      match mget st.transitGateways item.transitGateway.name with
      | none => Except.error (RtError.thrown
          ("Transit Gateway " ++ item.transitGateway.name ++ " not found"))
      | some transitGatewayId =>
        let owningAccount := vpcItem.account
        let owningAccountId := env.acctId owningAccount
        let key := tgwAttachmentKey owningAccount vpcItem.name
        let attachId :=
          if accountId == owningAccountId then
            env.ssm ("/accelerator/network/vpc/" ++ vpcItem.name ++
              "/transitGatewayAttachment/" ++ item.name ++ "/id")
          else
            env.attachLookup item.name owningAccountId transitGatewayId ("VPC")
        setTgwVpcAttachItems env vpcItem
          { st with
            transitGatewayAttachments := mset st.transitGatewayAttachments key attachId,
            trace := st.trace ++ [TgwEvent.attachResolved key attachId] }
          rest
    else
      setTgwVpcAttachItems env vpcItem st rest

/-- Embedding of `setTransitGatewayVpcAttachmentsMap`. -/
def setTransitGatewayVpcAttachmentsMap (env : NaEnv) (st : TgwState)
    (vpcItem : VpcConfig) : Except RtError TgwState :=
  if vpcItem.region == env.region then
    setTgwVpcAttachItems env vpcItem st vpcItem.transitGatewayAttachments
  else Except.ok st

/-- Inner loop of `createVpcTransitGatewayAssociations` over one
attachment's `routeTableAssociations`. -/
def createVpcTgwAssocRts (st : TgwState) (tgwName attachmentKey attachId : String) :
    List String → Except RtError TgwState
  | [] => Except.ok st
  | routeTableItem :: rest =>
    let associationsKey := tgwName ++ "_" ++ routeTableItem
    match mget st.transitGatewayRouteTables associationsKey with
    | none => Except.error (RtError.thrown
        ("Transit Gateway Route Table " ++ associationsKey ++ " not found"))
    | some routeTableId =>
      createVpcTgwAssocRts
        { st with trace := st.trace ++
            [TgwEvent.assocCreated attachmentKey attachId routeTableId] }
        tgwName attachmentKey attachId rest

/-- Middle loop of `createVpcTransitGatewayAssociations` over the VPC's
attachment declarations. -/
def createVpcTgwAssocItems (env : NaEnv) (vpcItem : VpcConfig) (st : TgwState) :
    List TgwVpcAttachmentConfig → Except RtError TgwState
  | [] => Except.ok st
  | item :: rest =>
    let accountId := env.acctId item.transitGateway.account
    if accountId == env.account then
      let attachmentKey := tgwAttachmentKey vpcItem.account vpcItem.name
      match mget st.transitGatewayAttachments attachmentKey with
      | none => Except.error (RtError.thrown
          ("Transit Gateway attachment " ++ attachmentKey ++ " not found"))
      | some attachId =>
        match createVpcTgwAssocRts st item.transitGateway.name attachmentKey attachId
            item.routeTableAssociations with
        | Except.error e => Except.error e
        | Except.ok st' => createVpcTgwAssocItems env vpcItem st' rest
    else
      createVpcTgwAssocItems env vpcItem st rest

/-- Embedding of `createVpcTransitGatewayAssociations`. -/
def createVpcTransitGatewayAssociations (env : NaEnv) (st : TgwState)
    (vpcItem : VpcConfig) : Except RtError TgwState :=
  if vpcItem.region == env.region then
    createVpcTgwAssocItems env vpcItem st vpcItem.transitGatewayAttachments
  else Except.ok st

/-- Inner loop of `createVpcTransitGatewayPropagations` over one
attachment's `routeTablePropagations`. -/
def createVpcTgwPropRts (st : TgwState) (tgwName attachmentKey attachId : String) :
    List String → Except RtError TgwState
  | [] => Except.ok st
  | routeTableItem :: rest =>
    let propagationsKey := tgwName ++ "_" ++ routeTableItem
    match mget st.transitGatewayRouteTables propagationsKey with
    | none => Except.error (RtError.thrown
        ("Transit Gateway Route Table " ++ propagationsKey ++ " not found"))
    | some routeTableId =>
      createVpcTgwPropRts
        { st with trace := st.trace ++
            [TgwEvent.propCreated attachmentKey attachId routeTableId] }
        tgwName attachmentKey attachId rest

/-- Middle loop of `createVpcTransitGatewayPropagations`. -/
def createVpcTgwPropItems (env : NaEnv) (vpcItem : VpcConfig) (st : TgwState) :
    List TgwVpcAttachmentConfig → Except RtError TgwState
  | [] => Except.ok st
  | item :: rest =>
    let accountId := env.acctId item.transitGateway.account
    if accountId == env.account then
      let attachmentKey := tgwAttachmentKey vpcItem.account vpcItem.name
      match mget st.transitGatewayAttachments attachmentKey with
      | none => Except.error (RtError.thrown
          ("Transit Gateway attachment " ++ attachmentKey ++ " not found"))
      | some attachId =>
        match createVpcTgwPropRts st item.transitGateway.name attachmentKey attachId
            item.routeTablePropagations with
        | Except.error e => Except.error e
        | Except.ok st' => createVpcTgwPropItems env vpcItem st' rest
    else
      createVpcTgwPropItems env vpcItem st rest

/-- Embedding of `createVpcTransitGatewayPropagations`. -/
def createVpcTransitGatewayPropagations (env : NaEnv) (st : TgwState)
    (vpcItem : VpcConfig) : Except RtError TgwState :=
  if vpcItem.region == env.region then
    createVpcTgwPropItems env vpcItem st vpcItem.transitGatewayAttachments
  else Except.ok st

/-- Embedding of `setTransitGatewayVpnAttachmentsMap` for one VPN
connection of a customer gateway. -/
def setTransitGatewayVpnAttachmentsMap (env : NaEnv) (cfg : NetworkConfig)
    (st : TgwState) (cgwItem : CustomerGatewayConfig)
    (vpnItem : VpnConnectionConfig) : Except RtError TgwState :=
  let accountId := env.acctId cgwItem.account
  if accountId == env.account && cgwItem.region == env.region &&
     vpnItem.transitGateway.isSome then
    match cfg.transitGateways.find? (fun t => some t.name == vpnItem.transitGateway) with
    | none => Except.error (RtError.typeError ("name"))
    | some tgw =>
      match mget st.transitGateways tgw.name with
      | none => Except.error (RtError.thrown
          ("Transit Gateway " ++ tgw.name ++ " not found"))
      | some transitGatewayId =>
        let key := vpnItem.name ++ "_" ++ tgw.name
        let attachId := env.attachLookup vpnItem.name accountId transitGatewayId ("VPN")
        Except.ok { st with
          transitGatewayAttachments := mset st.transitGatewayAttachments key attachId,
          trace := st.trace ++ [TgwEvent.attachResolved key attachId] }
  else Except.ok st

/-- Inner loop of `createVpnTransitGatewayAssociations`. -/
def createVpnTgwAssocRts (st : TgwState) (tgwName attachmentKey attachId : String) :
    List String → Except RtError TgwState
  | [] => Except.ok st
  | routeTableItem :: rest =>
    let routeTableKey := tgwName ++ "_" ++ routeTableItem
    match mget st.transitGatewayRouteTables routeTableKey with
    | none => Except.error (RtError.thrown
        ("Transit Gateway Route Table " ++ routeTableKey ++ " not found"))
    | some routeTableId =>
      createVpnTgwAssocRts
        { st with trace := st.trace ++
            [TgwEvent.assocCreated attachmentKey attachId routeTableId] }
        tgwName attachmentKey attachId rest

/-- Embedding of `createVpnTransitGatewayAssociations`. -/
def createVpnTransitGatewayAssociations (env : NaEnv) (st : TgwState)
    (cgwItem : CustomerGatewayConfig) (vpnItem : VpnConnectionConfig) :
    Except RtError TgwState :=
  let accountId := env.acctId cgwItem.account
  match vpnItem.routeTableAssociations with
  | none => Except.ok st
  | some rta =>
    if accountId == env.account && cgwItem.region == env.region then
      let attachmentKey := vpnItem.name ++ "_" ++ (vpnItem.transitGateway.getD (""))
      match mget st.transitGatewayAttachments attachmentKey with
      | none => Except.error (RtError.thrown
          ("Transit Gateway attachment " ++ attachmentKey ++ " not found"))
      | some attachId =>
        createVpnTgwAssocRts st (vpnItem.transitGateway.getD ("")) attachmentKey attachId rta
    else Except.ok st

/-- Inner loop of `createVpnTransitGatewayPropagations` over
`routeTablePropagations`. -/
def createVpnTgwPropRts (st : TgwState) (tgwName attachmentKey attachId : String) :
    List String → Except RtError TgwState
  | [] => Except.ok st
  | routeTableItem :: rest =>
    let routeTableKey := tgwName ++ "_" ++ routeTableItem
    match mget st.transitGatewayRouteTables routeTableKey with
    | none => Except.error (RtError.thrown
        ("Transit Gateway Route Table " ++ routeTableKey ++ " not found"))
    | some routeTableId =>
      createVpnTgwPropRts
        { st with trace := st.trace ++
            [TgwEvent.propCreated attachmentKey attachId routeTableId] }
        tgwName attachmentKey attachId rest

/-- Embedding of `createVpnTransitGatewayPropagations`. -/
def createVpnTransitGatewayPropagations (env : NaEnv) (st : TgwState)
    (cgwItem : CustomerGatewayConfig) (vpnItem : VpnConnectionConfig) :
    Except RtError TgwState :=
  let accountId := env.acctId cgwItem.account
  match vpnItem.routeTablePropagations with
  | none => Except.ok st
  | some rtp =>
    if accountId == env.account && cgwItem.region == env.region then
      let attachmentKey := vpnItem.name ++ "_" ++ (vpnItem.transitGateway.getD (""))
      match mget st.transitGatewayAttachments attachmentKey with
      | none => Except.error (RtError.thrown
          ("Transit Gateway attachment " ++ attachmentKey ++ " not found"))
      | some attachId =>
        createVpnTgwPropRts st (vpnItem.transitGateway.getD ("")) attachmentKey attachId rtp
    else Except.ok st

/-- The per-VPC body of `createTransitGatewayResources`: resolve this VPC's
attachments, then create its associations, then its propagations, before
moving on to the next VPC. -/
def tgwResourcesVpcStep (env : NaEnv) (st : TgwState) (vpcItem : VpcConfig) :
    Except RtError TgwState :=
  match setTransitGatewayVpcAttachmentsMap env st vpcItem with
  | Except.error e => Except.error e
  | Except.ok st1 =>
    match createVpcTransitGatewayAssociations env st1 vpcItem with
    | Except.error e => Except.error e
    | Except.ok st2 => createVpcTransitGatewayPropagations env st2 vpcItem

/-- The VPC loop of `createTransitGatewayResources`. -/
def tgwResourcesVpcs (env : NaEnv) (st : TgwState) :
    List VpcConfig → Except RtError TgwState
  | [] => Except.ok st
  | vpc :: rest =>
    match tgwResourcesVpcStep env st vpc with
    | Except.error e => Except.error e
    | Except.ok st' => tgwResourcesVpcs env st' rest

/-- The per-VPN body of `createTransitGatewayResources`. -/
def tgwResourcesVpnStep (env : NaEnv) (cfg : NetworkConfig) (st : TgwState)
    (cgwItem : CustomerGatewayConfig) (vpnItem : VpnConnectionConfig) :
    Except RtError TgwState :=
  match setTransitGatewayVpnAttachmentsMap env cfg st cgwItem vpnItem with
  | Except.error e => Except.error e
  | Except.ok st1 =>
    match createVpnTransitGatewayAssociations env st1 cgwItem vpnItem with
    | Except.error e => Except.error e
    | Except.ok st2 => createVpnTransitGatewayPropagations env st2 cgwItem vpnItem

/-- The VPN loop of `createTransitGatewayResources` for one customer
gateway. -/
def tgwResourcesVpns (env : NaEnv) (cfg : NetworkConfig) (st : TgwState)
    (cgwItem : CustomerGatewayConfig) :
    List VpnConnectionConfig → Except RtError TgwState
  | [] => Except.ok st
  | vpn :: rest =>
    match tgwResourcesVpnStep env cfg st cgwItem vpn with
    | Except.error e => Except.error e
    | Except.ok st' => tgwResourcesVpns env cfg st' cgwItem rest

/-- The customer gateway loop of `createTransitGatewayResources`. -/
def tgwResourcesCgws (env : NaEnv) (cfg : NetworkConfig) (st : TgwState) :
    List CustomerGatewayConfig → Except RtError TgwState
  | [] => Except.ok st
  | cgw :: rest =>
    match tgwResourcesVpns env cfg st cgw cgw.vpnConnections with
    | Except.error e => Except.error e
    | Except.ok st' => tgwResourcesCgws env cfg st' rest

/-- Embedding of `NetworkAssociationsStack.createTransitGatewayResources`:
build the transit gateway and route table maps, then for each VPC in turn
resolve attachments and create associations and propagations, then the same
for each VPN connection. -/
def createTransitGatewayResources (env : NaEnv) (cfg : NetworkConfig) :
    Except RtError TgwState :=
  let st0 := cfg.transitGateways.foldl
    (fun st t => setTransitGatewayRouteTableMap env (setTransitGatewayMap env st t) t)
    {}
  match tgwResourcesVpcs env st0 cfg.vpcs with
  | Except.error e => Except.error e
  | Except.ok st1 => tgwResourcesCgws env cfg st1 cfg.customerGateways

/-- Embedding of `getTgwPeeringAttachmentId`: resolve the attachment of a
transit gateway peering, through the requester's published parameter or a
lookup in the accepter account, else fail. -/
def getTgwPeeringAttachmentId (env : NaEnv) (cfg : NetworkConfig)
    (st : TgwState) (transitGatewayPeeringName : String)
    (tgwItem : TransitGatewayConfig) : Except RtError String :=
  match cfg.transitGatewayPeering.find? (fun p => p.name == transitGatewayPeeringName) with
  | none => Except.error (RtError.thrown
      ("Transit gateway peering " ++ transitGatewayPeeringName ++ " not found !!!"))
  | some peering =>
    if env.acctId peering.requester.account == env.account then
      Except.ok (env.ssm ("/accelerator/network/transitGateways/" ++ tgwItem.name ++
        "/peering/" ++ transitGatewayPeeringName ++ "/id"))
    else if env.acctId peering.accepter.account == env.account then
      match mget st.transitGateways peering.accepter.transitGatewayName with
      | none => Except.error (RtError.thrown
          ("Transit Gateway " ++ peering.accepter.transitGatewayName ++ " not found"))
      | some transitGatewayId =>
        Except.ok (env.attachLookup transitGatewayPeeringName env.account transitGatewayId ("PEERING"))
    else
      Except.error (RtError.thrown
        ("Transit Gateway attachment id not found for " ++ transitGatewayPeeringName))

/-- The `transitGatewayAttachments` map key a static route's attachment
target is resolved through (`none` for the peering kind, which is resolved
by `getTgwPeeringAttachmentId` instead of the map). -/
def staticRouteAttachmentMapKey (tgwItem : TransitGatewayConfig) :
    TgwRouteAttachment → Option String
  | TgwRouteAttachment.vpcAttach account vpcName => some (tgwAttachmentKey account vpcName)
  | TgwRouteAttachment.dxGatewayAttach n => some (n ++ "_" ++ tgwItem.name)
  | TgwRouteAttachment.vpnAttach n => some (n ++ "_" ++ tgwItem.name)
  | TgwRouteAttachment.tgwPeeringAttach _ => none

/-- The logical route identifier computed by the static-route branch of
`createTransitGatewayStaticRouteItem` for each attachment kind. -/
def staticRouteId (routeTableItem : TransitGatewayRouteTableConfig)
    (cidr : String) : TgwRouteAttachment → String
  | TgwRouteAttachment.vpcAttach account vpcName =>
      routeTableItem.name ++ "-" ++ cidr ++ "-" ++ vpcName ++ "-" ++ account
  | TgwRouteAttachment.dxGatewayAttach n => routeTableItem.name ++ "-" ++ cidr ++ "-" ++ n
  | TgwRouteAttachment.vpnAttach n => routeTableItem.name ++ "-" ++ cidr ++ "-" ++ n
  | TgwRouteAttachment.tgwPeeringAttach n => routeTableItem.name ++ "-" ++ cidr ++ "-" ++ n

/-- The logical identifier computed by the prefix-list branch of
`createTransitGatewayStaticRouteItem` for each attachment kind. -/
def plRouteIdOf (env : NaEnv) (routeTableItem : TransitGatewayRouteTableConfig)
    (pl : String) : TgwRouteAttachment → String
  | TgwRouteAttachment.vpcAttach account vpcName =>
      env.pascal (routeTableItem.name ++ pl ++ vpcName ++ account)
  | TgwRouteAttachment.dxGatewayAttach n => env.pascal (routeTableItem.name ++ pl ++ n)
  | TgwRouteAttachment.vpnAttach n => env.pascal (routeTableItem.name ++ pl ++ n)
  | TgwRouteAttachment.tgwPeeringAttach n => env.pascal (routeTableItem.name ++ pl ++ n)

/-- The exact message of the `AttachmentNotFound` error thrown by
`createTransitGatewayStaticRouteItem`: it names the route table, and only
the route table. -/
def attachmentNotFoundMsg (routeTableItem : TransitGatewayRouteTableConfig) : String :=
  "[network-associations-stack] Unable to locate transit gateway attachment ID for route table item "
    ++ routeTableItem.name

/-- The static-route half of `createTransitGatewayStaticRouteItem`
(the `routeItem.destinationCidrBlock` branch): classify the attachment
target by its shape, resolve the attachment identifier, and emit the
`TransitGatewayStaticRoute` request, or fail when an attachment target
cannot be resolved. -/
def staticRouteHalf (env : NaEnv) (cfg : NetworkConfig) (st : TgwState)
    (tgwItem : TransitGatewayConfig)
    (routeTableItem : TransitGatewayRouteTableConfig)
    (routeItem : TgwRouteEntryConfig) (transitGatewayRouteTableId : String) :
    Except RtError TgwState :=
  match routeItem.destinationCidrBlock with
  | none => Except.ok st
  | some cidr =>
    let blackholeId := if routeItem.blackhole == some true then
        routeTableItem.name ++ "-" ++ cidr ++ "-blackhole" else ""
    match routeItem.attachment with
    | none =>
      Except.ok { st with trace := st.trace ++
        [TgwEvent.staticRouteCreated blackholeId transitGatewayRouteTableId none none routeItem.blackhole] }
    | some att =>
      let routeId := staticRouteId routeTableItem cidr att
      match att with
      | TgwRouteAttachment.tgwPeeringAttach peerName =>
        match getTgwPeeringAttachmentId env cfg st peerName tgwItem with
        | Except.error e => Except.error e
        | Except.ok attachId =>
          Except.ok { st with trace := st.trace ++
            [TgwEvent.staticRouteCreated routeId transitGatewayRouteTableId none (some attachId) routeItem.blackhole] }
      | _ =>
        match staticRouteAttachmentMapKey tgwItem att with
        | none => Except.error (RtError.thrown (attachmentNotFoundMsg routeTableItem))
        | some key =>
          match mget st.transitGatewayAttachments key with
          | none => Except.error (RtError.thrown (attachmentNotFoundMsg routeTableItem))
          | some attachId =>
            Except.ok { st with trace := st.trace ++
              [TgwEvent.staticRouteCreated routeId transitGatewayRouteTableId (some key) (some attachId) routeItem.blackhole] }

/-- The prefix-list half of `createTransitGatewayStaticRouteItem`
(the `routeItem.destinationPrefixList` branch). -/
def plReferenceHalf (env : NaEnv) (cfg : NetworkConfig) (st : TgwState)
    (prefixListMap : SMap) (tgwItem : TransitGatewayConfig)
    (routeTableItem : TransitGatewayRouteTableConfig)
    (routeItem : TgwRouteEntryConfig) (transitGatewayRouteTableId : String) :
    Except RtError TgwState :=
  match routeItem.destinationPrefixList with
  | none => Except.ok st
  | some pl =>
    match mget prefixListMap pl with
    | none => Except.error (RtError.thrown
        ("[network-associations-stack] Prefix list " ++ pl ++ " not found"))
    | some prefixListId =>
      let blackholeId := if routeItem.blackhole == some true then
          env.pascal (routeTableItem.name ++ pl ++ "Blackhole") else ""
      match routeItem.attachment with
      | none =>
        Except.ok { st with trace := st.trace ++
          [TgwEvent.plRefCreated blackholeId transitGatewayRouteTableId prefixListId none none routeItem.blackhole] }
      | some att =>
        let plRouteId := plRouteIdOf env routeTableItem pl att
        match att with
        | TgwRouteAttachment.tgwPeeringAttach peerName =>
          match getTgwPeeringAttachmentId env cfg st peerName tgwItem with
          | Except.error e => Except.error e
          | Except.ok attachId =>
            Except.ok { st with trace := st.trace ++
              [TgwEvent.plRefCreated plRouteId transitGatewayRouteTableId prefixListId none (some attachId) routeItem.blackhole] }
        | _ =>
          match staticRouteAttachmentMapKey tgwItem att with
          | none => Except.error (RtError.thrown (attachmentNotFoundMsg routeTableItem))
          | some key =>
            match mget st.transitGatewayAttachments key with
            | none => Except.error (RtError.thrown (attachmentNotFoundMsg routeTableItem))
            | some attachId =>
              Except.ok { st with trace := st.trace ++
                [TgwEvent.plRefCreated plRouteId transitGatewayRouteTableId prefixListId (some key) (some attachId) routeItem.blackhole] }

/-- Embedding of `createTransitGatewayStaticRouteItem`: the static-route
branch, then the prefix-list-reference branch. -/
def createTransitGatewayStaticRouteItem (env : NaEnv) (cfg : NetworkConfig)
    (st : TgwState) (prefixListMap : SMap) (tgwItem : TransitGatewayConfig)
    (routeTableItem : TransitGatewayRouteTableConfig)
    (routeItem : TgwRouteEntryConfig) (transitGatewayRouteTableId : String) :
    Except RtError TgwState :=
  match staticRouteHalf env cfg st tgwItem routeTableItem routeItem transitGatewayRouteTableId with
  | Except.error e => Except.error e
  | Except.ok st1 =>
    plReferenceHalf env cfg st1 prefixListMap tgwItem routeTableItem routeItem transitGatewayRouteTableId

/-- The route loop of `createTransitGatewayStaticRoutes` for one route
table. -/
def tgwStaticRouteEntries (env : NaEnv) (cfg : NetworkConfig) (st : TgwState)
    (prefixListMap : SMap) (tgwItem : TransitGatewayConfig)
    (routeTableItem : TransitGatewayRouteTableConfig)
    (transitGatewayRouteTableId : String) :
    List TgwRouteEntryConfig → Except RtError TgwState
  | [] => Except.ok st
  | routeItem :: rest =>
    match createTransitGatewayStaticRouteItem env cfg st prefixListMap tgwItem
        routeTableItem routeItem transitGatewayRouteTableId with
    | Except.error e => Except.error e
    | Except.ok st' =>
      tgwStaticRouteEntries env cfg st' prefixListMap tgwItem routeTableItem
        transitGatewayRouteTableId rest

/-- The route-table loop of `createTransitGatewayStaticRoutes` for one
transit gateway. -/
def tgwStaticRouteTables (env : NaEnv) (cfg : NetworkConfig) (st : TgwState)
    (prefixListMap : SMap) (tgwItem : TransitGatewayConfig) :
    List TransitGatewayRouteTableConfig → Except RtError TgwState
  | [] => Except.ok st
  | routeTableItem :: rest =>
    let routeTableKey := tgwItem.name ++ "_" ++ routeTableItem.name
    match mget st.transitGatewayRouteTables routeTableKey with
    | none => Except.error (RtError.thrown
        ("[network-associations-stack] Transit Gateway route table " ++ routeTableKey ++ " not found"))
    | some transitGatewayRouteTableId =>
      match tgwStaticRouteEntries env cfg st prefixListMap tgwItem routeTableItem
          transitGatewayRouteTableId routeTableItem.routes with
      | Except.error e => Except.error e
      | Except.ok st' => tgwStaticRouteTables env cfg st' prefixListMap tgwItem rest

/-- The transit gateway loop of `createTransitGatewayStaticRoutes`. -/
def tgwStaticList (env : NaEnv) (cfg : NetworkConfig) (st : TgwState)
    (prefixListMap : SMap) : List TransitGatewayConfig → Except RtError TgwState
  | [] => Except.ok st
  | tgwItem :: rest =>
    if env.acctId tgwItem.account == env.account && tgwItem.region == env.region then
      match tgwStaticRouteTables env cfg st prefixListMap tgwItem tgwItem.routeTables with
      | Except.error e => Except.error e
      | Except.ok st' => tgwStaticList env cfg st' prefixListMap rest
    else tgwStaticList env cfg st prefixListMap rest

/-- Embedding of `createTransitGatewayStaticRoutes`. -/
def createTransitGatewayStaticRoutes (env : NaEnv) (cfg : NetworkConfig)
    (st : TgwState) (prefixListMap : SMap) :
    Except RtError TgwState :=
  tgwStaticList env cfg st prefixListMap cfg.transitGateways

/-- The transit gateway part of the stack constructor in its source order:
`createTransitGatewayResources` first (attachments, associations,
propagations), `createTransitGatewayStaticRoutes` afterwards (static
routes, blackhole routes, prefix-list references). -/
def tgwPhase (env : NaEnv) (cfg : NetworkConfig) (prefixListMap : SMap) :
    Except RtError TgwState :=
  match createTransitGatewayResources env cfg with
  | Except.error e => Except.error e
  | Except.ok st => createTransitGatewayStaticRoutes env cfg st prefixListMap

/-- How a shared-resource identifier was obtained: a local namespaced
parameter read, or a query of the organization-wide resource share by share
name and resource-type tag in the owning account. -/
inductive LookupSource where
  | localParam (param : String)
  | resourceShare (shareName resourceTypeTag owningAccountId : String)
deriving DecidableEq

/-- Trace events of the central-network-services association step: one
lookup event per map population, and one association event per construct
request. -/
inductive CnaEvent where
  | fwRuleGroupLookup (name : String) (src : LookupSource) (ruleId : String)
  | fwAssoc (name vpcName ruleId : String)
  | queryLogLookup (name : String) (src : LookupSource) (configId : String)
  | queryLogAssoc (name vpcName configId : String)
  | resolverRuleLookup (name : String) (src : LookupSource) (ruleId : String)
  | resolverRuleAssoc (name vpcName ruleId : String)
  | nfwPolicyLookup (name : String) (src : LookupSource) (policyArn : String)
deriving DecidableEq

/-- Mutable state of the central-network-services step: the three guarded
per-scope maps of the stack plus the trace. -/
structure CnaState where
  dnsFirewallMap : SMap := []
  queryLogMap : SMap := []
  resolverRuleMap : SMap := []
  trace : List CnaEvent := []
deriving DecidableEq

/-- Loop body of `createDnsFirewallAssociations` over the VPC's DNS
firewall rule group references: a lookup (local parameter in the delegated
admin account, resource share otherwise) guarded by map membership,
followed by the association request reading the map. -/
def dnsFirewallItems (env : NaEnv) (owningAccountId vpcName : String)
    (st : CnaState) : List (String × Nat) → Except RtError CnaState
  | [] => Except.ok st
  | (fwName, _) :: rest =>
    let st1 :=
      if (mget st.dnsFirewallMap fwName).isSome then st
      else if owningAccountId == env.account then
        let param := "/accelerator/network/route53Resolver/firewall/ruleGroups/" ++ fwName ++ "/id"
        let ruleId := env.ssm param
        { st with dnsFirewallMap := mset st.dnsFirewallMap fwName ruleId,
                  trace := st.trace ++
                    [CnaEvent.fwRuleGroupLookup fwName (LookupSource.localParam param) ruleId] }
      else
        let shareName := fwName ++ "_ResolverFirewallRuleGroupShare"
        let ruleId := env.share shareName ("route53resolver:FirewallRuleGroup") owningAccountId
        { st with dnsFirewallMap := mset st.dnsFirewallMap fwName ruleId,
                  trace := st.trace ++
                    [CnaEvent.fwRuleGroupLookup fwName
                      (LookupSource.resourceShare shareName ("route53resolver:FirewallRuleGroup") owningAccountId) ruleId] }
    match mget st1.dnsFirewallMap fwName with
    | none => Except.error (RtError.thrown
        ("[network-associations-stack] Could not find existing DNS firewall rule group " ++ fwName))
    | some ruleId =>
      dnsFirewallItems env owningAccountId vpcName
        { st1 with trace := st1.trace ++ [CnaEvent.fwAssoc fwName vpcName ruleId] } rest

/-- Embedding of `createDnsFirewallAssociations` for one VPC. -/
def createDnsFirewallAssociations (env : NaEnv) (st : CnaState)
    (vpcItem : VpcConfig) (owningAccountId : String) : Except RtError CnaState :=
  dnsFirewallItems env owningAccountId vpcItem.name st vpcItem.dnsFirewallRuleGroupNames

/-- The `configNames` computed for one query-log reference from the
central query-log destinations (`-s3` and `-cwl` variants). -/
def queryLogConfigNames (destinations : List String) (configItem : String) : List String :=
  (if destinations.contains ("s3") then [configItem ++ "-s3"] else []) ++
  (if destinations.contains ("cloud-watch-logs") then [configItem ++ "-cwl"] else [])

/-- The lookup loop of `createQueryLogConfigAssociations` over the config
names of one query-log reference. -/
def queryLogLookups (env : NaEnv) (owningAccountId : String) (st : CnaState) :
    List String → CnaState
  | [] => st
  | nameItem :: rest =>
    let st1 :=
      if (mget st.queryLogMap nameItem).isSome then st
      else if owningAccountId == env.account then
        let param := "/accelerator/network/route53Resolver/queryLogConfigs/" ++ nameItem ++ "/id"
        let configId := env.ssm param
        { st with queryLogMap := mset st.queryLogMap nameItem configId,
                  trace := st.trace ++
                    [CnaEvent.queryLogLookup nameItem (LookupSource.localParam param) configId] }
      else
        let shareName := nameItem ++ "_QueryLogConfigShare"
        let configId := env.share shareName ("route53resolver:ResolverQueryLogConfig") owningAccountId
        { st with queryLogMap := mset st.queryLogMap nameItem configId,
                  trace := st.trace ++
                    [CnaEvent.queryLogLookup nameItem
                      (LookupSource.resourceShare shareName ("route53resolver:ResolverQueryLogConfig") owningAccountId) configId] }
    queryLogLookups env owningAccountId st1 rest

/-- The association loop of `createQueryLogConfigAssociations` over the
config names of one query-log reference. -/
def queryLogAssocs (vpcName : String) (st : CnaState) :
    List String → Except RtError CnaState
  | [] => Except.ok st
  | nameItem :: rest =>
    match mget st.queryLogMap nameItem with
    | none => Except.error (RtError.thrown
        ("[network-associations-stack] Could not find existing DNS query log config " ++ nameItem))
    | some configId =>
      queryLogAssocs vpcName
        { st with trace := st.trace ++ [CnaEvent.queryLogAssoc nameItem vpcName configId] } rest

/-- Loop body of `createQueryLogConfigAssociations` over the VPC's
query-log references. -/
def queryLogItems (env : NaEnv) (destinations : List String)
    (owningAccountId vpcName : String) (st : CnaState) :
    List String → Except RtError CnaState
  | [] => Except.ok st
  | configItem :: rest =>
    let configNames := queryLogConfigNames destinations configItem
    let st1 := queryLogLookups env owningAccountId st configNames
    match queryLogAssocs vpcName st1 configNames with
    | Except.error e => Except.error e
    | Except.ok st2 => queryLogItems env destinations owningAccountId vpcName st2 rest

/-- Embedding of `createQueryLogConfigAssociations` for one VPC. -/
def createQueryLogConfigAssociations (env : NaEnv) (destinations : List String)
    (st : CnaState) (vpcItem : VpcConfig) (owningAccountId : String) :
    Except RtError CnaState :=
  queryLogItems env destinations owningAccountId vpcItem.name st vpcItem.queryLogNames

/-- Loop body of `createResolverRuleAssociations` over the VPC's resolver
rule references. -/
def resolverRuleItems (env : NaEnv) (owningAccountId vpcName : String)
    (st : CnaState) : List String → Except RtError CnaState
  | [] => Except.ok st
  | ruleItem :: rest =>
    let st1 :=
      if (mget st.resolverRuleMap ruleItem).isSome then st
      else if owningAccountId == env.account then
        let param := "/accelerator/network/route53Resolver/rules/" ++ ruleItem ++ "/id"
        let ruleId := env.ssm param
        { st with resolverRuleMap := mset st.resolverRuleMap ruleItem ruleId,
                  trace := st.trace ++
                    [CnaEvent.resolverRuleLookup ruleItem (LookupSource.localParam param) ruleId] }
      else
        let shareName := ruleItem ++ "_ResolverRule"
        let ruleId := env.share shareName ("route53resolver:ResolverRule") owningAccountId
        { st with resolverRuleMap := mset st.resolverRuleMap ruleItem ruleId,
                  trace := st.trace ++
                    [CnaEvent.resolverRuleLookup ruleItem
                      (LookupSource.resourceShare shareName ("route53resolver:ResolverRule") owningAccountId) ruleId] }
    match mget st1.resolverRuleMap ruleItem with
    | none => Except.error (RtError.thrown
        ("[network-associations-stack] Could not find existing Route 53 Resolver rule " ++ ruleItem))
    | some ruleId =>
      resolverRuleItems env owningAccountId vpcName
        { st1 with trace := st1.trace ++ [CnaEvent.resolverRuleAssoc ruleItem vpcName ruleId] } rest

/-- Embedding of `createResolverRuleAssociations` for one VPC. -/
def createResolverRuleAssociations (env : NaEnv) (st : CnaState)
    (vpcItem : VpcConfig) (owningAccountId : String) : Except RtError CnaState :=
  resolverRuleItems env owningAccountId vpcItem.name st vpcItem.resolverRuleNames

/-- The per-VPC body of `createCentralNetworkAssociations`. -/
def centralNetworkVpcStep (env : NaEnv) (central : CentralNetworkConfig)
    (st : CnaState) (vpcItem : VpcConfig) : Except RtError CnaState :=
  let delegatedAdminAccountId := env.acctId central.delegatedAdminAccount
  if env.acctId vpcItem.account == env.account && vpcItem.region == env.region then
    match createDnsFirewallAssociations env st vpcItem delegatedAdminAccountId with
    | Except.error e => Except.error e
    | Except.ok st1 =>
      match createQueryLogConfigAssociations env central.queryLogDestinations st1
          vpcItem delegatedAdminAccountId with
      | Except.error e => Except.error e
      | Except.ok st2 => createResolverRuleAssociations env st2 vpcItem delegatedAdminAccountId
  else Except.ok st

/-- The VPC loop of `createCentralNetworkAssociations`. -/
def centralNetworkVpcs (env : NaEnv) (central : CentralNetworkConfig)
    (st : CnaState) : List VpcConfig → Except RtError CnaState
  | [] => Except.ok st
  | vpc :: rest =>
    match centralNetworkVpcStep env central st vpc with
    | Except.error e => Except.error e
    | Except.ok st' => centralNetworkVpcs env central st' rest

/-- Embedding of `NetworkAssociationsStack.createCentralNetworkAssociations`. -/
def createCentralNetworkAssociations (env : NaEnv) (cfg : NetworkConfig) :
    Except RtError CnaState :=
  match cfg.centralNetworkServices with
  | none => Except.ok {}
  | some central => centralNetworkVpcs env central {} cfg.vpcs

/-- Inner loop of `NetworkVpcEndpointsStack.setNfwPolicyMap` over the
central network firewalls, for one in-scope VPC: resolve each referenced
firewall policy once, locally in the delegated admin account or through the
resource share otherwise. -/
def nfwPolicyFirewalls (env : NaEnv) (delegatedAdminAccountId vpcName : String)
    (policyMap : SMap) (tr : List CnaEvent) :
    List NfwFirewallConfig → SMap × List CnaEvent
  | [] => (policyMap, tr)
  | firewallItem :: rest =>
    if firewallItem.vpc == vpcName && !(mget policyMap firewallItem.firewallPolicy).isSome then
      if delegatedAdminAccountId == env.account then
        let param := "/accelerator/network/networkFirewall/policies/" ++
          firewallItem.firewallPolicy ++ "/arn"
        let policyArn := env.ssm param
        nfwPolicyFirewalls env delegatedAdminAccountId vpcName
          (mset policyMap firewallItem.firewallPolicy policyArn)
          (tr ++ [CnaEvent.nfwPolicyLookup firewallItem.firewallPolicy
            (LookupSource.localParam param) policyArn]) rest
      else
        let shareName := firewallItem.firewallPolicy ++ "_NetworkFirewallPolicyShare"
        let policyArn := env.share shareName ("network-firewall:FirewallPolicy") delegatedAdminAccountId
        nfwPolicyFirewalls env delegatedAdminAccountId vpcName
          (mset policyMap firewallItem.firewallPolicy policyArn)
          (tr ++ [CnaEvent.nfwPolicyLookup firewallItem.firewallPolicy
            (LookupSource.resourceShare shareName ("network-firewall:FirewallPolicy") delegatedAdminAccountId) policyArn]) rest
    else
      nfwPolicyFirewalls env delegatedAdminAccountId vpcName policyMap tr rest

/-- The VPC loop of `setNfwPolicyMap`. -/
def nfwPolicyVpcs (env : NaEnv) (central : CentralNetworkConfig)
    (policyMap : SMap) (tr : List CnaEvent) :
    List VpcConfig → SMap × List CnaEvent
  | [] => (policyMap, tr)
  | vpcItem :: rest =>
    let delegatedAdminAccountId := env.acctId central.delegatedAdminAccount
    if env.acctId vpcItem.account == env.account && vpcItem.region == env.region then
      let (m, t) := nfwPolicyFirewalls env delegatedAdminAccountId vpcItem.name
        policyMap tr central.networkFirewalls
      nfwPolicyVpcs env central m t rest
    else
      nfwPolicyVpcs env central policyMap tr rest

/-- Embedding of `NetworkVpcEndpointsStack.setNfwPolicyMap`. -/
def setNfwPolicyMap (env : NaEnv) (cfg : NetworkConfig) : SMap × List CnaEvent :=
  match cfg.centralNetworkServices with
  | none => ([], [])
  | some central =>
    if central.networkFirewalls.isEmpty then ([], [])
    else nfwPolicyVpcs env central [] [] cfg.vpcs

/-- The hosted-zone association request built by
`createHostedZoneAssociations` (the `AssociateHostedZones` custom
resource). -/
structure HostedZoneAssocRequest where
  accountIds : List String
  hostedZoneIds : List String
  hostedZoneAccountId : String
deriving DecidableEq

/-- The VPCs marked as the central interface-endpoints VPC that live in the
current scope (the `centralEndpointVpcs` filter of
`createHostedZoneAssociations`). -/
def centralEndpointVpcsOf (env : NaEnv) (cfg : NetworkConfig) : List VpcConfig :=
  cfg.vpcs.filter (fun item =>
    item.interfaceEndpointsCentral &&
    env.acctId item.account == env.account && item.region == env.region)

/-- Embedding of `NetworkAssociationsStack.createHostedZoneAssociations`:
filter the VPCs marked as the central interface-endpoints VPC for this
scope, enforce the partition and multiplicity guards, and build the
association request for the member accounts that use central endpoints. -/
def createHostedZoneAssociations (env : NaEnv) (cfg : NetworkConfig) :
    Except RtError (Option HostedZoneAssocRequest) :=
  let centralEndpointVpcs := centralEndpointVpcsOf env cfg
  if env.partition != "aws" && env.partition != "aws-cn" &&
     centralEndpointVpcs.length > 0 then
    Except.error (RtError.thrown ("Central Endpoint VPC is only possible in commercial regions"))
  else if centralEndpointVpcs.length > 1 then
    Except.error (RtError.thrown ("multiple (" ++ toString centralEndpointVpcs.length ++
      ") central endpoint vpcs detected, should only be one"))
  else
    match centralEndpointVpcs.head? with
    | none => Except.ok none
    | some centralEndpointVpc =>
      let zoneAssociationAccountIds := cfg.vpcs.foldl
        (fun acc vpcItem =>
          if vpcItem.region == env.region && vpcItem.useCentralEndpoints then
            let accountId := env.acctId vpcItem.account
            if acc.contains accountId then acc else acc ++ [accountId]
          else acc)
        []
      let hostedZoneIds := centralEndpointVpc.interfaceEndpointServices.map
        (fun service => env.ssm ("/accelerator/network/vpc/" ++ centralEndpointVpc.name ++
          "/route53/hostedZone/" ++ service ++ "/id"))
      Except.ok (some { accountIds := zoneAssociationAccountIds,
                        hostedZoneIds := hostedZoneIds,
                        hostedZoneAccountId := env.account })

/-- Trace events of the Direct Connect graph build. -/
inductive DxEvent where
  | dxGatewayIdCrossAccountFetch (dxgwName ownerAccountId : String)
  | dxGatewayIdLocalRead (param : String)
  | dxGatewayIdSameAcctRemoteRead (param accountId : String)
  | associationProposal (dxgwName tgwName : String)
  | directAssociation (dxgwName tgwName : String)
  | rtAssociationCreated (attachId routeTableId : String)
  | rtPropagationCreated (attachId routeTableId : String)
deriving DecidableEq

/-- Embedding of `NetworkAssociationsStack.setDxGatewayMap`: populate the
DX gateway identifier map through the cross-account lookup when the DX
gateway and transit gateway owners differ, or locally (home region
parameter, else a same-account cross-region lookup) when they match. -/
def setDxGatewayMap (env : NaEnv) (dxGatewayMap : SMap) (tr : List DxEvent)
    (dxgwItem : DxGatewayConfig) (tgw : TransitGatewayConfig)
    (tgwAccountId : String) : SMap × List DxEvent :=
  let step1 :=
    if dxgwItem.account != tgw.account && tgwAccountId == env.account &&
       tgw.region == env.region then
      let directConnectGatewayOwnerAccount := env.acctId dxgwItem.account
      let param := "/accelerator/network/directConnectGateways/" ++ dxgwItem.name ++ "/id"
      let dxgwId := env.remoteSsm param directConnectGatewayOwnerAccount env.homeRegion
      (mset dxGatewayMap dxgwItem.name dxgwId,
       tr ++ [DxEvent.dxGatewayIdCrossAccountFetch dxgwItem.name directConnectGatewayOwnerAccount])
    else (dxGatewayMap, tr)
  let m1 := step1.1
  let t1 := step1.2
  if dxgwItem.account == tgw.account && tgwAccountId == env.account &&
     tgw.region == env.region then
    if tgw.region == env.homeRegion then
      let param := "/accelerator/network/directConnectGateways/" ++ dxgwItem.name ++ "/id"
      let dxgwId := env.ssm param
      (mset m1 dxgwItem.name dxgwId, t1 ++ [DxEvent.dxGatewayIdLocalRead param])
    else
      let param := "/accelerator/network/directConnectGateways/" ++ dxgwItem.name ++ "/id"
      let dxgwId := env.remoteSsm param env.account env.homeRegion
      (mset m1 dxgwItem.name dxgwId, t1 ++ [DxEvent.dxGatewayIdSameAcctRemoteRead param env.account])
  else (m1, t1)

/-- Embedding of `createDxGatewayTgwAssociations`: build an association
proposal when the DX gateway and transit gateway owners differ, a direct
association when they match, and record the attachment identifier the
association construct publishes (when it publishes one) in the shared
attachments map under the `dxgwName_tgwName` key. -/
def createDxGatewayTgwAssociations (env : NaEnv) (dxGatewayMap : SMap)
    (transitGateways transitGatewayAttachments : SMap) (tr : List DxEvent)
    (dxgwItem : DxGatewayConfig) (tgw : TransitGatewayConfig)
    (tgwAccountId : String) : Except RtError (SMap × List DxEvent) :=
  let proposalBranch := dxgwItem.account != tgw.account &&
    tgwAccountId == env.account && tgw.region == env.region
  let directBranch := dxgwItem.account == tgw.account &&
    tgwAccountId == env.account && tgw.region == env.region
  if proposalBranch || directBranch then
    match mget dxGatewayMap dxgwItem.name with
    | none => Except.error (RtError.thrown
        ("[network-associations-stack] Create DX Gateway associations: unable to locate DX Gateway ID for " ++ dxgwItem.name))
    | some _ =>
      match mget transitGateways tgw.name with
      | none => Except.error (RtError.thrown
          ("[network-associations-stack] Create DX Gateway associations: unable to locate transit gateway ID for " ++ tgw.name))
      | some _ =>
        let ev := if proposalBranch then DxEvent.associationProposal dxgwItem.name tgw.name
                  else DxEvent.directAssociation dxgwItem.name tgw.name
        let key := dxgwItem.name ++ "_" ++ tgw.name
        match env.dxAssocAttachmentId key with
        | some attachId =>
          Except.ok (mset transitGatewayAttachments key attachId, tr ++ [ev])
        | none => Except.ok (transitGatewayAttachments, tr ++ [ev])
  else Except.ok (transitGatewayAttachments, tr)

/-- Embedding of `createDxTgwRouteTableAssociations`. -/
def createDxTgwRouteTableAssociations (env : NaEnv)
    (transitGatewayAttachments transitGatewayRouteTables : SMap)
    (tr : List DxEvent) (dxgwItem : DxGatewayConfig)
    (tgw : TransitGatewayConfig) (tgwRouteTableName tgwAccountId : String) :
    Except RtError (List DxEvent) :=
  if tgwAccountId == env.account && tgw.region == env.region then
    let attachKey := dxgwItem.name ++ "_" ++ tgw.name
    let rtKey := tgw.name ++ "_" ++ tgwRouteTableName
    match mget transitGatewayAttachments attachKey with
    | none => Except.error (RtError.thrown
        ("[network-associations-stack] Create DX TGW route table associations: unable to locate attachment " ++ attachKey))
    | some attachId =>
      match mget transitGatewayRouteTables rtKey with
      | none => Except.error (RtError.thrown
          ("[network-associations-stack] Create DX TGW route table associations: unable to locate route table " ++ rtKey))
      | some routeTableId =>
        Except.ok (tr ++ [DxEvent.rtAssociationCreated attachId routeTableId])
  else Except.ok tr

/-- Embedding of `createDxTgwRouteTablePropagations`. -/
def createDxTgwRouteTablePropagations (env : NaEnv)
    (transitGatewayAttachments transitGatewayRouteTables : SMap)
    (tr : List DxEvent) (dxgwItem : DxGatewayConfig)
    (tgw : TransitGatewayConfig) (tgwRouteTableName tgwAccountId : String) :
    Except RtError (List DxEvent) :=
  if tgwAccountId == env.account && tgw.region == env.region then
    let attachKey := dxgwItem.name ++ "_" ++ tgw.name
    let rtKey := tgw.name ++ "_" ++ tgwRouteTableName
    match mget transitGatewayAttachments attachKey with
    | none => Except.error (RtError.thrown
        ("[network-associations-stack] Create DX TGW route table associations: unable to locate attachment " ++ attachKey))
    | some attachId =>
      match mget transitGatewayRouteTables rtKey with
      | none => Except.error (RtError.thrown
          ("[network-associations-stack] Create DX TGW route table associations: unable to locate route table " ++ rtKey))
      | some routeTableId =>
        Except.ok (tr ++ [DxEvent.rtPropagationCreated attachId routeTableId])
  else Except.ok tr

/-- The keys written to the `transitGatewayAttachments` map during a trace,
in write order (one entry per `Map.set`). -/
def attachWriteKeys : List TgwEvent → List String
  | [] => []
  | TgwEvent.attachResolved k _ :: rest => k :: attachWriteKeys rest
  | _ :: rest => attachWriteKeys rest

/-- Resolved-key accumulator: the attachment keys resolved in a trace,
pushed onto an initial list. -/
def resolvedKeysAcc (res : List String) : List TgwEvent → List String
  | [] => res
  | TgwEvent.attachResolved k _ :: rest => resolvedKeysAcc (k :: res) rest
  | _ :: rest => resolvedKeysAcc res rest

/-- Checker for the per-key ordering discipline of the transit gateway
trace: every association and propagation event refers to an attachment key
already resolved earlier in the trace (or assumed resolved in `res`). -/
def assocOrdered (res : List String) : List TgwEvent → Bool
  | [] => true
  | TgwEvent.attachResolved k _ :: rest => assocOrdered (k :: res) rest
  | TgwEvent.assocCreated k _ _ :: rest => res.contains k && assocOrdered res rest
  | TgwEvent.propCreated k _ _ :: rest => res.contains k && assocOrdered res rest
  | _ :: rest => assocOrdered res rest

/-- Whether a trace contains an attachment resolution event. -/
def hasAttachResolved (t : List TgwEvent) : Bool :=
  t.any (fun e => match e with
    | TgwEvent.attachResolved _ _ => true
    | _ => false)

/-- Checker for the claim that all attachments in scope are resolved before
any association: `true` exactly when some attachment resolution event
occurs AFTER some association event in the trace. -/
def attachAfterAssoc : List TgwEvent → Bool
  | [] => false
  | TgwEvent.assocCreated _ _ _ :: rest => hasAttachResolved rest || attachAfterAssoc rest
  | _ :: rest => attachAfterAssoc rest

/-- Whether an event is a static route or prefix-list reference request. -/
def isStaticEvent : TgwEvent → Bool
  | TgwEvent.staticRouteCreated _ _ _ _ _ => true
  | TgwEvent.plRefCreated _ _ _ _ _ _ => true
  | _ => false

/-- Whether an event is an association or propagation request. -/
def isAssocOrPropEvent : TgwEvent → Bool
  | TgwEvent.assocCreated _ _ _ => true
  | TgwEvent.propCreated _ _ _ => true
  | _ => false

/-- A trace free of static route / prefix-list reference requests. -/
def staticFree (t : List TgwEvent) : Bool := !(t.any isStaticEvent)

/-- A trace free of association / propagation requests. -/
def assocFree (t : List TgwEvent) : Bool := !(t.any isAssocOrPropEvent)

/-- Whether all strings in a list are pairwise distinct. -/
def allDistinct : List String → Bool
  | [] => true
  | k :: rest => !(rest.contains k) && allDistinct rest

/-- Whether a lookup source follows the shared-resource dispatch of the
resolver: the local namespaced parameter exactly in the owning (delegated
admin) account, and otherwise the organization-wide resource share queried
in the owning account under the expected resource-type tag. -/
def lookupSourceMatches (current owningAccountId expectedTag : String) :
    LookupSource → Bool
  | LookupSource.localParam _ => owningAccountId == current
  | LookupSource.resourceShare _ tag acct =>
      owningAccountId != current && tag == expectedTag && acct == owningAccountId

/-- Checker that every shared-resource lookup in a central-network trace
follows the Local / Resource-Share dispatch with the right resource-type
tag (and, by construction of `CnaEvent`, never the cross-account remote
value fetcher). -/
def cnaLookupsWellFormed (current owningAccountId : String) :
    List CnaEvent → Bool
  | [] => true
  | CnaEvent.fwRuleGroupLookup _ src _ :: rest =>
      lookupSourceMatches current owningAccountId ("route53resolver:FirewallRuleGroup") src &&
      cnaLookupsWellFormed current owningAccountId rest
  | CnaEvent.queryLogLookup _ src _ :: rest =>
      lookupSourceMatches current owningAccountId ("route53resolver:ResolverQueryLogConfig") src &&
      cnaLookupsWellFormed current owningAccountId rest
  | CnaEvent.resolverRuleLookup _ src _ :: rest =>
      lookupSourceMatches current owningAccountId ("route53resolver:ResolverRule") src &&
      cnaLookupsWellFormed current owningAccountId rest
  | CnaEvent.nfwPolicyLookup _ src _ :: rest =>
      lookupSourceMatches current owningAccountId ("network-firewall:FirewallPolicy") src &&
      cnaLookupsWellFormed current owningAccountId rest
  | _ :: rest => cnaLookupsWellFormed current owningAccountId rest

/-- The names looked up by DNS firewall rule group lookups in a trace. -/
def fwLookupNames : List CnaEvent → List String
  | [] => []
  | CnaEvent.fwRuleGroupLookup n _ _ :: rest => n :: fwLookupNames rest
  | _ :: rest => fwLookupNames rest

/-- The names looked up by query-log config lookups in a trace. -/
def queryLogLookupNames : List CnaEvent → List String
  | [] => []
  | CnaEvent.queryLogLookup n _ _ :: rest => n :: queryLogLookupNames rest
  | _ :: rest => queryLogLookupNames rest

/-- The names looked up by resolver rule lookups in a trace. -/
def resolverRuleLookupNames : List CnaEvent → List String
  | [] => []
  | CnaEvent.resolverRuleLookup n _ _ :: rest => n :: resolverRuleLookupNames rest
  | _ :: rest => resolverRuleLookupNames rest

/-- A concrete scope and collaborator environment used by the closed
witnesses and counterexamples: the current account is the physical
identifier of the configured account `Network`, and every collaborator
returns a distinct readable token. -/
def exEnv : NaEnv where
  account := "111122223333"
  region := "us-east-1"
  partition := "aws"
  homeRegion := "us-east-1"
  acctId := fun name => if name == "Network" then "111122223333" else name ++ "-id"
  ssm := fun p => "ssm:" ++ p
  remoteSsm := fun p a r => "remote:" ++ a ++ ":" ++ r ++ ":" ++ p
  attachLookup := fun n o t ty => "lookup:" ++ ty ++ ":" ++ o ++ ":" ++ n ++ ":" ++ t
  share := fun s t o => "share:" ++ t ++ ":" ++ o ++ ":" ++ s
  pascal := fun s => s
  dxAssocAttachmentId := fun k => some ("dxattach:" ++ k)

/-- The `vpcPeering` route of the cross-scope peering counterexample,
whose destination prefix list is absent from the prefix-list map. -/
def c1Route : RouteTableEntryConfig where
  name := "r1"
  rtype := some ("vpcPeering")
  target := some ("Peer1")
  destinationPrefixList := some ("MissingPl")

/-- Accepter VPC of the cross-scope peering counterexample: one route
table holding the one peering route. -/
def c1AccepterVpc : VpcConfig where
  name := "VpcC"
  account := "Acct2"
  region := "us-west-2"
  routeTables := [{ name := "RtA", routes := [c1Route] }]

/-- Requester VPC of the cross-scope peering counterexample. -/
def c1RequesterVpc : VpcConfig where
  name := "VpcB"
  account := "Acct1"
  region := "us-east-1"

/-- A transit gateway in scope with a single route table, used by the
ordering examples. -/
def exTgwMain : TransitGatewayConfig where
  name := "TgwMain"
  account := "Network"
  region := "us-east-1"
  routeTables := [{ name := "Core" }]

/-- First VPC of the ordering counterexample: attached to `TgwMain` with an
association to its `Core` route table. -/
def c3VpcA : VpcConfig where
  name := "VpcA"
  account := "Network"
  region := "us-east-1"
  transitGatewayAttachments :=
    [{ name := "AttA", transitGateway := { name := "TgwMain", account := "Network" },
       routeTableAssociations := ["Core"] }]

/-- Second VPC of the ordering counterexample, same shape as the first. -/
def c3VpcB : VpcConfig where
  name := "VpcB"
  account := "Network"
  region := "us-east-1"
  transitGatewayAttachments :=
    [{ name := "AttB", transitGateway := { name := "TgwMain", account := "Network" },
       routeTableAssociations := ["Core"] }]

/-- Configuration of the ordering counterexample: two VPCs in the same
scope, each with a transit gateway attachment and one route-table
association. -/
def c3Cfg : NetworkConfig where
  vpcs := [c3VpcA, c3VpcB]
  transitGateways := [exTgwMain]

/-- A second transit gateway in scope, used by the duplicate-key
counterexample. -/
def c6TgwSecond : TransitGatewayConfig where
  name := "TgwSecond"
  account := "Network"
  region := "us-east-1"

/-- A VPC with two transit gateway attachments to two different transit
gateways in the same scope: both writes to the shared attachments map use
the same `account_vpcName` key. -/
def c6Vpc : VpcConfig where
  name := "VpcA"
  account := "Network"
  region := "us-east-1"
  transitGatewayAttachments :=
    [{ name := "AttA", transitGateway := { name := "TgwMain", account := "Network" } },
     { name := "AttB", transitGateway := { name := "TgwSecond", account := "Network" } }]

/-- Configuration of the duplicate-key counterexample. -/
def c6Cfg : NetworkConfig where
  vpcs := [c6Vpc]
  transitGateways := [exTgwMain, c6TgwSecond]

/-- Whether one peering pair requires the shared cross-account route
provider: some accepter route is a `vpcPeering` route targeting the
peering while the pair is cross-account or cross-region. -/
def peeringNeedsCrossAcctProvider (p : Peering) : Bool :=
  match p.accepter with
  | none => false
  | some acc => acc.routeTables.any (fun rt => rt.routes.any (entryNeedsCrossAcctRoute p acc))

/-- The number of route table entries addressed to the named peering in a
list of route tables. -/
def matchingEntriesCount (peeringName : String) : List RouteTableConfig → Nat
  | [] => 0
  | rt :: rest => (rt.routes.filter (isPeeringRouteEntry peeringName)).length +
      matchingEntriesCount peeringName rest

/-- The number of accepter route table entries addressed to the named
peering (each must yield exactly one route-creation request). -/
def matchingAccepterEntries (accepterVpc : VpcConfig) (peeringName : String) : Nat :=
  matchingEntriesCount peeringName accepterVpc.routeTables

/-- A static route whose VPC attachment target is absent from the
attachments map, used by the attachment-not-found counterexample. -/
def c4Route : TgwRouteEntryConfig where
  destinationCidrBlock := some ("10.0.0.0/16")
  attachment := some (TgwRouteAttachment.vpcAttach ("Network") ("VpcA"))

/-- The transit gateway route table of the counterexamples. -/
def c4RouteTable : TransitGatewayRouteTableConfig where
  name := "Core"

/-- Two VPCs marked as the central interface-endpoints VPC in the same
scope: the hosted-zone association step must reject this configuration. -/
def c10Cfg : NetworkConfig where
  vpcs :=
    [{ name := "VpcA", account := "Network", region := "us-east-1",
       interfaceEndpointsCentral := true },
     { name := "VpcB", account := "Network", region := "us-east-1",
       interfaceEndpointsCentral := true }]

/-- A VPC referencing one DNS firewall rule group, one query-log config
and one resolver rule. -/
def c7VpcD : VpcConfig where
  name := "VpcD"
  account := "Network"
  region := "us-east-1"
  dnsFirewallRuleGroupNames := [("Fw1", 101)]
  queryLogNames := ["Ql1"]
  resolverRuleNames := ["Rr1"]

/-- A second VPC referencing the same central resources, so every second
resolution must be served from the caches. -/
def c7VpcE : VpcConfig where
  name := "VpcE"
  account := "Network"
  region := "us-east-1"
  dnsFirewallRuleGroupNames := [("Fw1", 200)]
  queryLogNames := ["Ql1"]
  resolverRuleNames := ["Rr1"]

/-- Central network services owned by the current account (local branch). -/
def c7CfgLocal : NetworkConfig where
  vpcs := [c7VpcD, c7VpcE]
  centralNetworkServices := some
    { delegatedAdminAccount := "Network",
      queryLogDestinations := ["s3", "cloud-watch-logs"],
      networkFirewalls := [{ name := "Nfw1", vpc := "VpcD", firewallPolicy := "Pol1" }] }

/-- Central network services owned by a different (delegated admin)
account, so every resolution must go through the resource share. -/
def c7CfgShare : NetworkConfig where
  vpcs := [c7VpcD, c7VpcE]
  centralNetworkServices := some
    { delegatedAdminAccount := "SharedSvc",
      queryLogDestinations := ["s3"],
      networkFirewalls := [{ name := "Nfw1", vpc := "VpcD", firewallPolicy := "Pol1" }] }

/-- Whether an event belongs to the DNS firewall rule group map (its
lookup or its association). -/
def isFwEvent : CnaEvent → Bool
  | CnaEvent.fwRuleGroupLookup _ _ _ => true
  | CnaEvent.fwAssoc _ _ _ => true
  | _ => false

/-- Whether an event belongs to the query-log config map. -/
def isQlEvent : CnaEvent → Bool
  | CnaEvent.queryLogLookup _ _ _ => true
  | CnaEvent.queryLogAssoc _ _ _ => true
  | _ => false

/-- Whether an event belongs to the resolver rule map. -/
def isRrEvent : CnaEvent → Bool
  | CnaEvent.resolverRuleLookup _ _ _ => true
  | CnaEvent.resolverRuleAssoc _ _ _ => true
  | _ => false

/-- Cache discipline of the DNS firewall rule group map: every name is
looked up at most once, a name has been looked up exactly when it is in
the map, and every association request carries the map's current value for
its name. -/
def FwInv (st : CnaState) : Prop :=
  allDistinct (fwLookupNames st.trace) = true ∧
  (∀ n, n ∈ fwLookupNames st.trace ↔ (mget st.dnsFirewallMap n).isSome = true) ∧
  (∀ n v i, CnaEvent.fwAssoc n v i ∈ st.trace → mget st.dnsFirewallMap n = some i)

/-- Cache discipline of the query-log config map. -/
def QlInv (st : CnaState) : Prop :=
  allDistinct (queryLogLookupNames st.trace) = true ∧
  (∀ n, n ∈ queryLogLookupNames st.trace ↔ (mget st.queryLogMap n).isSome = true) ∧
  (∀ n v i, CnaEvent.queryLogAssoc n v i ∈ st.trace → mget st.queryLogMap n = some i)

/-- Cache discipline of the resolver rule map. -/
def RrInv (st : CnaState) : Prop :=
  allDistinct (resolverRuleLookupNames st.trace) = true ∧
  (∀ n, n ∈ resolverRuleLookupNames st.trace ↔ (mget st.resolverRuleMap n).isSome = true) ∧
  (∀ n v i, CnaEvent.resolverRuleAssoc n v i ∈ st.trace → mget st.resolverRuleMap n = some i)

/-- Cache discipline of all three guarded per-scope maps. -/
def CnaInv (st : CnaState) : Prop := FwInv st ∧ QlInv st ∧ RrInv st

/-- A transit gateway build state whose maps already hold the identifiers
the ordering witnesses need: the in-scope transit gateway, its `Core` route
table and the resolved attachment of `VpcA`. -/
def c2StW : TgwState where
  transitGateways := [("TgwMain", "tg1")]
  transitGatewayRouteTables := [("TgwMain_Core", "rt1")]
  transitGatewayAttachments := [("Network_VpcA", "att1")]
  trace := [TgwEvent.attachResolved ("Network_VpcA") ("att1")]

/-- Ordering invariant of the transit gateway build state: the trace is
per-key ordered (associations and propagations appear only after a
resolution event for their attachment key) and every key present in the
attachments map has a resolution event in the trace. -/
def TgwInv (st : TgwState) : Prop :=
  assocOrdered [] st.trace = true ∧
  ∀ k, (mget st.transitGatewayAttachments k).isSome = true → k ∈ attachWriteKeys st.trace

/-- The accepter-side `vpcPeering` route entry of the C6 witness peering:
it targets the peering and names a destination prefix list. -/
def c6PeerRoute : RouteTableEntryConfig where
  name := "r1"
  rtype := some ("vpcPeering")
  target := some ("PeerX")
  destinationPrefixList := some ("PlX")

/-- The accepter VPC of the C6 witness peering, in another account and
region. -/
def c6PeerAccepter : VpcConfig where
  name := "VpcC"
  account := "Acct2"
  region := "us-west-2"
  routeTables := [{ name := "RtA", routes := [c6PeerRoute] }]

/-- A cross-scope peering whose accepter route table names a destination
prefix list, so both cross-account map setters perform one guarded write. -/
def c6Peers : List Peering :=
  [{ name := "PeerX",
     requester := { name := "VpcA", account := "Network", region := "us-east-1" },
     accepter := some c6PeerAccepter }]

/-- A Direct Connect gateway owned by the `Network` account. -/
def c8Dxgw : DxGatewayConfig where
  name := "DxGwA"
  account := "Network"

/-- The in-scope transit gateway the DX gateway associates with. -/
def c8Tgw : TransitGatewayConfig where
  name := "TgwMain"
  account := "Network"
  region := "us-east-1"

/-! ## Shared lemmas about the map and trace helpers -/

theorem mget_mset_self (m : SMap) (k v : String) : mget (mset m k v) k = some v := by
  induction m with
  | nil => simp [mget, mset]
  | cons p rest ih =>
    by_cases h : p.1 == k
    · simp [mget, mset, h]
    · simp [mget, mset, h, ih]

theorem mget_mset_ne (m : SMap) (k k' v : String) (h : k' ≠ k) :
    mget (mset m k v) k' = mget m k' := by
  induction m with
  | nil => simp [mget, mset]; exact fun he => h he.symm
  | cons p rest ih =>
    by_cases hp : p.1 == k
    · have hk : k = p.1 := (beq_iff_eq.mp hp).symm
      have h1 : (k == k') = false := by
        simp [beq_eq_false_iff_ne]
        exact fun he => h he.symm
      have h2 : (p.1 == k') = false := by
        rw [← hk]; exact h1
      simp [mset, hp, mget, h1, h2]
    · simp [mset, hp, mget, ih]

theorem mget_mset_isSome (m : SMap) (k k' v : String) :
    (mget (mset m k v) k').isSome = true ↔ (k' = k ∨ (mget m k').isSome = true) := by
  by_cases h : k' = k
  · subst h; simp [mget_mset_self]
  · simp [mget_mset_ne m k k' v h, h]

theorem attachWriteKeys_append (t1 t2 : List TgwEvent) :
    attachWriteKeys (t1 ++ t2) = attachWriteKeys t1 ++ attachWriteKeys t2 := by
  induction t1 with
  | nil => rfl
  | cons e rest ih => cases e <;> simp [attachWriteKeys, ih]

theorem resolvedKeysAcc_mem (res : List String) (t : List TgwEvent) (k : String) :
    k ∈ resolvedKeysAcc res t ↔ k ∈ attachWriteKeys t ∨ k ∈ res := by
  induction t generalizing res with
  | nil => simp [resolvedKeysAcc, attachWriteKeys]
  | cons e rest ih =>
    cases e
    case attachResolved k' id => simp [resolvedKeysAcc, attachWriteKeys, ih]; tauto
    all_goals simp [resolvedKeysAcc, attachWriteKeys, ih]

theorem assocOrdered_append (res : List String) (t1 t2 : List TgwEvent) :
    assocOrdered res (t1 ++ t2) =
      (assocOrdered res t1 && assocOrdered (resolvedKeysAcc res t1) t2) := by
  induction t1 generalizing res with
  | nil => simp [assocOrdered, resolvedKeysAcc]
  | cons e rest ih =>
    cases e <;> simp [assocOrdered, resolvedKeysAcc, ih, Bool.and_assoc]

theorem string_data_append (a b : String) : (a ++ b).data = a.data ++ b.data := rfl

theorem sep_split_unique : ∀ (l1 l2 r1 r2 : List Char), '_' ∉ l1 → '_' ∉ l2 →
    l1 ++ '_' :: r1 = l2 ++ '_' :: r2 → l1 = l2 ∧ r1 = r2 := by
  intro l1
  induction l1 with
  | nil =>
    intro l2 r1 r2 h1 h2 h
    cases l2 with
    | nil => simpa using h
    | cons c cs =>
      simp only [List.nil_append, List.cons_append, List.cons.injEq] at h
      exact absurd (h.1 ▸ List.mem_cons_self c cs) h2
  | cons c cs ih =>
    intro l2 r1 r2 h1 h2 h
    cases l2 with
    | nil =>
      simp only [List.nil_append, List.cons_append, List.cons.injEq] at h
      exact absurd (h.1.symm ▸ List.mem_cons_self c cs) h1
    | cons d ds =>
      simp only [List.cons_append, List.cons.injEq] at h
      obtain ⟨hc, hrest⟩ := h
      have h1' : '_' ∉ cs := fun hm => h1 (List.mem_cons_of_mem c hm)
      have h2' : '_' ∉ ds := fun hm => h2 (List.mem_cons_of_mem d hm)
      obtain ⟨he, hr⟩ := ih ds r1 r2 h1' h2' hrest
      exact ⟨by rw [hc, he], hr⟩

/-- C9 (counterexample): the `account_vpcName` key construction joined with
the underscore separator is NOT injective over attachment identities: the
two distinct identities `(a_b, c)` and `(a, b_c)` are given the same key. -/
theorem c9_counterexample_key_not_injective :
    tgwAttachmentKey ("a_b") ("c") = tgwAttachmentKey ("a") ("b_c") ∧
    ¬ Function.Injective (fun p : String × String => tgwAttachmentKey p.1 p.2) := by
  refine ⟨rfl, fun hinj => ?_⟩
  have h : (("a_b", "c") : String × String) = ("a", "b_c") := hinj rfl
  simp at h

/-- C9 (amended): the attachment-key construction `owningAccount_vpcName`
is injective over identities whose components do not contain the
underscore separator character. -/
theorem c9_amended_key_injective_without_separator (a v b w : String)
    (ha : '_' ∉ a.data) (hb : '_' ∉ b.data)
    (h : tgwAttachmentKey a v = tgwAttachmentKey b w) : a = b ∧ v = w := by
  have hd : a.data ++ '_' :: v.data = b.data ++ '_' :: w.data := by
    have h' := congrArg String.data h
    simp only [tgwAttachmentKey, string_data_append] at h'
    simpa using h'
  obtain ⟨h1, h2⟩ := sep_split_unique a.data b.data v.data w.data ha hb hd
  constructor
  · cases a; cases b; exact congrArg String.mk h1
  · cases v; cases w; exact congrArg String.mk h2

theorem c9_amended_key_injective_without_separator_witness :
    ('_' ∉ ("Network").data ∧ '_' ∉ ("Net2").data) ∧
    (("Network" : String) = "Net2" ∧ ("VpcA" : String) = "work_VpcA" →
      False) ∧
    (("Network" : String) = "Network" ∧ ("VpcA" : String) = "VpcA") :=
  ⟨⟨by decide, by decide⟩,
   fun h => by simpa using h.1,
   c9_amended_key_injective_without_separator ("Network") ("VpcA") ("Network") ("VpcA")
     (by decide) (by decide) rfl⟩

/-- C1 (code bug): resolving a reference to a name absent from
configuration does not always surface as a named configuration error.
First conjunct: a `vpcPeering` entry whose requester VPC name matches no
configured VPC makes `setPeeringList` fail with an unnamed `TypeError`
(reading `account` of `undefined`), not a named error.  Second conjunct:
in the cross-account accepter branch, a `destinationPrefixList` absent from
the prefix-list map is passed through silently — the cross-account route
request is emitted with BOTH destination fields undefined instead of
failing (the same-scope branch throws `Prefix list … not found` here). -/
theorem c1_unresolved_reference_behavior :
    (setPeeringList exEnv [c1RequesterVpc]
        [{ name := "Peer1", requesterVpcName := "MissingVpc", accepterVpcName := "VpcB" }] =
      Except.error (RtError.typeError ("account"))) ∧
    (createAccepterVpcPeeringRoutes exEnv ("999900001111") c1AccepterVpc c1RequesterVpc
        ("Peer1") true [] [("VpcC_RtA", "rt-123")] =
      Except.ok [PeeringRouteEvent.crossAcct ("VpcCVpcRtARouteTabler1") ("rt-123") none none]) :=
  ⟨rfl, rfl⟩

set_option maxRecDepth 8192 in
/-- C4 (counterexample): the error thrown for an unresolvable static-route
attachment target carries the exact message
`… Unable to locate transit gateway attachment ID for route table item Core`:
it names the route table, but nothing identifying the route itself — neither
the route's destination CIDR nor its attachment VPC occurs in the message. -/
theorem c4_counterexample_error_names_only_route_table :
    (createTransitGatewayStaticRouteItem exEnv c3Cfg {} [] exTgwMain c4RouteTable c4Route ("rt-id") =
      Except.error (RtError.thrown (attachmentNotFoundMsg c4RouteTable))) ∧
    ¬ (("10.0.0.0/16").data <:+: (attachmentNotFoundMsg c4RouteTable).data) ∧
    ¬ (("VpcA").data <:+: (attachmentNotFoundMsg c4RouteTable).data) ∧
    (("Core").data <:+: (attachmentNotFoundMsg c4RouteTable).data) := by
  refine ⟨rfl, by decide, by decide, ?_⟩
  exact ⟨("[network-associations-stack] Unable to locate transit gateway attachment ID for route table item ").data, [], by decide⟩

/-- C4 (amended): each transit gateway static route classifies its target
attachment by exactly one of the five kinds (VPC, DX gateway, VPN, TGW
peering, blackhole) through the tagged dispatch over the attachment shape,
resolving map-keyed kinds through the shared attachments map and the
peering kind through `getTgwPeeringAttachmentId`; a route whose attachment
target cannot be resolved makes construction fail with the fatal
attachment-not-found error, which names the route table (and only the
route table). -/
theorem c4_amended_attachment_dispatch (env : NaEnv) (cfg : NetworkConfig)
    (st : TgwState) (plm : SMap) (tgwItem : TransitGatewayConfig)
    (rtItem : TransitGatewayRouteTableConfig) (routeItem : TgwRouteEntryConfig)
    (rtId cidr : String) (att : TgwRouteAttachment)
    (hc : routeItem.destinationCidrBlock = some cidr)
    (hpl : routeItem.destinationPrefixList = none)
    (hatt : routeItem.attachment = some att) :
    (∀ key, staticRouteAttachmentMapKey tgwItem att = some key →
      mget st.transitGatewayAttachments key = none →
      createTransitGatewayStaticRouteItem env cfg st plm tgwItem rtItem routeItem rtId =
        Except.error (RtError.thrown (attachmentNotFoundMsg rtItem))) ∧
    (∀ key attachId, staticRouteAttachmentMapKey tgwItem att = some key →
      mget st.transitGatewayAttachments key = some attachId →
      createTransitGatewayStaticRouteItem env cfg st plm tgwItem rtItem routeItem rtId =
        Except.ok { st with trace := st.trace ++
          [TgwEvent.staticRouteCreated (staticRouteId rtItem cidr att) rtId (some key) (some attachId) routeItem.blackhole] }) ∧
    (∀ n, att = TgwRouteAttachment.tgwPeeringAttach n →
      (∀ e, getTgwPeeringAttachmentId env cfg st n tgwItem = Except.error e →
        createTransitGatewayStaticRouteItem env cfg st plm tgwItem rtItem routeItem rtId =
          Except.error e) ∧
      (∀ attachId, getTgwPeeringAttachmentId env cfg st n tgwItem = Except.ok attachId →
        createTransitGatewayStaticRouteItem env cfg st plm tgwItem rtItem routeItem rtId =
          Except.ok { st with trace := st.trace ++
            [TgwEvent.staticRouteCreated (staticRouteId rtItem cidr att) rtId none (some attachId) routeItem.blackhole] })) := by
  refine ⟨?_, ?_, ?_⟩
  · intro key hkey hnone
    cases att <;>
      simp_all [createTransitGatewayStaticRouteItem, staticRouteHalf, plReferenceHalf,
        staticRouteAttachmentMapKey]
  · intro key attachId hkey hsome
    cases att <;>
      simp_all [createTransitGatewayStaticRouteItem, staticRouteHalf, plReferenceHalf,
        staticRouteAttachmentMapKey]
  · intro n hn
    subst hn
    constructor
    · intro e he
      simp_all [createTransitGatewayStaticRouteItem, staticRouteHalf, plReferenceHalf]
    · intro attachId hok
      simp_all [createTransitGatewayStaticRouteItem, staticRouteHalf, plReferenceHalf]

theorem c4_amended_attachment_dispatch_witness :
    createTransitGatewayStaticRouteItem exEnv c3Cfg {} [] exTgwMain c4RouteTable c4Route ("rt-id") =
      Except.error (RtError.thrown (attachmentNotFoundMsg c4RouteTable)) :=
  (c4_amended_attachment_dispatch exEnv c3Cfg {} [] exTgwMain c4RouteTable c4Route
      ("rt-id") ("10.0.0.0/16") (TgwRouteAttachment.vpcAttach ("Network") ("VpcA"))
      rfl rfl rfl).1
    (tgwAttachmentKey ("Network") ("VpcA")) rfl rfl

/-- C10: the hosted-zone association step tolerates at most one central
interface-endpoints VPC per (account, region) scope and only in the `aws`
and `aws-cn` partitions: more than one match, or any match outside those
partitions, aborts the scope's build with an error before any hosted-zone
association request is produced; conversely a successful build certifies
both bounds. -/
theorem c10_central_endpoint_vpc_guards (env : NaEnv) (cfg : NetworkConfig) :
    ((centralEndpointVpcsOf env cfg).length > 1 →
      (createHostedZoneAssociations env cfg =
        Except.error (RtError.thrown ("multiple (" ++
          toString (centralEndpointVpcsOf env cfg).length ++
          ") central endpoint vpcs detected, should only be one")) ∨
       createHostedZoneAssociations env cfg =
        Except.error (RtError.thrown ("Central Endpoint VPC is only possible in commercial regions")))) ∧
    (¬ (env.partition = "aws" ∨ env.partition = "aws-cn") →
      (centralEndpointVpcsOf env cfg).length > 0 →
      createHostedZoneAssociations env cfg =
        Except.error (RtError.thrown ("Central Endpoint VPC is only possible in commercial regions"))) ∧
    (∀ r, createHostedZoneAssociations env cfg = Except.ok r →
      (centralEndpointVpcsOf env cfg).length ≤ 1 ∧
      ((centralEndpointVpcsOf env cfg).length > 0 →
        env.partition = "aws" ∨ env.partition = "aws-cn")) := by
  by_cases hp : env.partition = "aws" ∨ env.partition = "aws-cn"
  · have hcond : (env.partition != "aws" && env.partition != "aws-cn" &&
        decide ((centralEndpointVpcsOf env cfg).length > 0)) = false := by
      rcases hp with h | h <;> simp [h]
    refine ⟨?_, ?_, ?_⟩
    · intro hgt
      left
      simp [createHostedZoneAssociations, hcond, hgt]
    · intro hnp; exact absurd hp hnp
    · intro r hok
      refine ⟨?_, fun _ => hp⟩
      by_cases hlen : (centralEndpointVpcsOf env cfg).length ≤ 1
      · exact hlen
      · exfalso
        have hgt : (centralEndpointVpcsOf env cfg).length > 1 := by omega
        simp [createHostedZoneAssociations, hcond, hgt] at hok
  · have h1 : (env.partition != "aws") = true := by
      simp [bne_iff_ne]; intro h; exact hp (Or.inl h)
    have h2 : (env.partition != "aws-cn") = true := by
      simp [bne_iff_ne]; intro h; exact hp (Or.inr h)
    refine ⟨?_, ?_, ?_⟩
    · intro hgt
      right
      have hpos : (centralEndpointVpcsOf env cfg).length > 0 := by omega
      simp [createHostedZoneAssociations, h1, h2, hpos]
    · intro _ hpos
      simp [createHostedZoneAssociations, h1, h2, hpos]
    · intro r hok
      by_cases hpos : (centralEndpointVpcsOf env cfg).length > 0
      · exfalso
        simp [createHostedZoneAssociations, h1, h2, hpos] at hok
      · exact ⟨by omega, fun h => absurd h hpos⟩

theorem c10_central_endpoint_vpc_guards_witness :
    createHostedZoneAssociations exEnv c10Cfg =
      Except.error (RtError.thrown ("multiple (" ++
        toString (centralEndpointVpcsOf exEnv c10Cfg).length ++
        ") central endpoint vpcs detected, should only be one")) := by
  have h := (c10_central_endpoint_vpc_guards exEnv c10Cfg).1 (by decide)
  refine h.resolve_right ?_
  intro heq
  have h0 : createHostedZoneAssociations exEnv c10Cfg =
      Except.error (RtError.thrown ("multiple (" ++
        toString (centralEndpointVpcsOf exEnv c10Cfg).length ++
        ") central endpoint vpcs detected, should only be one")) := rfl
  have h1 := heq.symm.trans h0
  injection h1 with h2
  injection h2 with h3
  exact absurd h3 (by decide)

theorem contains_of_mem {l : List String} {k : String} (h : k ∈ l) :
    l.contains k = true := by
  simpa using h

theorem assocOrdered_of_onlyAttach (t : List TgwEvent)
    (h : ∀ e ∈ t, ∃ k id, e = TgwEvent.attachResolved k id) :
    ∀ res, assocOrdered res t = true := by
  induction t with
  | nil => intro res; rfl
  | cons e rest ih =>
    intro res
    obtain ⟨k, id, he⟩ := h e (List.mem_cons_self _ _)
    subst he
    simp only [assocOrdered]
    exact ih (fun e he => h e (List.mem_cons_of_mem _ he)) (k :: res)

theorem assocOrdered_of_keyed (res : List String) (t : List TgwEvent)
    (h : ∀ e ∈ t, ∃ k a r,
      (e = TgwEvent.assocCreated k a r ∨ e = TgwEvent.propCreated k a r) ∧ k ∈ res) :
    assocOrdered res t = true := by
  induction t with
  | nil => rfl
  | cons e rest ih =>
    obtain ⟨k, a, r, he, hk⟩ := h e (List.mem_cons_self _ _)
    have htail := ih (fun e he => h e (List.mem_cons_of_mem _ he))
    rcases he with he | he <;> subst he <;>
      simp [assocOrdered, contains_of_mem hk, htail, hk]

theorem setTgwVpcAttachItems_spec (env : NaEnv) (vpcItem : VpcConfig) :
    ∀ (items : List TgwVpcAttachmentConfig) (st st' : TgwState),
    setTgwVpcAttachItems env vpcItem st items = Except.ok st' →
    st'.transitGateways = st.transitGateways ∧
    st'.transitGatewayRouteTables = st.transitGatewayRouteTables ∧
    ∃ Δ, st'.trace = st.trace ++ Δ ∧
      (∀ e ∈ Δ, ∃ k id, e = TgwEvent.attachResolved k id) ∧
      (∀ k, (mget st'.transitGatewayAttachments k).isSome = true →
        k ∈ attachWriteKeys Δ ∨ (mget st.transitGatewayAttachments k).isSome = true) := by
  intro items
  induction items with
  | nil =>
    intro st st' h
    simp only [setTgwVpcAttachItems] at h
    cases h
    exact ⟨rfl, rfl, [], by simp, by simp, fun k hk => Or.inr hk⟩
  | cons item rest ih =>
    intro st st' h
    simp only [setTgwVpcAttachItems] at h
    by_cases hacct : (env.acctId item.transitGateway.account == env.account) = true
    · rw [if_pos hacct] at h
      cases htg : mget st.transitGateways item.transitGateway.name with
      | none => rw [htg] at h; cases h
      | some transitGatewayId =>
        rw [htg] at h
        obtain ⟨hg, hr, Δ2, htr, hev, hkeys⟩ := ih _ st' h
        refine ⟨hg, hr, TgwEvent.attachResolved (tgwAttachmentKey vpcItem.account vpcItem.name) _ :: Δ2,
          by simpa using htr, ?_, ?_⟩
        · intro e he
          rcases List.mem_cons.mp he with he | he
          · exact ⟨_, _, he⟩
          · exact hev e he
        · intro k hk
          rcases hkeys k hk with hk2 | hk2
          · exact Or.inl (List.mem_cons_of_mem _ hk2)
          · rcases (mget_mset_isSome _ _ _ _).mp hk2 with he | he
            · exact Or.inl (he ▸ List.mem_cons_self _ _)
            · exact Or.inr he
    · rw [if_neg hacct] at h
      exact ih _ st' h

theorem createVpcTgwAssocRts_spec (tgwName attachmentKey attachId : String) :
    ∀ (rts : List String) (st st' : TgwState),
    createVpcTgwAssocRts st tgwName attachmentKey attachId rts = Except.ok st' →
    st'.transitGateways = st.transitGateways ∧
    st'.transitGatewayRouteTables = st.transitGatewayRouteTables ∧
    st'.transitGatewayAttachments = st.transitGatewayAttachments ∧
    ∃ Δ, st'.trace = st.trace ++ Δ ∧
      ∀ e ∈ Δ, ∃ r, e = TgwEvent.assocCreated attachmentKey attachId r := by
  intro rts
  induction rts with
  | nil =>
    intro st st' h
    simp only [createVpcTgwAssocRts] at h
    cases h
    exact ⟨rfl, rfl, rfl, [], by simp, by simp⟩
  | cons rt rest ih =>
    intro st st' h
    simp only [createVpcTgwAssocRts] at h
    cases hrt : mget st.transitGatewayRouteTables (tgwName ++ "_" ++ rt) with
    | none => rw [hrt] at h; cases h
    | some routeTableId =>
      rw [hrt] at h
      obtain ⟨hg, hr, ha, Δ2, htr, hev⟩ := ih _ st' h
      refine ⟨hg, hr, ha, TgwEvent.assocCreated attachmentKey attachId routeTableId :: Δ2,
        by simpa using htr, ?_⟩
      intro e he
      rcases List.mem_cons.mp he with he | he
      · exact ⟨routeTableId, he⟩
      · exact hev e he

theorem createVpcTgwAssocItems_spec (env : NaEnv) (vpcItem : VpcConfig) :
    ∀ (items : List TgwVpcAttachmentConfig) (st st' : TgwState),
    createVpcTgwAssocItems env vpcItem st items = Except.ok st' →
    st'.transitGateways = st.transitGateways ∧
    st'.transitGatewayRouteTables = st.transitGatewayRouteTables ∧
    st'.transitGatewayAttachments = st.transitGatewayAttachments ∧
    ∃ Δ, st'.trace = st.trace ++ Δ ∧
      ∀ e ∈ Δ, ∃ a r, e = TgwEvent.assocCreated (tgwAttachmentKey vpcItem.account vpcItem.name) a r ∧
        mget st.transitGatewayAttachments (tgwAttachmentKey vpcItem.account vpcItem.name) = some a := by
  intro items
  induction items with
  | nil =>
    intro st st' h
    simp only [createVpcTgwAssocItems] at h
    cases h
    exact ⟨rfl, rfl, rfl, [], by simp, by simp⟩
  | cons item rest ih =>
    intro st st' h
    simp only [createVpcTgwAssocItems] at h
    by_cases hacct : (env.acctId item.transitGateway.account == env.account) = true
    · rw [if_pos hacct] at h
      cases hatt : mget st.transitGatewayAttachments (tgwAttachmentKey vpcItem.account vpcItem.name) with
      | none => rw [hatt] at h; cases h
      | some attachId =>
        rw [hatt] at h
        dsimp only at h
        cases hmid : createVpcTgwAssocRts st item.transitGateway.name
            (tgwAttachmentKey vpcItem.account vpcItem.name) attachId item.routeTableAssociations with
        | error e => rw [hmid] at h; cases h
        | ok stMid =>
          rw [hmid] at h
          obtain ⟨hg1, hr1, ha1, Δ1, htr1, hev1⟩ :=
            createVpcTgwAssocRts_spec _ _ _ _ _ _ hmid
          obtain ⟨hg2, hr2, ha2, Δ2, htr2, hev2⟩ := ih stMid st' h
          refine ⟨hg2.trans hg1, hr2.trans hr1, ha2.trans ha1, Δ1 ++ Δ2, ?_, ?_⟩
          · rw [htr2, htr1, List.append_assoc]
          · intro e he
            rcases List.mem_append.mp he with he | he
            · obtain ⟨r, hr⟩ := hev1 e he
              exact ⟨attachId, r, hr, rfl⟩
            · obtain ⟨a, r, her, hm⟩ := hev2 e he
              refine ⟨a, r, her, ?_⟩
              rw [← hatt, ← ha1]
              exact hm
    · rw [if_neg hacct] at h
      exact ih _ st' h

theorem createVpcTgwPropRts_spec (tgwName attachmentKey attachId : String) :
    ∀ (rts : List String) (st st' : TgwState),
    createVpcTgwPropRts st tgwName attachmentKey attachId rts = Except.ok st' →
    st'.transitGateways = st.transitGateways ∧
    st'.transitGatewayRouteTables = st.transitGatewayRouteTables ∧
    st'.transitGatewayAttachments = st.transitGatewayAttachments ∧
    ∃ Δ, st'.trace = st.trace ++ Δ ∧
      ∀ e ∈ Δ, ∃ r, e = TgwEvent.propCreated attachmentKey attachId r := by
  intro rts
  induction rts with
  | nil =>
    intro st st' h
    simp only [createVpcTgwPropRts] at h
    cases h
    exact ⟨rfl, rfl, rfl, [], by simp, by simp⟩
  | cons rt rest ih =>
    intro st st' h
    simp only [createVpcTgwPropRts] at h
    cases hrt : mget st.transitGatewayRouteTables (tgwName ++ "_" ++ rt) with
    | none => rw [hrt] at h; cases h
    | some routeTableId =>
      rw [hrt] at h
      obtain ⟨hg, hr, ha, Δ2, htr, hev⟩ := ih _ st' h
      refine ⟨hg, hr, ha, TgwEvent.propCreated attachmentKey attachId routeTableId :: Δ2,
        by simpa using htr, ?_⟩
      intro e he
      rcases List.mem_cons.mp he with he | he
      · exact ⟨routeTableId, he⟩
      · exact hev e he

theorem createVpcTgwPropItems_spec (env : NaEnv) (vpcItem : VpcConfig) :
    ∀ (items : List TgwVpcAttachmentConfig) (st st' : TgwState),
    createVpcTgwPropItems env vpcItem st items = Except.ok st' →
    st'.transitGateways = st.transitGateways ∧
    st'.transitGatewayRouteTables = st.transitGatewayRouteTables ∧
    st'.transitGatewayAttachments = st.transitGatewayAttachments ∧
    ∃ Δ, st'.trace = st.trace ++ Δ ∧
      ∀ e ∈ Δ, ∃ a r, e = TgwEvent.propCreated (tgwAttachmentKey vpcItem.account vpcItem.name) a r ∧
        mget st.transitGatewayAttachments (tgwAttachmentKey vpcItem.account vpcItem.name) = some a := by
  intro items
  induction items with
  | nil =>
    intro st st' h
    simp only [createVpcTgwPropItems] at h
    cases h
    exact ⟨rfl, rfl, rfl, [], by simp, by simp⟩
  | cons item rest ih =>
    intro st st' h
    simp only [createVpcTgwPropItems] at h
    by_cases hacct : (env.acctId item.transitGateway.account == env.account) = true
    · rw [if_pos hacct] at h
      cases hatt : mget st.transitGatewayAttachments (tgwAttachmentKey vpcItem.account vpcItem.name) with
      | none => rw [hatt] at h; cases h
      | some attachId =>
        rw [hatt] at h
        dsimp only at h
        cases hmid : createVpcTgwPropRts st item.transitGateway.name
            (tgwAttachmentKey vpcItem.account vpcItem.name) attachId item.routeTablePropagations with
        | error e => rw [hmid] at h; cases h
        | ok stMid =>
          rw [hmid] at h
          obtain ⟨hg1, hr1, ha1, Δ1, htr1, hev1⟩ :=
            createVpcTgwPropRts_spec _ _ _ _ _ _ hmid
          obtain ⟨hg2, hr2, ha2, Δ2, htr2, hev2⟩ := ih stMid st' h
          refine ⟨hg2.trans hg1, hr2.trans hr1, ha2.trans ha1, Δ1 ++ Δ2, ?_, ?_⟩
          · rw [htr2, htr1, List.append_assoc]
          · intro e he
            rcases List.mem_append.mp he with he | he
            · obtain ⟨r, hr⟩ := hev1 e he
              exact ⟨attachId, r, hr, rfl⟩
            · obtain ⟨a, r, her, hm⟩ := hev2 e he
              refine ⟨a, r, her, ?_⟩
              rw [← hatt, ← ha1]
              exact hm
    · rw [if_neg hacct] at h
      exact ih _ st' h

theorem setTransitGatewayVpnAttachmentsMap_spec (env : NaEnv) (cfg : NetworkConfig)
    (st st' : TgwState) (cgwItem : CustomerGatewayConfig) (vpnItem : VpnConnectionConfig)
    (h : setTransitGatewayVpnAttachmentsMap env cfg st cgwItem vpnItem = Except.ok st') :
    st'.transitGateways = st.transitGateways ∧
    st'.transitGatewayRouteTables = st.transitGatewayRouteTables ∧
    ∃ Δ, st'.trace = st.trace ++ Δ ∧
      (∀ e ∈ Δ, ∃ k id, e = TgwEvent.attachResolved k id) ∧
      (∀ k, (mget st'.transitGatewayAttachments k).isSome = true →
        k ∈ attachWriteKeys Δ ∨ (mget st.transitGatewayAttachments k).isSome = true) := by
  simp only [setTransitGatewayVpnAttachmentsMap] at h
  by_cases hc : (env.acctId cgwItem.account == env.account && cgwItem.region == env.region &&
      vpnItem.transitGateway.isSome) = true
  · rw [if_pos hc] at h
    cases hf : cfg.transitGateways.find? (fun t => some t.name == vpnItem.transitGateway) with
    | none => rw [hf] at h; cases h
    | some tgw =>
      rw [hf] at h
      dsimp only at h
      cases htg : mget st.transitGateways tgw.name with
      | none => rw [htg] at h; cases h
      | some transitGatewayId =>
        rw [htg] at h
        dsimp only at h
        cases h
        refine ⟨rfl, rfl, [TgwEvent.attachResolved (vpnItem.name ++ "_" ++ tgw.name) _],
          rfl, by simp, ?_⟩
        intro k hk
        rcases (mget_mset_isSome _ _ _ _).mp hk with he | he
        · exact Or.inl (by simp [attachWriteKeys, he])
        · exact Or.inr he
  · rw [if_neg hc] at h
    cases h
    exact ⟨rfl, rfl, [], by simp, by simp, fun k hk => Or.inr hk⟩

theorem createVpnTgwAssocRts_spec (tgwName attachmentKey attachId : String) :
    ∀ (rts : List String) (st st' : TgwState),
    createVpnTgwAssocRts st tgwName attachmentKey attachId rts = Except.ok st' →
    st'.transitGateways = st.transitGateways ∧
    st'.transitGatewayRouteTables = st.transitGatewayRouteTables ∧
    st'.transitGatewayAttachments = st.transitGatewayAttachments ∧
    ∃ Δ, st'.trace = st.trace ++ Δ ∧
      ∀ e ∈ Δ, ∃ r, e = TgwEvent.assocCreated attachmentKey attachId r := by
  intro rts
  induction rts with
  | nil =>
    intro st st' h
    simp only [createVpnTgwAssocRts] at h
    cases h
    exact ⟨rfl, rfl, rfl, [], by simp, by simp⟩
  | cons rt rest ih =>
    intro st st' h
    simp only [createVpnTgwAssocRts] at h
    cases hrt : mget st.transitGatewayRouteTables (tgwName ++ "_" ++ rt) with
    | none => rw [hrt] at h; cases h
    | some routeTableId =>
      rw [hrt] at h
      obtain ⟨hg, hr, ha, Δ2, htr, hev⟩ := ih _ st' h
      refine ⟨hg, hr, ha, TgwEvent.assocCreated attachmentKey attachId routeTableId :: Δ2,
        by simpa using htr, ?_⟩
      intro e he
      rcases List.mem_cons.mp he with he | he
      · exact ⟨routeTableId, he⟩
      · exact hev e he

theorem createVpnTgwPropRts_spec (tgwName attachmentKey attachId : String) :
    ∀ (rts : List String) (st st' : TgwState),
    createVpnTgwPropRts st tgwName attachmentKey attachId rts = Except.ok st' →
    st'.transitGateways = st.transitGateways ∧
    st'.transitGatewayRouteTables = st.transitGatewayRouteTables ∧
    st'.transitGatewayAttachments = st.transitGatewayAttachments ∧
    ∃ Δ, st'.trace = st.trace ++ Δ ∧
      ∀ e ∈ Δ, ∃ r, e = TgwEvent.propCreated attachmentKey attachId r := by
  intro rts
  induction rts with
  | nil =>
    intro st st' h
    simp only [createVpnTgwPropRts] at h
    cases h
    exact ⟨rfl, rfl, rfl, [], by simp, by simp⟩
  | cons rt rest ih =>
    intro st st' h
    simp only [createVpnTgwPropRts] at h
    cases hrt : mget st.transitGatewayRouteTables (tgwName ++ "_" ++ rt) with
    | none => rw [hrt] at h; cases h
    | some routeTableId =>
      rw [hrt] at h
      obtain ⟨hg, hr, ha, Δ2, htr, hev⟩ := ih _ st' h
      refine ⟨hg, hr, ha, TgwEvent.propCreated attachmentKey attachId routeTableId :: Δ2,
        by simpa using htr, ?_⟩
      intro e he
      rcases List.mem_cons.mp he with he | he
      · exact ⟨routeTableId, he⟩
      · exact hev e he

theorem createVpnTransitGatewayAssociations_spec (env : NaEnv) (st st' : TgwState)
    (cgwItem : CustomerGatewayConfig) (vpnItem : VpnConnectionConfig)
    (h : createVpnTransitGatewayAssociations env st cgwItem vpnItem = Except.ok st') :
    st'.transitGateways = st.transitGateways ∧
    st'.transitGatewayRouteTables = st.transitGatewayRouteTables ∧
    st'.transitGatewayAttachments = st.transitGatewayAttachments ∧
    ∃ Δ, st'.trace = st.trace ++ Δ ∧
      ∀ e ∈ Δ, ∃ k a r, e = TgwEvent.assocCreated k a r ∧
        mget st.transitGatewayAttachments k = some a := by
  simp only [createVpnTransitGatewayAssociations] at h
  cases hrta : vpnItem.routeTableAssociations with
  | none =>
    rw [hrta] at h
    cases h
    exact ⟨rfl, rfl, rfl, [], by simp, by simp⟩
  | some rta =>
    rw [hrta] at h
    dsimp only at h
    by_cases hc : (env.acctId cgwItem.account == env.account && cgwItem.region == env.region) = true
    · rw [if_pos hc] at h
      cases hatt : mget st.transitGatewayAttachments
          (vpnItem.name ++ "_" ++ vpnItem.transitGateway.getD ("")) with
      | none => rw [hatt] at h; cases h
      | some attachId =>
        rw [hatt] at h
        obtain ⟨hg, hr, ha, Δ, htr, hev⟩ := createVpnTgwAssocRts_spec _ _ _ _ _ _ h
        refine ⟨hg, hr, ha, Δ, htr, ?_⟩
        intro e he
        obtain ⟨r, hre⟩ := hev e he
        exact ⟨_, _, r, hre, hatt⟩
    · rw [if_neg hc] at h
      cases h
      exact ⟨rfl, rfl, rfl, [], by simp, by simp⟩

theorem createVpnTransitGatewayPropagations_spec (env : NaEnv) (st st' : TgwState)
    (cgwItem : CustomerGatewayConfig) (vpnItem : VpnConnectionConfig)
    (h : createVpnTransitGatewayPropagations env st cgwItem vpnItem = Except.ok st') :
    st'.transitGateways = st.transitGateways ∧
    st'.transitGatewayRouteTables = st.transitGatewayRouteTables ∧
    st'.transitGatewayAttachments = st.transitGatewayAttachments ∧
    ∃ Δ, st'.trace = st.trace ++ Δ ∧
      ∀ e ∈ Δ, ∃ k a r, e = TgwEvent.propCreated k a r ∧
        mget st.transitGatewayAttachments k = some a := by
  simp only [createVpnTransitGatewayPropagations] at h
  cases hrta : vpnItem.routeTablePropagations with
  | none =>
    rw [hrta] at h
    cases h
    exact ⟨rfl, rfl, rfl, [], by simp, by simp⟩
  | some rtp =>
    rw [hrta] at h
    dsimp only at h
    by_cases hc : (env.acctId cgwItem.account == env.account && cgwItem.region == env.region) = true
    · rw [if_pos hc] at h
      cases hatt : mget st.transitGatewayAttachments
          (vpnItem.name ++ "_" ++ vpnItem.transitGateway.getD ("")) with
      | none => rw [hatt] at h; cases h
      | some attachId =>
        rw [hatt] at h
        obtain ⟨hg, hr, ha, Δ, htr, hev⟩ := createVpnTgwPropRts_spec _ _ _ _ _ _ h
        refine ⟨hg, hr, ha, Δ, htr, ?_⟩
        intro e he
        obtain ⟨r, hre⟩ := hev e he
        exact ⟨_, _, r, hre, hatt⟩
    · rw [if_neg hc] at h
      cases h
      exact ⟨rfl, rfl, rfl, [], by simp, by simp⟩

theorem tgwInv_extend_attach (st st' : TgwState) (Δ : List TgwEvent)
    (htr : st'.trace = st.trace ++ Δ)
    (hev : ∀ e ∈ Δ, ∃ k id, e = TgwEvent.attachResolved k id)
    (hkeys : ∀ k, (mget st'.transitGatewayAttachments k).isSome = true →
      k ∈ attachWriteKeys Δ ∨ (mget st.transitGatewayAttachments k).isSome = true)
    (hinv : TgwInv st) : TgwInv st' := by
  obtain ⟨hord, hmap⟩ := hinv
  constructor
  · rw [htr, assocOrdered_append, hord, Bool.true_and]
    exact assocOrdered_of_onlyAttach Δ hev _
  · intro k hk
    rw [htr, attachWriteKeys_append]
    rcases hkeys k hk with h | h
    · exact List.mem_append_right _ h
    · exact List.mem_append_left _ (hmap k h)

theorem tgwInv_extend_keyed (st st' : TgwState) (Δ : List TgwEvent)
    (htr : st'.trace = st.trace ++ Δ)
    (hatt : st'.transitGatewayAttachments = st.transitGatewayAttachments)
    (hev : ∀ e ∈ Δ, ∃ k a r,
      (e = TgwEvent.assocCreated k a r ∨ e = TgwEvent.propCreated k a r) ∧
      mget st.transitGatewayAttachments k = some a)
    (hinv : TgwInv st) : TgwInv st' := by
  obtain ⟨hord, hmap⟩ := hinv
  constructor
  · rw [htr, assocOrdered_append, hord, Bool.true_and]
    refine assocOrdered_of_keyed _ Δ ?_
    intro e he
    obtain ⟨k, a, r, hor, hm⟩ := hev e he
    refine ⟨k, a, r, hor, ?_⟩
    rw [resolvedKeysAcc_mem]
    exact Or.inl (hmap k (by simp [hm]))
  · intro k hk
    rw [htr, attachWriteKeys_append]
    rw [hatt] at hk
    exact List.mem_append_left _ (hmap k hk)

theorem staticFree_of_shapes (t : List TgwEvent)
    (h : ∀ e ∈ t, isStaticEvent e = false) : staticFree t = true := by
  simp only [staticFree, Bool.not_eq_true']
  rw [List.any_eq_false]
  exact fun x hx => by simp [h x hx]

theorem assocFree_of_shapes (t : List TgwEvent)
    (h : ∀ e ∈ t, isAssocOrPropEvent e = false) : assocFree t = true := by
  simp only [assocFree, Bool.not_eq_true']
  rw [List.any_eq_false]
  exact fun x hx => by simp [h x hx]

theorem tgwResourcesVpcStep_spec (env : NaEnv) (vpcItem : VpcConfig) (st st' : TgwState)
    (h : tgwResourcesVpcStep env st vpcItem = Except.ok st') :
    st'.transitGateways = st.transitGateways ∧
    st'.transitGatewayRouteTables = st.transitGatewayRouteTables ∧
    (∃ Δ, st'.trace = st.trace ++ Δ ∧ ∀ e ∈ Δ, isStaticEvent e = false) ∧
    (TgwInv st → TgwInv st') := by
  simp only [tgwResourcesVpcStep] at h
  cases h1 : setTransitGatewayVpcAttachmentsMap env st vpcItem with
  | error e => rw [h1] at h; cases h
  | ok st1 =>
    rw [h1] at h
    dsimp only at h
    cases h2 : createVpcTransitGatewayAssociations env st1 vpcItem with
    | error e => rw [h2] at h; cases h
    | ok st2 =>
      rw [h2] at h
      dsimp only at h
      -- unpack the region-conditional wrappers
      have spec1 : st1.transitGateways = st.transitGateways ∧
          st1.transitGatewayRouteTables = st.transitGatewayRouteTables ∧
          ∃ Δ, st1.trace = st.trace ++ Δ ∧
            (∀ e ∈ Δ, ∃ k id, e = TgwEvent.attachResolved k id) ∧
            (∀ k, (mget st1.transitGatewayAttachments k).isSome = true →
              k ∈ attachWriteKeys Δ ∨ (mget st.transitGatewayAttachments k).isSome = true) := by
        simp only [setTransitGatewayVpcAttachmentsMap] at h1
        by_cases hreg : (vpcItem.region == env.region) = true
        · rw [if_pos hreg] at h1
          exact setTgwVpcAttachItems_spec env vpcItem _ st st1 h1
        · rw [if_neg hreg] at h1
          cases h1
          exact ⟨rfl, rfl, [], by simp, by simp, fun k hk => Or.inr hk⟩
      have spec2 : st2.transitGateways = st1.transitGateways ∧
          st2.transitGatewayRouteTables = st1.transitGatewayRouteTables ∧
          st2.transitGatewayAttachments = st1.transitGatewayAttachments ∧
          ∃ Δ, st2.trace = st1.trace ++ Δ ∧
            ∀ e ∈ Δ, ∃ a r, e = TgwEvent.assocCreated (tgwAttachmentKey vpcItem.account vpcItem.name) a r ∧
              mget st1.transitGatewayAttachments (tgwAttachmentKey vpcItem.account vpcItem.name) = some a := by
        simp only [createVpcTransitGatewayAssociations] at h2
        by_cases hreg : (vpcItem.region == env.region) = true
        · rw [if_pos hreg] at h2
          exact createVpcTgwAssocItems_spec env vpcItem _ st1 st2 h2
        · rw [if_neg hreg] at h2
          cases h2
          exact ⟨rfl, rfl, rfl, [], by simp, by simp⟩
      have spec3 : st'.transitGateways = st2.transitGateways ∧
          st'.transitGatewayRouteTables = st2.transitGatewayRouteTables ∧
          st'.transitGatewayAttachments = st2.transitGatewayAttachments ∧
          ∃ Δ, st'.trace = st2.trace ++ Δ ∧
            ∀ e ∈ Δ, ∃ a r, e = TgwEvent.propCreated (tgwAttachmentKey vpcItem.account vpcItem.name) a r ∧
              mget st2.transitGatewayAttachments (tgwAttachmentKey vpcItem.account vpcItem.name) = some a := by
        simp only [createVpcTransitGatewayPropagations] at h
        by_cases hreg : (vpcItem.region == env.region) = true
        · rw [if_pos hreg] at h
          exact createVpcTgwPropItems_spec env vpcItem _ st2 st' h
        · rw [if_neg hreg] at h
          cases h
          exact ⟨rfl, rfl, rfl, [], by simp, by simp⟩
      obtain ⟨hg1, hr1, Δ1, htr1, hev1, hkeys1⟩ := spec1
      obtain ⟨hg2, hr2, ha2, Δ2, htr2, hev2⟩ := spec2
      obtain ⟨hg3, hr3, ha3, Δ3, htr3, hev3⟩ := spec3
      refine ⟨hg3.trans (hg2.trans hg1), hr3.trans (hr2.trans hr1), ?_, ?_⟩
      · refine ⟨Δ1 ++ Δ2 ++ Δ3, ?_, ?_⟩
        · rw [htr3, htr2, htr1]; simp [List.append_assoc]
        · intro e he
          simp only [List.mem_append] at he
          rcases he with (he | he) | he
          · obtain ⟨k, id, rfl⟩ := hev1 e he; rfl
          · obtain ⟨a, r, rfl, _⟩ := hev2 e he; rfl
          · obtain ⟨a, r, rfl, _⟩ := hev3 e he; rfl
      · intro hinv
        have inv1 : TgwInv st1 := tgwInv_extend_attach st st1 Δ1 htr1 hev1 hkeys1 hinv
        have inv2 : TgwInv st2 := by
          refine tgwInv_extend_keyed st1 st2 Δ2 htr2 ha2 ?_ inv1
          intro e he
          obtain ⟨a, r, hre, hm⟩ := hev2 e he
          exact ⟨_, a, r, Or.inl hre, hm⟩
        refine tgwInv_extend_keyed st2 st' Δ3 htr3 ha3 ?_ inv2
        intro e he
        obtain ⟨a, r, hre, hm⟩ := hev3 e he
        exact ⟨_, a, r, Or.inr hre, hm⟩

theorem tgwResourcesVpnStep_spec (env : NaEnv) (cfg : NetworkConfig)
    (cgwItem : CustomerGatewayConfig) (vpnItem : VpnConnectionConfig)
    (st st' : TgwState)
    (h : tgwResourcesVpnStep env cfg st cgwItem vpnItem = Except.ok st') :
    st'.transitGateways = st.transitGateways ∧
    st'.transitGatewayRouteTables = st.transitGatewayRouteTables ∧
    (∃ Δ, st'.trace = st.trace ++ Δ ∧ ∀ e ∈ Δ, isStaticEvent e = false) ∧
    (TgwInv st → TgwInv st') := by
  simp only [tgwResourcesVpnStep] at h
  cases h1 : setTransitGatewayVpnAttachmentsMap env cfg st cgwItem vpnItem with
  | error e => rw [h1] at h; cases h
  | ok st1 =>
    rw [h1] at h
    dsimp only at h
    cases h2 : createVpnTransitGatewayAssociations env st1 cgwItem vpnItem with
    | error e => rw [h2] at h; cases h
    | ok st2 =>
      rw [h2] at h
      dsimp only at h
      obtain ⟨hg1, hr1, Δ1, htr1, hev1, hkeys1⟩ :=
        setTransitGatewayVpnAttachmentsMap_spec env cfg st st1 cgwItem vpnItem h1
      obtain ⟨hg2, hr2, ha2, Δ2, htr2, hev2⟩ :=
        createVpnTransitGatewayAssociations_spec env st1 st2 cgwItem vpnItem h2
      obtain ⟨hg3, hr3, ha3, Δ3, htr3, hev3⟩ :=
        createVpnTransitGatewayPropagations_spec env st2 st' cgwItem vpnItem h
      refine ⟨hg3.trans (hg2.trans hg1), hr3.trans (hr2.trans hr1), ?_, ?_⟩
      · refine ⟨Δ1 ++ Δ2 ++ Δ3, ?_, ?_⟩
        · rw [htr3, htr2, htr1]; simp [List.append_assoc]
        · intro e he
          simp only [List.mem_append] at he
          rcases he with (he | he) | he
          · obtain ⟨k, id, rfl⟩ := hev1 e he; rfl
          · obtain ⟨k, a, r, rfl, _⟩ := hev2 e he; rfl
          · obtain ⟨k, a, r, rfl, _⟩ := hev3 e he; rfl
      · intro hinv
        have inv1 : TgwInv st1 := tgwInv_extend_attach st st1 Δ1 htr1 hev1 hkeys1 hinv
        have inv2 : TgwInv st2 := by
          refine tgwInv_extend_keyed st1 st2 Δ2 htr2 ha2 ?_ inv1
          intro e he
          obtain ⟨k, a, r, hre, hm⟩ := hev2 e he
          exact ⟨k, a, r, Or.inl hre, hm⟩
        refine tgwInv_extend_keyed st2 st' Δ3 htr3 ha3 ?_ inv2
        intro e he
        obtain ⟨k, a, r, hre, hm⟩ := hev3 e he
        exact ⟨k, a, r, Or.inr hre, hm⟩

theorem tgwResourcesVpcs_spec (env : NaEnv) :
    ∀ (vpcs : List VpcConfig) (st st' : TgwState),
    tgwResourcesVpcs env st vpcs = Except.ok st' →
    st'.transitGateways = st.transitGateways ∧
    st'.transitGatewayRouteTables = st.transitGatewayRouteTables ∧
    (∃ Δ, st'.trace = st.trace ++ Δ ∧ ∀ e ∈ Δ, isStaticEvent e = false) ∧
    (TgwInv st → TgwInv st') := by
  intro vpcs
  induction vpcs with
  | nil =>
    intro st st' h
    simp only [tgwResourcesVpcs] at h
    cases h
    exact ⟨rfl, rfl, ⟨[], by simp, by simp⟩, id⟩
  | cons vpc rest ih =>
    intro st st' h
    simp only [tgwResourcesVpcs] at h
    cases h1 : tgwResourcesVpcStep env st vpc with
    | error e => rw [h1] at h; cases h
    | ok st1 =>
      rw [h1] at h
      obtain ⟨hg1, hr1, ⟨Δ1, htr1, hsf1⟩, hinv1⟩ := tgwResourcesVpcStep_spec env vpc st st1 h1
      obtain ⟨hg2, hr2, ⟨Δ2, htr2, hsf2⟩, hinv2⟩ := ih st1 st' h
      refine ⟨hg2.trans hg1, hr2.trans hr1, ⟨Δ1 ++ Δ2, ?_, ?_⟩, fun hi => hinv2 (hinv1 hi)⟩
      · rw [htr2, htr1, List.append_assoc]
      · intro e he
        rcases List.mem_append.mp he with he | he
        · exact hsf1 e he
        · exact hsf2 e he

theorem tgwResourcesVpns_spec (env : NaEnv) (cfg : NetworkConfig)
    (cgwItem : CustomerGatewayConfig) :
    ∀ (vpns : List VpnConnectionConfig) (st st' : TgwState),
    tgwResourcesVpns env cfg st cgwItem vpns = Except.ok st' →
    st'.transitGateways = st.transitGateways ∧
    st'.transitGatewayRouteTables = st.transitGatewayRouteTables ∧
    (∃ Δ, st'.trace = st.trace ++ Δ ∧ ∀ e ∈ Δ, isStaticEvent e = false) ∧
    (TgwInv st → TgwInv st') := by
  intro vpns
  induction vpns with
  | nil =>
    intro st st' h
    simp only [tgwResourcesVpns] at h
    cases h
    exact ⟨rfl, rfl, ⟨[], by simp, by simp⟩, id⟩
  | cons vpn rest ih =>
    intro st st' h
    simp only [tgwResourcesVpns] at h
    cases h1 : tgwResourcesVpnStep env cfg st cgwItem vpn with
    | error e => rw [h1] at h; cases h
    | ok st1 =>
      rw [h1] at h
      obtain ⟨hg1, hr1, ⟨Δ1, htr1, hsf1⟩, hinv1⟩ :=
        tgwResourcesVpnStep_spec env cfg cgwItem vpn st st1 h1
      obtain ⟨hg2, hr2, ⟨Δ2, htr2, hsf2⟩, hinv2⟩ := ih st1 st' h
      refine ⟨hg2.trans hg1, hr2.trans hr1, ⟨Δ1 ++ Δ2, ?_, ?_⟩, fun hi => hinv2 (hinv1 hi)⟩
      · rw [htr2, htr1, List.append_assoc]
      · intro e he
        rcases List.mem_append.mp he with he | he
        · exact hsf1 e he
        · exact hsf2 e he

theorem tgwResourcesCgws_spec (env : NaEnv) (cfg : NetworkConfig) :
    ∀ (cgws : List CustomerGatewayConfig) (st st' : TgwState),
    tgwResourcesCgws env cfg st cgws = Except.ok st' →
    st'.transitGateways = st.transitGateways ∧
    st'.transitGatewayRouteTables = st.transitGatewayRouteTables ∧
    (∃ Δ, st'.trace = st.trace ++ Δ ∧ ∀ e ∈ Δ, isStaticEvent e = false) ∧
    (TgwInv st → TgwInv st') := by
  intro cgws
  induction cgws with
  | nil =>
    intro st st' h
    simp only [tgwResourcesCgws] at h
    cases h
    exact ⟨rfl, rfl, ⟨[], by simp, by simp⟩, id⟩
  | cons cgw rest ih =>
    intro st st' h
    simp only [tgwResourcesCgws] at h
    cases h1 : tgwResourcesVpns env cfg st cgw cgw.vpnConnections with
    | error e => rw [h1] at h; cases h
    | ok st1 =>
      rw [h1] at h
      obtain ⟨hg1, hr1, ⟨Δ1, htr1, hsf1⟩, hinv1⟩ :=
        tgwResourcesVpns_spec env cfg cgw cgw.vpnConnections st st1 h1
      obtain ⟨hg2, hr2, ⟨Δ2, htr2, hsf2⟩, hinv2⟩ := ih st1 st' h
      refine ⟨hg2.trans hg1, hr2.trans hr1, ⟨Δ1 ++ Δ2, ?_, ?_⟩, fun hi => hinv2 (hinv1 hi)⟩
      · rw [htr2, htr1, List.append_assoc]
      · intro e he
        rcases List.mem_append.mp he with he | he
        · exact hsf1 e he
        · exact hsf2 e he

theorem setTransitGatewayMap_fields (env : NaEnv) (st : TgwState)
    (tgwItem : TransitGatewayConfig) :
    (setTransitGatewayMap env st tgwItem).trace = st.trace ∧
    (setTransitGatewayMap env st tgwItem).transitGatewayAttachments =
      st.transitGatewayAttachments := by
  unfold setTransitGatewayMap
  split
  · exact ⟨rfl, rfl⟩
  · exact ⟨rfl, rfl⟩

theorem setTransitGatewayRouteTableMap_fields (env : NaEnv) (st : TgwState)
    (tgwItem : TransitGatewayConfig) :
    (setTransitGatewayRouteTableMap env st tgwItem).trace = st.trace ∧
    (setTransitGatewayRouteTableMap env st tgwItem).transitGatewayAttachments =
      st.transitGatewayAttachments := by
  unfold setTransitGatewayRouteTableMap
  split
  · generalize tgwItem.routeTables = rts
    induction rts generalizing st with
    | nil => exact ⟨rfl, rfl⟩
    | cons rt rest ih =>
      rw [List.foldl_cons]
      exact ih _
  · exact ⟨rfl, rfl⟩

theorem tgwMapsFold_fields (env : NaEnv) :
    ∀ (tgws : List TransitGatewayConfig) (st : TgwState),
    (tgws.foldl (fun st t =>
        setTransitGatewayRouteTableMap env (setTransitGatewayMap env st t) t) st).trace = st.trace ∧
    (tgws.foldl (fun st t =>
        setTransitGatewayRouteTableMap env (setTransitGatewayMap env st t) t) st).transitGatewayAttachments =
      st.transitGatewayAttachments := by
  intro tgws
  induction tgws with
  | nil => intro st; exact ⟨rfl, rfl⟩
  | cons t rest ih =>
    intro st
    rw [List.foldl_cons]
    have h1 := setTransitGatewayMap_fields env st t
    have h2 := setTransitGatewayRouteTableMap_fields env (setTransitGatewayMap env st t) t
    obtain ⟨ht, ha⟩ := ih (setTransitGatewayRouteTableMap env (setTransitGatewayMap env st t) t)
    exact ⟨ht.trans (h2.1.trans h1.1), ha.trans (h2.2.trans h1.2)⟩

theorem createTransitGatewayResources_spec (env : NaEnv) (cfg : NetworkConfig)
    (st' : TgwState) (h : createTransitGatewayResources env cfg = Except.ok st') :
    TgwInv st' ∧ (∀ e ∈ st'.trace, isStaticEvent e = false) := by
  simp only [createTransitGatewayResources] at h
  cases h1 : tgwResourcesVpcs env (cfg.transitGateways.foldl (fun st t =>
      setTransitGatewayRouteTableMap env (setTransitGatewayMap env st t) t) {}) cfg.vpcs with
  | error e => rw [h1] at h; cases h
  | ok st1 =>
    rw [h1] at h
    obtain ⟨hf1, hf2⟩ := tgwMapsFold_fields env cfg.transitGateways {}
    have hinv0 : TgwInv (cfg.transitGateways.foldl (fun st t =>
        setTransitGatewayRouteTableMap env (setTransitGatewayMap env st t) t) {}) := by
      constructor
      · rw [hf1]; rfl
      · intro k hk
        rw [hf2] at hk
        simp [mget] at hk
    obtain ⟨_, _, ⟨Δ1, htr1, hsf1⟩, hinv1⟩ := tgwResourcesVpcs_spec env cfg.vpcs _ st1 h1
    obtain ⟨_, _, ⟨Δ2, htr2, hsf2⟩, hinv2⟩ := tgwResourcesCgws_spec env cfg cfg.customerGateways st1 st' h
    constructor
    · exact hinv2 (hinv1 hinv0)
    · intro e he
      rw [htr2, htr1, hf1] at he
      simp only [List.nil_append, List.mem_append] at he
      rcases he with he | he
      · exact hsf1 e he
      · exact hsf2 e he

theorem staticRouteHalf_spec (env : NaEnv) (cfg : NetworkConfig) (st : TgwState)
    (tgwItem : TransitGatewayConfig) (rtItem : TransitGatewayRouteTableConfig)
    (routeItem : TgwRouteEntryConfig) (rtId : String) (st' : TgwState)
    (h : staticRouteHalf env cfg st tgwItem rtItem routeItem rtId = Except.ok st') :
    st'.transitGateways = st.transitGateways ∧
    st'.transitGatewayRouteTables = st.transitGatewayRouteTables ∧
    st'.transitGatewayAttachments = st.transitGatewayAttachments ∧
    ∃ Δ, st'.trace = st.trace ++ Δ ∧
      ∀ e ∈ Δ, isStaticEvent e = true ∧
        (∀ rid rt k a bh, e = TgwEvent.staticRouteCreated rid rt (some k) a bh →
          mget st.transitGatewayAttachments k = a) ∧
        (∀ rid rt pid k a bh, e = TgwEvent.plRefCreated rid rt pid (some k) a bh →
          mget st.transitGatewayAttachments k = a) := by
  simp only [staticRouteHalf] at h
  cases hc : routeItem.destinationCidrBlock with
  | none =>
    rw [hc] at h; cases h
    exact ⟨rfl, rfl, rfl, [], by simp, by simp⟩
  | some cidr =>
    rw [hc] at h
    dsimp only at h
    cases hatt : routeItem.attachment with
    | none =>
      rw [hatt] at h
      dsimp only at h
      cases h
      refine ⟨rfl, rfl, rfl, [TgwEvent.staticRouteCreated _ rtId none none routeItem.blackhole],
        rfl, ?_⟩
      intro e he
      rcases List.mem_singleton.mp he with rfl
      refine ⟨rfl, ?_, ?_⟩
      · intro rid rt k a bh he
        cases he
      · intro rid rt pid k a bh he
        cases he
    | some att =>
      rw [hatt] at h
      dsimp only at h
      cases att with
      | tgwPeeringAttach peerName =>
        dsimp only at h
        cases hp : getTgwPeeringAttachmentId env cfg st peerName tgwItem with
        | error e => rw [hp] at h; cases h
        | ok attachId =>
          rw [hp] at h
          cases h
          refine ⟨rfl, rfl, rfl,
            [TgwEvent.staticRouteCreated _ rtId none (some attachId) routeItem.blackhole], rfl, ?_⟩
          intro e he
          rcases List.mem_singleton.mp he with rfl
          refine ⟨rfl, ?_, ?_⟩
          · intro rid rt k a bh he
            cases he
          · intro rid rt pid k a bh he
            cases he
      | vpcAttach account vpcName =>
        dsimp only [staticRouteAttachmentMapKey] at h
        cases hm : mget st.transitGatewayAttachments (tgwAttachmentKey account vpcName) with
        | none => rw [hm] at h; cases h
        | some attachId =>
          rw [hm] at h
          cases h
          refine ⟨rfl, rfl, rfl,
            [TgwEvent.staticRouteCreated _ rtId (some (tgwAttachmentKey account vpcName))
              (some attachId) routeItem.blackhole], rfl, ?_⟩
          intro e he
          rcases List.mem_singleton.mp he with rfl
          refine ⟨rfl, ?_, ?_⟩
          · intro rid rt k a bh he
            injection he with h1 h2 h3 h4 h5
            cases Option.some.inj h3
            rw [hm, h4]
          · intro rid rt pid k a bh he
            cases he
      | dxGatewayAttach n =>
        dsimp only [staticRouteAttachmentMapKey] at h
        cases hm : mget st.transitGatewayAttachments (n ++ "_" ++ tgwItem.name) with
        | none => rw [hm] at h; cases h
        | some attachId =>
          rw [hm] at h
          cases h
          refine ⟨rfl, rfl, rfl,
            [TgwEvent.staticRouteCreated _ rtId (some (n ++ "_" ++ tgwItem.name))
              (some attachId) routeItem.blackhole], rfl, ?_⟩
          intro e he
          rcases List.mem_singleton.mp he with rfl
          refine ⟨rfl, ?_, ?_⟩
          · intro rid rt k a bh he
            injection he with h1 h2 h3 h4 h5
            cases Option.some.inj h3
            rw [hm, h4]
          · intro rid rt pid k a bh he
            cases he
      | vpnAttach n =>
        dsimp only [staticRouteAttachmentMapKey] at h
        cases hm : mget st.transitGatewayAttachments (n ++ "_" ++ tgwItem.name) with
        | none => rw [hm] at h; cases h
        | some attachId =>
          rw [hm] at h
          cases h
          refine ⟨rfl, rfl, rfl,
            [TgwEvent.staticRouteCreated _ rtId (some (n ++ "_" ++ tgwItem.name))
              (some attachId) routeItem.blackhole], rfl, ?_⟩
          intro e he
          rcases List.mem_singleton.mp he with rfl
          refine ⟨rfl, ?_, ?_⟩
          · intro rid rt k a bh he
            injection he with h1 h2 h3 h4 h5
            cases Option.some.inj h3
            rw [hm, h4]
          · intro rid rt pid k a bh he
            cases he

theorem plReferenceHalf_spec (env : NaEnv) (cfg : NetworkConfig) (st : TgwState)
    (plm : SMap) (tgwItem : TransitGatewayConfig)
    (rtItem : TransitGatewayRouteTableConfig)
    (routeItem : TgwRouteEntryConfig) (rtId : String) (st' : TgwState)
    (h : plReferenceHalf env cfg st plm tgwItem rtItem routeItem rtId = Except.ok st') :
    st'.transitGateways = st.transitGateways ∧
    st'.transitGatewayRouteTables = st.transitGatewayRouteTables ∧
    st'.transitGatewayAttachments = st.transitGatewayAttachments ∧
    ∃ Δ, st'.trace = st.trace ++ Δ ∧
      ∀ e ∈ Δ, isStaticEvent e = true ∧
        (∀ rid rt k a bh, e = TgwEvent.staticRouteCreated rid rt (some k) a bh →
          mget st.transitGatewayAttachments k = a) ∧
        (∀ rid rt pid k a bh, e = TgwEvent.plRefCreated rid rt pid (some k) a bh →
          mget st.transitGatewayAttachments k = a) := by
  simp only [plReferenceHalf] at h
  cases hc : routeItem.destinationPrefixList with
  | none =>
    rw [hc] at h; cases h
    exact ⟨rfl, rfl, rfl, [], by simp, by simp⟩
  | some pl =>
    rw [hc] at h
    dsimp only at h
    cases hpl : mget plm pl with
    | none => rw [hpl] at h; cases h
    | some prefixListId =>
      rw [hpl] at h
      dsimp only at h
      cases hatt : routeItem.attachment with
      | none =>
        rw [hatt] at h
        dsimp only at h
        cases h
        refine ⟨rfl, rfl, rfl,
          [TgwEvent.plRefCreated _ rtId prefixListId none none routeItem.blackhole], rfl, ?_⟩
        intro e he
        rcases List.mem_singleton.mp he with rfl
        refine ⟨rfl, ?_, ?_⟩
        · intro rid rt k a bh he
          cases he
        · intro rid rt pid k a bh he
          cases he
      | some att =>
        rw [hatt] at h
        dsimp only at h
        cases att with
        | tgwPeeringAttach peerName =>
          dsimp only at h
          cases hp : getTgwPeeringAttachmentId env cfg st peerName tgwItem with
          | error e => rw [hp] at h; cases h
          | ok attachId =>
            rw [hp] at h
            cases h
            refine ⟨rfl, rfl, rfl,
              [TgwEvent.plRefCreated _ rtId prefixListId none (some attachId) routeItem.blackhole],
              rfl, ?_⟩
            intro e he
            rcases List.mem_singleton.mp he with rfl
            refine ⟨rfl, ?_, ?_⟩
            · intro rid rt k a bh he
              cases he
            · intro rid rt pid k a bh he
              cases he
        | vpcAttach account vpcName =>
          dsimp only [staticRouteAttachmentMapKey] at h
          cases hm : mget st.transitGatewayAttachments (tgwAttachmentKey account vpcName) with
          | none => rw [hm] at h; cases h
          | some attachId =>
            rw [hm] at h
            cases h
            refine ⟨rfl, rfl, rfl,
              [TgwEvent.plRefCreated _ rtId prefixListId (some (tgwAttachmentKey account vpcName))
                (some attachId) routeItem.blackhole], rfl, ?_⟩
            intro e he
            rcases List.mem_singleton.mp he with rfl
            refine ⟨rfl, ?_, ?_⟩
            · intro rid rt k a bh he
              cases he
            · intro rid rt pid k a bh he
              injection he with h1 h2 h3 h4 h5 h6
              cases Option.some.inj h4
              rw [hm, h5]
        | dxGatewayAttach n =>
          dsimp only [staticRouteAttachmentMapKey] at h
          cases hm : mget st.transitGatewayAttachments (n ++ "_" ++ tgwItem.name) with
          | none => rw [hm] at h; cases h
          | some attachId =>
            rw [hm] at h
            cases h
            refine ⟨rfl, rfl, rfl,
              [TgwEvent.plRefCreated _ rtId prefixListId (some (n ++ "_" ++ tgwItem.name))
                (some attachId) routeItem.blackhole], rfl, ?_⟩
            intro e he
            rcases List.mem_singleton.mp he with rfl
            refine ⟨rfl, ?_, ?_⟩
            · intro rid rt k a bh he
              cases he
            · intro rid rt pid k a bh he
              injection he with h1 h2 h3 h4 h5 h6
              cases Option.some.inj h4
              rw [hm, h5]
        | vpnAttach n =>
          dsimp only [staticRouteAttachmentMapKey] at h
          cases hm : mget st.transitGatewayAttachments (n ++ "_" ++ tgwItem.name) with
          | none => rw [hm] at h; cases h
          | some attachId =>
            rw [hm] at h
            cases h
            refine ⟨rfl, rfl, rfl,
              [TgwEvent.plRefCreated _ rtId prefixListId (some (n ++ "_" ++ tgwItem.name))
                (some attachId) routeItem.blackhole], rfl, ?_⟩
            intro e he
            rcases List.mem_singleton.mp he with rfl
            refine ⟨rfl, ?_, ?_⟩
            · intro rid rt k a bh he
              cases he
            · intro rid rt pid k a bh he
              injection he with h1 h2 h3 h4 h5 h6
              cases Option.some.inj h4
              rw [hm, h5]

theorem createTransitGatewayStaticRouteItem_spec (env : NaEnv) (cfg : NetworkConfig)
    (st : TgwState) (plm : SMap) (tgwItem : TransitGatewayConfig)
    (rtItem : TransitGatewayRouteTableConfig) (routeItem : TgwRouteEntryConfig)
    (rtId : String) (st' : TgwState)
    (h : createTransitGatewayStaticRouteItem env cfg st plm tgwItem rtItem routeItem rtId =
      Except.ok st') :
    st'.transitGateways = st.transitGateways ∧
    st'.transitGatewayRouteTables = st.transitGatewayRouteTables ∧
    st'.transitGatewayAttachments = st.transitGatewayAttachments ∧
    ∃ Δ, st'.trace = st.trace ++ Δ ∧
      ∀ e ∈ Δ, isStaticEvent e = true ∧
        (∀ rid rt k a bh, e = TgwEvent.staticRouteCreated rid rt (some k) a bh →
          mget st.transitGatewayAttachments k = a) ∧
        (∀ rid rt pid k a bh, e = TgwEvent.plRefCreated rid rt pid (some k) a bh →
          mget st.transitGatewayAttachments k = a) := by
  simp only [createTransitGatewayStaticRouteItem] at h
  cases h1 : staticRouteHalf env cfg st tgwItem rtItem routeItem rtId with
  | error e => rw [h1] at h; cases h
  | ok st1 =>
    rw [h1] at h
    obtain ⟨hg1, hr1, ha1, Δ1, htr1, hev1⟩ :=
      staticRouteHalf_spec env cfg st tgwItem rtItem routeItem rtId st1 h1
    obtain ⟨hg2, hr2, ha2, Δ2, htr2, hev2⟩ :=
      plReferenceHalf_spec env cfg st1 plm tgwItem rtItem routeItem rtId st' h
    refine ⟨hg2.trans hg1, hr2.trans hr1, ha2.trans ha1, Δ1 ++ Δ2, ?_, ?_⟩
    · rw [htr2, htr1, List.append_assoc]
    · intro e he
      rcases List.mem_append.mp he with he | he
      · exact hev1 e he
      · obtain ⟨hs, hsr, hpr⟩ := hev2 e he
        rw [ha1] at hsr hpr
        exact ⟨hs, hsr, hpr⟩

theorem tgwStaticRouteEntries_spec (env : NaEnv) (cfg : NetworkConfig)
    (plm : SMap) (tgwItem : TransitGatewayConfig)
    (rtItem : TransitGatewayRouteTableConfig) (rtId : String) :
    ∀ (routes : List TgwRouteEntryConfig) (st st' : TgwState),
    tgwStaticRouteEntries env cfg st plm tgwItem rtItem rtId routes = Except.ok st' →
    st'.transitGateways = st.transitGateways ∧
    st'.transitGatewayRouteTables = st.transitGatewayRouteTables ∧
    st'.transitGatewayAttachments = st.transitGatewayAttachments ∧
    ∃ Δ, st'.trace = st.trace ++ Δ ∧ ∀ e ∈ Δ, isStaticEvent e = true := by
  intro routes
  induction routes with
  | nil =>
    intro st st' h
    simp only [tgwStaticRouteEntries] at h
    cases h
    exact ⟨rfl, rfl, rfl, [], by simp, by simp⟩
  | cons routeItem rest ih =>
    intro st st' h
    simp only [tgwStaticRouteEntries] at h
    cases h1 : createTransitGatewayStaticRouteItem env cfg st plm tgwItem rtItem routeItem rtId with
    | error e => rw [h1] at h; cases h
    | ok st1 =>
      rw [h1] at h
      obtain ⟨hg1, hr1, ha1, Δ1, htr1, hev1⟩ :=
        createTransitGatewayStaticRouteItem_spec env cfg st plm tgwItem rtItem routeItem rtId st1 h1
      obtain ⟨hg2, hr2, ha2, Δ2, htr2, hev2⟩ := ih st1 st' h
      refine ⟨hg2.trans hg1, hr2.trans hr1, ha2.trans ha1, Δ1 ++ Δ2, ?_, ?_⟩
      · rw [htr2, htr1, List.append_assoc]
      · intro e he
        rcases List.mem_append.mp he with he | he
        · exact (hev1 e he).1
        · exact hev2 e he

theorem tgwStaticRouteTables_spec (env : NaEnv) (cfg : NetworkConfig)
    (plm : SMap) (tgwItem : TransitGatewayConfig) :
    ∀ (rts : List TransitGatewayRouteTableConfig) (st st' : TgwState),
    tgwStaticRouteTables env cfg st plm tgwItem rts = Except.ok st' →
    st'.transitGateways = st.transitGateways ∧
    st'.transitGatewayRouteTables = st.transitGatewayRouteTables ∧
    st'.transitGatewayAttachments = st.transitGatewayAttachments ∧
    ∃ Δ, st'.trace = st.trace ++ Δ ∧ ∀ e ∈ Δ, isStaticEvent e = true := by
  intro rts
  induction rts with
  | nil =>
    intro st st' h
    simp only [tgwStaticRouteTables] at h
    cases h
    exact ⟨rfl, rfl, rfl, [], by simp, by simp⟩
  | cons rtItem rest ih =>
    intro st st' h
    simp only [tgwStaticRouteTables] at h
    cases hrt : mget st.transitGatewayRouteTables (tgwItem.name ++ "_" ++ rtItem.name) with
    | none => rw [hrt] at h; cases h
    | some rtId =>
      rw [hrt] at h
      dsimp only at h
      cases h1 : tgwStaticRouteEntries env cfg st plm tgwItem rtItem rtId rtItem.routes with
      | error e => rw [h1] at h; cases h
      | ok st1 =>
        rw [h1] at h
        obtain ⟨hg1, hr1, ha1, Δ1, htr1, hev1⟩ :=
          tgwStaticRouteEntries_spec env cfg plm tgwItem rtItem rtId rtItem.routes st st1 h1
        obtain ⟨hg2, hr2, ha2, Δ2, htr2, hev2⟩ := ih st1 st' h
        refine ⟨hg2.trans hg1, hr2.trans hr1, ha2.trans ha1, Δ1 ++ Δ2, ?_, ?_⟩
        · rw [htr2, htr1, List.append_assoc]
        · intro e he
          rcases List.mem_append.mp he with he | he
          · exact hev1 e he
          · exact hev2 e he

theorem tgwStaticList_spec (env : NaEnv) (cfg : NetworkConfig) (plm : SMap) :
    ∀ (tgws : List TransitGatewayConfig) (st st' : TgwState),
    tgwStaticList env cfg st plm tgws = Except.ok st' →
    st'.transitGateways = st.transitGateways ∧
    st'.transitGatewayRouteTables = st.transitGatewayRouteTables ∧
    st'.transitGatewayAttachments = st.transitGatewayAttachments ∧
    ∃ Δ, st'.trace = st.trace ++ Δ ∧ ∀ e ∈ Δ, isStaticEvent e = true := by
  intro tgws
  induction tgws with
  | nil =>
    intro st st' h
    simp only [tgwStaticList] at h
    cases h
    exact ⟨rfl, rfl, rfl, [], by simp, by simp⟩
  | cons tgwItem rest ih =>
    intro st st' h
    simp only [tgwStaticList] at h
    by_cases hc : (env.acctId tgwItem.account == env.account && tgwItem.region == env.region) = true
    · rw [if_pos hc] at h
      cases h1 : tgwStaticRouteTables env cfg st plm tgwItem tgwItem.routeTables with
      | error e => rw [h1] at h; cases h
      | ok st1 =>
        rw [h1] at h
        obtain ⟨hg1, hr1, ha1, Δ1, htr1, hev1⟩ :=
          tgwStaticRouteTables_spec env cfg plm tgwItem tgwItem.routeTables st st1 h1
        obtain ⟨hg2, hr2, ha2, Δ2, htr2, hev2⟩ := ih st1 st' h
        refine ⟨hg2.trans hg1, hr2.trans hr1, ha2.trans ha1, Δ1 ++ Δ2, ?_, ?_⟩
        · rw [htr2, htr1, List.append_assoc]
        · intro e he
          rcases List.mem_append.mp he with he | he
          · exact hev1 e he
          · exact hev2 e he
    · rw [if_neg hc] at h
      exact ih st st' h

theorem static_not_assoc (e : TgwEvent) (h : isStaticEvent e = true) :
    isAssocOrPropEvent e = false := by
  cases e <;> simp_all [isStaticEvent, isAssocOrPropEvent]

theorem assocOrdered_of_static (t : List TgwEvent)
    (h : ∀ e ∈ t, isStaticEvent e = true) :
    ∀ res, assocOrdered res t = true := by
  induction t with
  | nil => intro res; rfl
  | cons e rest ih =>
    intro res
    have he := h e (List.mem_cons_self _ _)
    have htail := ih (fun e he' => h e (List.mem_cons_of_mem _ he'))
    cases e <;> simp_all [isStaticEvent, assocOrdered]

/-- C3 (counterexample): with two VPCs in scope, each attached to the same
transit gateway, the build interleaves per VPC — the trace contains an
attachment-resolution event AFTER an association event, so associations
are NOT created only after ALL attachments in scope are resolved. -/
theorem c3_counterexample_interleaved_resolution :
    ∃ st, tgwPhase exEnv c3Cfg [] = Except.ok st ∧
      attachAfterAssoc st.trace = true :=
  ⟨_, rfl, rfl⟩

/-- C3 (amended): the ordering that actually holds is per attachment key:
in the transit gateway phase every route-table association and propagation
event appears only after the resolution event of its own attachment key
(the loop resolves each VPC's attachments immediately before that VPC's
associations and propagations), and every static route / prefix-list
reference is emitted after every association and propagation, because the
static-route step runs strictly after the resources step. -/
theorem c3_amended_per_key_ordering (env : NaEnv) (cfg : NetworkConfig) (plm : SMap)
    (st' : TgwState) (h : tgwPhase env cfg plm = Except.ok st') :
    assocOrdered [] st'.trace = true ∧
    ∃ t1 t2, st'.trace = t1 ++ t2 ∧ staticFree t1 = true ∧ assocFree t2 = true := by
  simp only [tgwPhase] at h
  cases h1 : createTransitGatewayResources env cfg with
  | error e => rw [h1] at h; cases h
  | ok st1 =>
    rw [h1] at h
    obtain ⟨⟨hord1, _⟩, hsf1⟩ := createTransitGatewayResources_spec env cfg st1 h1
    simp only [createTransitGatewayStaticRoutes] at h
    obtain ⟨_, _, _, Δ, htr, hev⟩ := tgwStaticList_spec env cfg plm cfg.transitGateways st1 st' h
    constructor
    · rw [htr, assocOrdered_append, hord1, Bool.true_and]
      exact assocOrdered_of_static Δ hev _
    · exact ⟨st1.trace, Δ, htr, staticFree_of_shapes _ hsf1,
        assocFree_of_shapes _ (fun e he => static_not_assoc e (hev e he))⟩

theorem c3_amended_per_key_ordering_witness :
    ∃ st', tgwPhase exEnv c3Cfg [] = Except.ok st' ∧
      (assocOrdered [] st'.trace = true ∧
       ∃ t1 t2, st'.trace = t1 ++ t2 ∧ staticFree t1 = true ∧ assocFree t2 = true) :=
  ⟨_, rfl, c3_amended_per_key_ordering exEnv c3Cfg [] _ rfl⟩

/-- C2: route-table associations, propagations and attachment-targeting
static routes are only emitted for attachment keys PRESENT in the shared
attachments map at the moment of construction — every emitted event's
attachment identifier is the map's value for its key — and an absent key
aborts the build of the current scope with an error instead of emitting
anything. -/
theorem c2_assoc_requires_resolved_attachment (env : NaEnv) (st : TgwState)
    (vpcItem : VpcConfig) :
    (∀ st', createVpcTransitGatewayAssociations env st vpcItem = Except.ok st' →
      ∃ Δ, st'.trace = st.trace ++ Δ ∧
        ∀ e ∈ Δ, ∃ k a r, e = TgwEvent.assocCreated k a r ∧
          mget st.transitGatewayAttachments k = some a) ∧
    (∀ st', createVpcTransitGatewayPropagations env st vpcItem = Except.ok st' →
      ∃ Δ, st'.trace = st.trace ++ Δ ∧
        ∀ e ∈ Δ, ∃ k a r, e = TgwEvent.propCreated k a r ∧
          mget st.transitGatewayAttachments k = some a) ∧
    (∀ cfg plm tgwItem rtItem routeItem rtId st',
      createTransitGatewayStaticRouteItem env cfg st plm tgwItem rtItem routeItem rtId =
        Except.ok st' →
      ∃ Δ, st'.trace = st.trace ++ Δ ∧
        ∀ e ∈ Δ, (∀ rid rt k a bh, e = TgwEvent.staticRouteCreated rid rt (some k) a bh →
            mget st.transitGatewayAttachments k = a) ∧
          (∀ rid rt pid k a bh, e = TgwEvent.plRefCreated rid rt pid (some k) a bh →
            mget st.transitGatewayAttachments k = a)) ∧
    (∀ item rest, vpcItem.transitGatewayAttachments = item :: rest →
      (vpcItem.region == env.region) = true →
      (env.acctId item.transitGateway.account == env.account) = true →
      mget st.transitGatewayAttachments (tgwAttachmentKey vpcItem.account vpcItem.name) = none →
      createVpcTransitGatewayAssociations env st vpcItem = Except.error
        (RtError.thrown ("Transit Gateway attachment " ++
          tgwAttachmentKey vpcItem.account vpcItem.name ++ " not found"))) := by
  refine ⟨?_, ?_, ?_, ?_⟩
  · intro st' h
    simp only [createVpcTransitGatewayAssociations] at h
    by_cases hreg : (vpcItem.region == env.region) = true
    · rw [if_pos hreg] at h
      obtain ⟨_, _, _, Δ, htr, hev⟩ := createVpcTgwAssocItems_spec env vpcItem _ st st' h
      refine ⟨Δ, htr, ?_⟩
      intro e he
      obtain ⟨a, r, hre, hm⟩ := hev e he
      exact ⟨_, a, r, hre, hm⟩
    · rw [if_neg hreg] at h
      cases h
      exact ⟨[], by simp, by simp⟩
  · intro st' h
    simp only [createVpcTransitGatewayPropagations] at h
    by_cases hreg : (vpcItem.region == env.region) = true
    · rw [if_pos hreg] at h
      obtain ⟨_, _, _, Δ, htr, hev⟩ := createVpcTgwPropItems_spec env vpcItem _ st st' h
      refine ⟨Δ, htr, ?_⟩
      intro e he
      obtain ⟨a, r, hre, hm⟩ := hev e he
      exact ⟨_, a, r, hre, hm⟩
    · rw [if_neg hreg] at h
      cases h
      exact ⟨[], by simp, by simp⟩
  · intro cfg plm tgwItem rtItem routeItem rtId st' h
    obtain ⟨_, _, _, Δ, htr, hev⟩ :=
      createTransitGatewayStaticRouteItem_spec env cfg st plm tgwItem rtItem routeItem rtId st' h
    refine ⟨Δ, htr, ?_⟩
    intro e he
    exact ⟨(hev e he).2.1, (hev e he).2.2⟩
  · intro item rest hlist hreg hacct hnone
    simp only [createVpcTransitGatewayAssociations, if_pos hreg, hlist,
      createVpcTgwAssocItems, if_pos hacct, hnone]

theorem c2_assoc_requires_resolved_attachment_witness :
    (∃ st', createVpcTransitGatewayAssociations exEnv c2StW c3VpcA = Except.ok st' ∧
      ∃ Δ, st'.trace = c2StW.trace ++ Δ ∧
        ∀ e ∈ Δ, ∃ k a r, e = TgwEvent.assocCreated k a r ∧
          mget c2StW.transitGatewayAttachments k = some a) ∧
    createVpcTransitGatewayAssociations exEnv {} c3VpcA = Except.error
      (RtError.thrown ("Transit Gateway attachment " ++
        tgwAttachmentKey c3VpcA.account c3VpcA.name ++ " not found")) :=
  ⟨⟨_, rfl, (c2_assoc_requires_resolved_attachment exEnv c2StW c3VpcA).1 _ rfl⟩,
   (c2_assoc_requires_resolved_attachment exEnv {} c3VpcA).2.2.2 _ _ rfl rfl rfl rfl⟩

/-- C6 (counterexample): the shared `transitGatewayAttachments` map is NOT
populated at most once per key — a VPC with two transit gateway attachments
in the same scope writes the same `account_vpcName` key twice (with two
different attachment identifiers, the later write overwriting the first). -/
theorem c6_counterexample_attachment_map_double_write :
    ∃ st, createTransitGatewayResources exEnv c6Cfg = Except.ok st ∧
      allDistinct (attachWriteKeys st.trace) = false :=
  ⟨_, rfl, rfl⟩

theorem accepterRouteEntries_sameScope (env : NaEnv) (accId : String)
    (accepterVpc requesterVpc : VpcConfig) (pname : String) (provider : Bool)
    (plm rtm : SMap) (rt : RouteTableConfig)
    (hsame : (requesterVpc.account == accepterVpc.account &&
      requesterVpc.region == accepterVpc.region) = true) :
    ∀ (entries : List RouteTableEntryConfig) (evs : List PeeringRouteEvent),
    accepterRouteEntries env accId accepterVpc requesterVpc pname provider plm rtm rt entries =
      Except.ok evs →
    ∀ e ∈ evs, ∃ rid rtid d dp, e = PeeringRouteEvent.direct rid rtid d dp := by
  intro entries
  induction entries with
  | nil =>
    intro evs h
    simp only [accepterRouteEntries] at h
    cases h
    simp
  | cons entry rest ih =>
    intro evs h
    simp only [accepterRouteEntries] at h
    by_cases hm : isPeeringRouteEntry pname entry = true
    · rw [if_pos hm] at h
      cases hrt : mget rtm (accepterVpc.name ++ "_" ++ rt.name) with
      | none => rw [hrt] at h; cases h
      | some rtid =>
        rw [hrt] at h
        dsimp only at h
        rw [if_pos hsame] at h
        cases hdp : entry.destinationPrefixList with
        | some pl =>
          rw [hdp] at h
          dsimp only at h
          cases hplv : mget plm pl with
          | none => rw [hplv] at h; cases h
          | some plId =>
            rw [hplv] at h
            dsimp only at h
            cases hrest : accepterRouteEntries env accId accepterVpc requesterVpc pname
                provider plm rtm rt rest with
            | error e => rw [hrest] at h; cases h
            | ok evs' =>
              rw [hrest] at h
              cases h
              intro e he
              rcases List.mem_cons.mp he with rfl | he
              · exact ⟨_, _, _, _, rfl⟩
              · exact ih evs' hrest e he
        | none =>
          rw [hdp] at h
          dsimp only at h
          cases hrest : accepterRouteEntries env accId accepterVpc requesterVpc pname
              provider plm rtm rt rest with
          | error e => rw [hrest] at h; cases h
          | ok evs' =>
            rw [hrest] at h
            cases h
            intro e he
            rcases List.mem_cons.mp he with rfl | he
            · exact ⟨_, _, _, _, rfl⟩
            · exact ih evs' hrest e he
    · rw [if_neg hm] at h
      exact ih evs h

theorem accepterRouteEntries_crossScope (env : NaEnv) (accId : String)
    (accepterVpc requesterVpc : VpcConfig) (pname : String)
    (plm rtm : SMap) (rt : RouteTableConfig)
    (hcross : (requesterVpc.account == accepterVpc.account &&
      requesterVpc.region == accepterVpc.region) = false) :
    ∀ (entries : List RouteTableEntryConfig) (evs : List PeeringRouteEvent),
    accepterRouteEntries env accId accepterVpc requesterVpc pname true plm rtm rt entries =
      Except.ok evs →
    evs.length = (entries.filter (isPeeringRouteEntry pname)).length ∧
    ∀ e ∈ evs, ∃ rid rtid d dp, e = PeeringRouteEvent.crossAcct rid rtid d dp := by
  intro entries
  induction entries with
  | nil =>
    intro evs h
    simp only [accepterRouteEntries] at h
    cases h
    simp
  | cons entry rest ih =>
    intro evs h
    simp only [accepterRouteEntries] at h
    by_cases hm : isPeeringRouteEntry pname entry = true
    · rw [if_pos hm] at h
      cases hrt : mget rtm (accepterVpc.name ++ "_" ++ rt.name) with
      | none => rw [hrt] at h; cases h
      | some rtid =>
        rw [hrt] at h
        dsimp only at h
        rw [if_neg (by simp [hcross])] at h
        cases hrest : accepterRouteEntries env accId accepterVpc requesterVpc pname
            true plm rtm rt rest with
        | error e => rw [hrest] at h; cases h
        | ok evs' =>
          rw [hrest] at h
          cases h
          obtain ⟨hlen, hev⟩ := ih evs' hrest
          constructor
          · simp [List.filter_cons, hm, hlen]
          · intro e he
            rcases List.mem_cons.mp he with rfl | he
            · exact ⟨_, _, _, _, rfl⟩
            · exact hev e he
    · rw [if_neg hm] at h
      obtain ⟨hlen, hev⟩ := ih evs h
      refine ⟨?_, hev⟩
      simp [List.filter_cons, hm, hlen]

theorem accepterRouteEntries_noProvider (env : NaEnv) (accId : String)
    (accepterVpc requesterVpc : VpcConfig) (pname : String)
    (plm rtm : SMap) (rt : RouteTableConfig)
    (hcross : (requesterVpc.account == accepterVpc.account &&
      requesterVpc.region == accepterVpc.region) = false) :
    ∀ (entries : List RouteTableEntryConfig),
    entries.any (isPeeringRouteEntry pname) = true →
    ∃ er, accepterRouteEntries env accId accepterVpc requesterVpc pname false plm rtm rt entries =
      Except.error er := by
  intro entries
  induction entries with
  | nil => intro h; simp at h
  | cons entry rest ih =>
    intro hany
    simp only [accepterRouteEntries]
    by_cases hm : isPeeringRouteEntry pname entry = true
    · rw [if_pos hm]
      cases hrt : mget rtm (accepterVpc.name ++ "_" ++ rt.name) with
      | none => exact ⟨_, rfl⟩
      | some rtid =>
        dsimp only
        rw [if_neg (by simp [hcross])]
        exact ⟨_, rfl⟩
    · rw [if_neg hm]
      refine ih ?_
      simp only [List.any_cons, hm] at hany
      simpa using hany

theorem accepterRouteTables_sameScope (env : NaEnv) (accId : String)
    (accepterVpc requesterVpc : VpcConfig) (pname : String) (provider : Bool)
    (plm rtm : SMap)
    (hsame : (requesterVpc.account == accepterVpc.account &&
      requesterVpc.region == accepterVpc.region) = true) :
    ∀ (rts : List RouteTableConfig) (evs : List PeeringRouteEvent),
    accepterRouteTables env accId accepterVpc requesterVpc pname provider plm rtm rts =
      Except.ok evs →
    ∀ e ∈ evs, ∃ rid rtid d dp, e = PeeringRouteEvent.direct rid rtid d dp := by
  intro rts
  induction rts with
  | nil =>
    intro evs h
    simp only [accepterRouteTables] at h
    cases h
    simp
  | cons rt rest ih =>
    intro evs h
    simp only [accepterRouteTables] at h
    cases h1 : accepterRouteEntries env accId accepterVpc requesterVpc pname provider
        plm rtm rt rt.routes with
    | error e => rw [h1] at h; cases h
    | ok evs1 =>
      rw [h1] at h
      dsimp only at h
      cases h2 : accepterRouteTables env accId accepterVpc requesterVpc pname provider
          plm rtm rest with
      | error e => rw [h2] at h; cases h
      | ok evs2 =>
        rw [h2] at h
        cases h
        intro e he
        rcases List.mem_append.mp he with he | he
        · exact accepterRouteEntries_sameScope env accId accepterVpc requesterVpc pname
            provider plm rtm rt hsame rt.routes evs1 h1 e he
        · exact ih evs2 h2 e he

theorem accepterRouteTables_crossScope (env : NaEnv) (accId : String)
    (accepterVpc requesterVpc : VpcConfig) (pname : String)
    (plm rtm : SMap)
    (hcross : (requesterVpc.account == accepterVpc.account &&
      requesterVpc.region == accepterVpc.region) = false) :
    ∀ (rts : List RouteTableConfig) (evs : List PeeringRouteEvent),
    accepterRouteTables env accId accepterVpc requesterVpc pname true plm rtm rts =
      Except.ok evs →
    evs.length = matchingEntriesCount pname rts ∧
    ∀ e ∈ evs, ∃ rid rtid d dp, e = PeeringRouteEvent.crossAcct rid rtid d dp := by
  intro rts
  induction rts with
  | nil =>
    intro evs h
    simp only [accepterRouteTables] at h
    cases h
    simp [matchingEntriesCount]
  | cons rt rest ih =>
    intro evs h
    simp only [accepterRouteTables] at h
    cases h1 : accepterRouteEntries env accId accepterVpc requesterVpc pname true
        plm rtm rt rt.routes with
    | error e => rw [h1] at h; cases h
    | ok evs1 =>
      rw [h1] at h
      dsimp only at h
      cases h2 : accepterRouteTables env accId accepterVpc requesterVpc pname true
          plm rtm rest with
      | error e => rw [h2] at h; cases h
      | ok evs2 =>
        rw [h2] at h
        cases h
        obtain ⟨hl1, he1⟩ := accepterRouteEntries_crossScope env accId accepterVpc requesterVpc
          pname plm rtm rt hcross rt.routes evs1 h1
        obtain ⟨hl2, he2⟩ := ih evs2 h2
        constructor
        · simp [matchingEntriesCount, hl1, hl2]
        · intro e he
          rcases List.mem_append.mp he with he | he
          · exact he1 e he
          · exact he2 e he

theorem accepterRouteTables_noProvider (env : NaEnv) (accId : String)
    (accepterVpc requesterVpc : VpcConfig) (pname : String)
    (plm rtm : SMap)
    (hcross : (requesterVpc.account == accepterVpc.account &&
      requesterVpc.region == accepterVpc.region) = false) :
    ∀ (rts : List RouteTableConfig),
    (∃ rt ∈ rts, rt.routes.any (isPeeringRouteEntry pname) = true) →
    ∃ er, accepterRouteTables env accId accepterVpc requesterVpc pname false plm rtm rts =
      Except.error er := by
  intro rts
  induction rts with
  | nil => intro h; simp at h
  | cons rt rest ih =>
    intro hex
    simp only [accepterRouteTables]
    by_cases hany : rt.routes.any (isPeeringRouteEntry pname) = true
    · obtain ⟨er, her⟩ := accepterRouteEntries_noProvider env accId accepterVpc requesterVpc
        pname plm rtm rt hcross rt.routes hany
      rw [her]
      exact ⟨er, rfl⟩
    · cases h1 : accepterRouteEntries env accId accepterVpc requesterVpc pname false
          plm rtm rt rt.routes with
      | error e => exact ⟨e, rfl⟩
      | ok evs1 =>
        have hex' : ∃ rt ∈ rest, rt.routes.any (isPeeringRouteEntry pname) = true := by
          rcases hex with ⟨rt', hmem, hrt'⟩
          rcases List.mem_cons.mp hmem with rfl | hmem
          · exact absurd hrt' hany
          · exact ⟨rt', hmem, hrt'⟩
        obtain ⟨er, her⟩ := ih hex'
        rw [her]
        exact ⟨er, rfl⟩

theorem foldl_if_true_eq_any {α : Type} (f : α → Bool) :
    ∀ (xs : List α) (b : Bool),
    xs.foldl (fun b x => if f x then true else b) b = (b || xs.any f) := by
  intro xs
  induction xs with
  | nil => intro b; simp
  | cons x rest ih =>
    intro b
    rw [List.foldl_cons]
    by_cases h : f x = true
    · rw [if_pos h, ih, List.any_cons, h]
      simp
    · rw [if_neg h, ih, List.any_cons]
      have hf : f x = false := by simpa using h
      rw [hf]
      simp

theorem nested_foldl_eq_any (p : Peering) (acc : VpcConfig) :
    ∀ (rts : List RouteTableConfig) (b : Bool),
    rts.foldl (fun b rt => rt.routes.foldl
      (fun b e => if entryNeedsCrossAcctRoute p acc e then true else b) b) b =
    (b || rts.any (fun rt => rt.routes.any (entryNeedsCrossAcctRoute p acc))) := by
  intro rts
  induction rts with
  | nil => intro b; simp
  | cons rt rest ih =>
    intro b
    rw [List.foldl_cons]
    rw [foldl_if_true_eq_any, ih, List.any_cons]
    cases b <;> simp [Bool.or_assoc]

theorem crossAcctFlagForPeering_spec (p : Peering) (acc : VpcConfig)
    (hacc : p.accepter = some acc) :
    crossAcctFlagForPeering p false = Except.ok (peeringNeedsCrossAcctProvider p) := by
  simp only [crossAcctFlagForPeering, peeringNeedsCrossAcctProvider, hacc]
  rw [nested_foldl_eq_any]
  simp

theorem createCrossAcctRouteProvider_spec :
    ∀ (ps : List Peering), (∀ p ∈ ps, p.accepter.isSome = true) →
    createCrossAcctRouteProvider ps =
      Except.ok (ps.any peeringNeedsCrossAcctProvider) := by
  intro ps
  induction ps with
  | nil => intro _; rfl
  | cons p rest ih =>
    intro hall
    have hp := hall p (List.mem_cons_self _ _)
    obtain ⟨acc, hacc⟩ := Option.isSome_iff_exists.mp hp
    simp only [createCrossAcctRouteProvider]
    rw [crossAcctFlagForPeering_spec p acc hacc,
      ih (fun q hq => hall q (List.mem_cons_of_mem _ hq))]
    simp [List.any_cons]

/-- C5: VPC peering accepter routes follow the scope dispatch — same
account and region means direct route creation, any difference in account
or region means exactly one cross-account route-creation request per
matching accepter route entry through the shared provider; the shared
provider is created (once per stack run, in the constructor) precisely when
some peering pair requires it, and processing a cross-scope accepter route
without the provider raises an error. -/
theorem c5_peering_route_protocol (env : NaEnv) (accId : String)
    (accepterVpc requesterVpc : VpcConfig) (pname : String)
    (plm rtm : SMap) :
    ((requesterVpc.account == accepterVpc.account &&
        requesterVpc.region == accepterVpc.region) = true →
      ∀ provider evs, createAccepterVpcPeeringRoutes env accId accepterVpc requesterVpc pname
          provider plm rtm = Except.ok evs →
      ∀ e ∈ evs, ∃ rid rtid d dp, e = PeeringRouteEvent.direct rid rtid d dp) ∧
    ((requesterVpc.account == accepterVpc.account &&
        requesterVpc.region == accepterVpc.region) = false →
      ∀ evs, createAccepterVpcPeeringRoutes env accId accepterVpc requesterVpc pname
          true plm rtm = Except.ok evs →
      evs.length = matchingAccepterEntries accepterVpc pname ∧
      ∀ e ∈ evs, ∃ rid rtid d dp, e = PeeringRouteEvent.crossAcct rid rtid d dp) ∧
    ((requesterVpc.account == accepterVpc.account &&
        requesterVpc.region == accepterVpc.region) = false →
      (∃ rt ∈ accepterVpc.routeTables, rt.routes.any (isPeeringRouteEntry pname) = true) →
      ∃ er, createAccepterVpcPeeringRoutes env accId accepterVpc requesterVpc pname
          false plm rtm = Except.error er) ∧
    (∀ ps : List Peering, (∀ p ∈ ps, p.accepter.isSome = true) →
      createCrossAcctRouteProvider ps =
        Except.ok (ps.any peeringNeedsCrossAcctProvider)) := by
  refine ⟨?_, ?_, ?_, createCrossAcctRouteProvider_spec⟩
  · intro hsame provider evs h
    exact accepterRouteTables_sameScope env accId accepterVpc requesterVpc pname provider
      plm rtm hsame accepterVpc.routeTables evs h
  · intro hcross evs h
    exact accepterRouteTables_crossScope env accId accepterVpc requesterVpc pname
      plm rtm hcross accepterVpc.routeTables evs h
  · intro hcross hex
    exact accepterRouteTables_noProvider env accId accepterVpc requesterVpc pname
      plm rtm hcross accepterVpc.routeTables hex

theorem c5_peering_route_protocol_witness :
    (∃ evs, createAccepterVpcPeeringRoutes exEnv ("999900001111") c1AccepterVpc c1RequesterVpc
        ("Peer1") true [] [("VpcC_RtA", "rt-123")] = Except.ok evs ∧
      evs.length = matchingAccepterEntries c1AccepterVpc ("Peer1") ∧
      ∀ e ∈ evs, ∃ rid rtid d dp, e = PeeringRouteEvent.crossAcct rid rtid d dp) ∧
    (∃ er, createAccepterVpcPeeringRoutes exEnv ("999900001111") c1AccepterVpc c1RequesterVpc
        ("Peer1") false [] [("VpcC_RtA", "rt-123")] = Except.error er) ∧
    createCrossAcctRouteProvider
        [{ name := "Peer1", requester := c1RequesterVpc, accepter := some c1AccepterVpc }] =
      Except.ok true :=
  ⟨⟨_, rfl, (c5_peering_route_protocol exEnv ("999900001111") c1AccepterVpc c1RequesterVpc
      ("Peer1") [] [("VpcC_RtA", "rt-123")]).2.1 rfl _ rfl⟩,
   (c5_peering_route_protocol exEnv ("999900001111") c1AccepterVpc c1RequesterVpc
      ("Peer1") [] [("VpcC_RtA", "rt-123")]).2.2.1 rfl
      ⟨{ name := "RtA", routes := [c1Route] }, by simp [c1AccepterVpc], by decide⟩,
   by
    rw [(c5_peering_route_protocol exEnv ("999900001111") c1AccepterVpc c1RequesterVpc
      ("Peer1") [] [("VpcC_RtA", "rt-123")]).2.2.2
      [{ name := "Peer1", requester := c1RequesterVpc, accepter := some c1AccepterVpc }]
      (by simp)]
    rfl⟩

theorem fwLookupNames_append (t1 t2 : List CnaEvent) :
    fwLookupNames (t1 ++ t2) = fwLookupNames t1 ++ fwLookupNames t2 := by
  induction t1 with
  | nil => rfl
  | cons e rest ih => cases e <;> simp [fwLookupNames, ih]

theorem queryLogLookupNames_append (t1 t2 : List CnaEvent) :
    queryLogLookupNames (t1 ++ t2) = queryLogLookupNames t1 ++ queryLogLookupNames t2 := by
  induction t1 with
  | nil => rfl
  | cons e rest ih => cases e <;> simp [queryLogLookupNames, ih]

theorem resolverRuleLookupNames_append (t1 t2 : List CnaEvent) :
    resolverRuleLookupNames (t1 ++ t2) =
      resolverRuleLookupNames t1 ++ resolverRuleLookupNames t2 := by
  induction t1 with
  | nil => rfl
  | cons e rest ih => cases e <;> simp [resolverRuleLookupNames, ih]

theorem allDistinct_snoc (l : List String) (x : String)
    (hd : allDistinct l = true) (hx : x ∉ l) : allDistinct (l ++ [x]) = true := by
  induction l with
  | nil => simp [allDistinct]
  | cons y rest ih =>
    simp only [allDistinct, Bool.and_eq_true, Bool.not_eq_true'] at hd
    have hyx : y ≠ x := fun he => hx (he ▸ List.mem_cons_self _ _)
    have hx' : x ∉ rest := fun hm => hx (List.mem_cons_of_mem _ hm)
    simp only [List.cons_append, allDistinct, Bool.and_eq_true, Bool.not_eq_true']
    constructor
    · have : y ∉ rest ++ [x] := by
        intro hm
        rcases List.mem_append.mp hm with hm | hm
        · have hc := contains_of_mem hm
          rw [hd.1] at hc
          cases hc
        · exact hyx (List.mem_singleton.mp hm)
      simpa using this
    · exact ih hd.2 hx'

theorem fwLookupNames_nil_of (Δ : List CnaEvent)
    (h : ∀ e ∈ Δ, isFwEvent e = false) : fwLookupNames Δ = [] := by
  induction Δ with
  | nil => rfl
  | cons e rest ih =>
    have he := h e (List.mem_cons_self _ _)
    have ht := ih (fun e he' => h e (List.mem_cons_of_mem _ he'))
    cases e <;> simp_all [isFwEvent, fwLookupNames]

theorem queryLogLookupNames_nil_of (Δ : List CnaEvent)
    (h : ∀ e ∈ Δ, isQlEvent e = false) : queryLogLookupNames Δ = [] := by
  induction Δ with
  | nil => rfl
  | cons e rest ih =>
    have he := h e (List.mem_cons_self _ _)
    have ht := ih (fun e he' => h e (List.mem_cons_of_mem _ he'))
    cases e <;> simp_all [isQlEvent, queryLogLookupNames]

theorem resolverRuleLookupNames_nil_of (Δ : List CnaEvent)
    (h : ∀ e ∈ Δ, isRrEvent e = false) : resolverRuleLookupNames Δ = [] := by
  induction Δ with
  | nil => rfl
  | cons e rest ih =>
    have he := h e (List.mem_cons_self _ _)
    have ht := ih (fun e he' => h e (List.mem_cons_of_mem _ he'))
    cases e <;> simp_all [isRrEvent, resolverRuleLookupNames]

theorem fwInv_extend (st st' : CnaState) (Δ : List CnaEvent)
    (htr : st'.trace = st.trace ++ Δ)
    (hmap : st'.dnsFirewallMap = st.dnsFirewallMap)
    (hΔ : ∀ e ∈ Δ, isFwEvent e = false)
    (h : FwInv st) : FwInv st' := by
  obtain ⟨h1, h2, h3⟩ := h
  have hnames : fwLookupNames st'.trace = fwLookupNames st.trace := by
    rw [htr, fwLookupNames_append, fwLookupNames_nil_of Δ hΔ, List.append_nil]
  refine ⟨by rw [hnames]; exact h1, ?_, ?_⟩
  · intro n
    rw [hnames, hmap]
    exact h2 n
  · intro n v i hm
    rw [htr] at hm
    rcases List.mem_append.mp hm with hm | hm
    · rw [hmap]; exact h3 n v i hm
    · have := hΔ _ hm
      simp [isFwEvent] at this
theorem qlInv_extend (st st' : CnaState) (Δ : List CnaEvent)
    (htr : st'.trace = st.trace ++ Δ)
    (hmap : st'.queryLogMap = st.queryLogMap)
    (hΔ : ∀ e ∈ Δ, isQlEvent e = false)
    (h : QlInv st) : QlInv st' := by
  obtain ⟨h1, h2, h3⟩ := h
  have hnames : queryLogLookupNames st'.trace = queryLogLookupNames st.trace := by
    rw [htr, queryLogLookupNames_append, queryLogLookupNames_nil_of Δ hΔ, List.append_nil]
  refine ⟨by rw [hnames]; exact h1, ?_, ?_⟩
  · intro n
    rw [hnames, hmap]
    exact h2 n
  · intro n v i hm
    rw [htr] at hm
    rcases List.mem_append.mp hm with hm | hm
    · rw [hmap]; exact h3 n v i hm
    · have := hΔ _ hm
      simp [isQlEvent] at this

theorem rrInv_extend (st st' : CnaState) (Δ : List CnaEvent)
    (htr : st'.trace = st.trace ++ Δ)
    (hmap : st'.resolverRuleMap = st.resolverRuleMap)
    (hΔ : ∀ e ∈ Δ, isRrEvent e = false)
    (h : RrInv st) : RrInv st' := by
  obtain ⟨h1, h2, h3⟩ := h
  have hnames : resolverRuleLookupNames st'.trace = resolverRuleLookupNames st.trace := by
    rw [htr, resolverRuleLookupNames_append, resolverRuleLookupNames_nil_of Δ hΔ, List.append_nil]
  refine ⟨by rw [hnames]; exact h1, ?_, ?_⟩
  · intro n
    rw [hnames, hmap]
    exact h2 n
  · intro n v i hm
    rw [htr] at hm
    rcases List.mem_append.mp hm with hm | hm
    · rw [hmap]; exact h3 n v i hm
    · have := hΔ _ hm
      simp [isRrEvent] at this

theorem fwInv_step (st : CnaState) (fwName ruleId : String) (src : LookupSource)
    (hnone : mget st.dnsFirewallMap fwName = none)
    (h : FwInv st) :
    FwInv { st with
             dnsFirewallMap := mset st.dnsFirewallMap fwName ruleId,
             trace := st.trace ++ [CnaEvent.fwRuleGroupLookup fwName src ruleId] } := by
  obtain ⟨h1, h2, h3⟩ := h
  have hnot : fwName ∉ fwLookupNames st.trace := by
    intro hm
    have hs := (h2 fwName).mp hm
    rw [hnone] at hs
    cases hs
  refine ⟨?_, ?_, ?_⟩
  · show allDistinct (fwLookupNames (st.trace ++ [CnaEvent.fwRuleGroupLookup fwName src ruleId])) = true
    rw [fwLookupNames_append]
    exact allDistinct_snoc _ _ h1 hnot
  · intro n
    show n ∈ fwLookupNames (st.trace ++ [CnaEvent.fwRuleGroupLookup fwName src ruleId]) ↔ _
    rw [fwLookupNames_append]
    simp only [fwLookupNames, List.mem_append, List.mem_singleton]
    rw [mget_mset_isSome]
    constructor
    · rintro (hm | rfl)
      · exact Or.inr ((h2 n).mp hm)
      · exact Or.inl rfl
    · rintro (rfl | hs)
      · exact Or.inr rfl
      · exact Or.inl ((h2 n).mpr hs)
  · intro n v i hm
    have hm' : CnaEvent.fwAssoc n v i ∈
        st.trace ++ [CnaEvent.fwRuleGroupLookup fwName src ruleId] := hm
    rcases List.mem_append.mp hm' with hm2 | hm2
    · have hne : n ≠ fwName := by
        rintro rfl
        have hx := h3 n v i hm2
        rw [hnone] at hx
        cases hx
      show mget (mset st.dnsFirewallMap fwName ruleId) n = some i
      rw [mget_mset_ne _ _ _ _ hne]
      exact h3 n v i hm2
    · simp at hm2

theorem fwInv_assoc (st : CnaState) (fwName vpcName ruleId : String)
    (hsome : mget st.dnsFirewallMap fwName = some ruleId)
    (h : FwInv st) :
    FwInv { st with trace := st.trace ++ [CnaEvent.fwAssoc fwName vpcName ruleId] } := by
  obtain ⟨h1, h2, h3⟩ := h
  have hnames : fwLookupNames (st.trace ++ [CnaEvent.fwAssoc fwName vpcName ruleId]) =
      fwLookupNames st.trace := by
    rw [fwLookupNames_append]
    simp [fwLookupNames]
  refine ⟨?_, ?_, ?_⟩
  · show allDistinct (fwLookupNames (st.trace ++ [CnaEvent.fwAssoc fwName vpcName ruleId])) = true
    rw [hnames]; exact h1
  · intro n
    show n ∈ fwLookupNames (st.trace ++ [CnaEvent.fwAssoc fwName vpcName ruleId]) ↔ _
    rw [hnames]; exact h2 n
  · intro n v i hm
    rcases List.mem_append.mp hm with hm | hm
    · exact h3 n v i hm
    · rcases List.mem_singleton.mp hm with he
      injection he with e1 e2 e3
      subst e1; subst e3
      exact hsome

theorem dnsFirewallItems_spec (env : NaEnv) (own vpcName : String) :
    ∀ (items : List (String × Nat)) (st st' : CnaState),
    dnsFirewallItems env own vpcName st items = Except.ok st' →
    st'.queryLogMap = st.queryLogMap ∧
    st'.resolverRuleMap = st.resolverRuleMap ∧
    (∃ Δ, st'.trace = st.trace ++ Δ ∧ ∀ e ∈ Δ, isFwEvent e = true) ∧
    (CnaInv st → CnaInv st') := by
  intro items
  induction items with
  | nil =>
    intro st st' h
    simp only [dnsFirewallItems] at h
    cases h
    exact ⟨rfl, rfl, ⟨[], by simp, by simp⟩, id⟩
  | cons item rest ih =>
    intro st st' h
    obtain ⟨fwName, prio⟩ := item
    simp only [dnsFirewallItems] at h
    by_cases hpresent : (mget st.dnsFirewallMap fwName).isSome = true
    · rw [if_pos hpresent] at h
      obtain ⟨ruleId, hsome⟩ := Option.isSome_iff_exists.mp hpresent
      rw [hsome] at h
      dsimp only at h
      obtain ⟨hq, hr, ⟨Δ, htr, hfw⟩, hinv⟩ := ih _ st' h
      refine ⟨hq, hr, ⟨CnaEvent.fwAssoc fwName vpcName ruleId :: Δ, by simpa using htr, ?_⟩, ?_⟩
      · intro e he
        rcases List.mem_cons.mp he with rfl | he
        · rfl
        · exact hfw e he
      · intro hcna
        refine hinv ⟨fwInv_assoc st fwName vpcName ruleId hsome hcna.1, ?_, ?_⟩
        · exact qlInv_extend st _ [CnaEvent.fwAssoc fwName vpcName ruleId] rfl rfl
            (by simp [isQlEvent]) hcna.2.1
        · exact rrInv_extend st _ [CnaEvent.fwAssoc fwName vpcName ruleId] rfl rfl
            (by simp [isRrEvent]) hcna.2.2
    · rw [if_neg hpresent] at h
      have hnone : mget st.dnsFirewallMap fwName = none := by
        cases hx : mget st.dnsFirewallMap fwName with
        | none => rfl
        | some v => rw [hx] at hpresent; simp at hpresent
      by_cases hlocal : (own == env.account) = true
      · rw [if_pos hlocal] at h
        rw [mget_mset_self] at h
        dsimp only at h
        obtain ⟨hq, hr, ⟨Δ, htr, hfw⟩, hinv⟩ := ih _ st' h
        refine ⟨hq, hr, ?_, ?_⟩
        · refine ⟨CnaEvent.fwRuleGroupLookup fwName
            (LookupSource.localParam ("/accelerator/network/route53Resolver/firewall/ruleGroups/" ++ fwName ++ "/id"))
            (env.ssm ("/accelerator/network/route53Resolver/firewall/ruleGroups/" ++ fwName ++ "/id")) ::
            CnaEvent.fwAssoc fwName vpcName
              (env.ssm ("/accelerator/network/route53Resolver/firewall/ruleGroups/" ++ fwName ++ "/id")) :: Δ,
            by simpa using htr, ?_⟩
          intro e he
          rcases List.mem_cons.mp he with rfl | he
          · rfl
          rcases List.mem_cons.mp he with rfl | he
          · rfl
          · exact hfw e he
        · intro hcna
          refine hinv ?_
          have hst1 := fwInv_step st fwName
            (env.ssm ("/accelerator/network/route53Resolver/firewall/ruleGroups/" ++ fwName ++ "/id"))
            (LookupSource.localParam
              ("/accelerator/network/route53Resolver/firewall/ruleGroups/" ++ fwName ++ "/id"))
            hnone hcna.1
          refine ⟨fwInv_assoc _ fwName vpcName _ (mget_mset_self _ _ _) hst1, ?_, ?_⟩
          · refine qlInv_extend st _ (_ :: _ :: []) (List.append_assoc _ _ _) rfl ?_ hcna.2.1
            intro e he
            rcases List.mem_cons.mp he with rfl | he
            · rfl
            rcases List.mem_cons.mp he with rfl | he
            · rfl
            · simp at he
          · refine rrInv_extend st _ (_ :: _ :: []) (List.append_assoc _ _ _) rfl ?_ hcna.2.2
            intro e he
            rcases List.mem_cons.mp he with rfl | he
            · rfl
            rcases List.mem_cons.mp he with rfl | he
            · rfl
            · simp at he
      · rw [if_neg hlocal] at h
        rw [mget_mset_self] at h
        dsimp only at h
        obtain ⟨hq, hr, ⟨Δ, htr, hfw⟩, hinv⟩ := ih _ st' h
        refine ⟨hq, hr, ?_, ?_⟩
        · refine ⟨CnaEvent.fwRuleGroupLookup fwName
            (LookupSource.resourceShare (fwName ++ "_ResolverFirewallRuleGroupShare")
              ("route53resolver:FirewallRuleGroup") own)
            (env.share (fwName ++ "_ResolverFirewallRuleGroupShare")
              ("route53resolver:FirewallRuleGroup") own) ::
            CnaEvent.fwAssoc fwName vpcName
              (env.share (fwName ++ "_ResolverFirewallRuleGroupShare")
                ("route53resolver:FirewallRuleGroup") own) :: Δ,
            by simpa using htr, ?_⟩
          intro e he
          rcases List.mem_cons.mp he with rfl | he
          · rfl
          rcases List.mem_cons.mp he with rfl | he
          · rfl
          · exact hfw e he
        · intro hcna
          refine hinv ?_
          have hst1 := fwInv_step st fwName
            (env.share (fwName ++ "_ResolverFirewallRuleGroupShare")
              ("route53resolver:FirewallRuleGroup") own)
            (LookupSource.resourceShare
              (fwName ++ "_ResolverFirewallRuleGroupShare") ("route53resolver:FirewallRuleGroup") own)
            hnone hcna.1
          refine ⟨fwInv_assoc _ fwName vpcName _ (mget_mset_self _ _ _) hst1, ?_, ?_⟩
          · refine qlInv_extend st _ (_ :: _ :: []) (List.append_assoc _ _ _) rfl ?_ hcna.2.1
            intro e he
            rcases List.mem_cons.mp he with rfl | he
            · rfl
            rcases List.mem_cons.mp he with rfl | he
            · rfl
            · simp at he
          · refine rrInv_extend st _ (_ :: _ :: []) (List.append_assoc _ _ _) rfl ?_ hcna.2.2
            intro e he
            rcases List.mem_cons.mp he with rfl | he
            · rfl
            rcases List.mem_cons.mp he with rfl | he
            · rfl
            · simp at he

theorem rrInv_step (st : CnaState) (ruleItem ruleId : String) (src : LookupSource)
    (hnone : mget st.resolverRuleMap ruleItem = none)
    (h : RrInv st) :
    RrInv { st with
             resolverRuleMap := mset st.resolverRuleMap ruleItem ruleId,
             trace := st.trace ++ [CnaEvent.resolverRuleLookup ruleItem src ruleId] } := by
  obtain ⟨h1, h2, h3⟩ := h
  have hnot : ruleItem ∉ resolverRuleLookupNames st.trace := by
    intro hm
    have hs := (h2 ruleItem).mp hm
    rw [hnone] at hs
    cases hs
  refine ⟨?_, ?_, ?_⟩
  · show allDistinct (resolverRuleLookupNames
      (st.trace ++ [CnaEvent.resolverRuleLookup ruleItem src ruleId])) = true
    rw [resolverRuleLookupNames_append]
    exact allDistinct_snoc _ _ h1 hnot
  · intro n
    show n ∈ resolverRuleLookupNames
      (st.trace ++ [CnaEvent.resolverRuleLookup ruleItem src ruleId]) ↔ _
    rw [resolverRuleLookupNames_append]
    simp only [resolverRuleLookupNames, List.mem_append, List.mem_singleton]
    rw [mget_mset_isSome]
    constructor
    · rintro (hm | rfl)
      · exact Or.inr ((h2 n).mp hm)
      · exact Or.inl rfl
    · rintro (rfl | hs)
      · exact Or.inr rfl
      · exact Or.inl ((h2 n).mpr hs)
  · intro n v i hm
    have hm' : CnaEvent.resolverRuleAssoc n v i ∈
        st.trace ++ [CnaEvent.resolverRuleLookup ruleItem src ruleId] := hm
    rcases List.mem_append.mp hm' with hm2 | hm2
    · have hne : n ≠ ruleItem := by
        rintro rfl
        have hx := h3 n v i hm2
        rw [hnone] at hx
        cases hx
      show mget (mset st.resolverRuleMap ruleItem ruleId) n = some i
      rw [mget_mset_ne _ _ _ _ hne]
      exact h3 n v i hm2
    · simp at hm2

theorem rrInv_assoc (st : CnaState) (ruleItem vpcName ruleId : String)
    (hsome : mget st.resolverRuleMap ruleItem = some ruleId)
    (h : RrInv st) :
    RrInv { st with trace := st.trace ++ [CnaEvent.resolverRuleAssoc ruleItem vpcName ruleId] } := by
  obtain ⟨h1, h2, h3⟩ := h
  have hnames : resolverRuleLookupNames
      (st.trace ++ [CnaEvent.resolverRuleAssoc ruleItem vpcName ruleId]) =
      resolverRuleLookupNames st.trace := by
    rw [resolverRuleLookupNames_append]
    simp [resolverRuleLookupNames]
  refine ⟨?_, ?_, ?_⟩
  · show allDistinct (resolverRuleLookupNames
      (st.trace ++ [CnaEvent.resolverRuleAssoc ruleItem vpcName ruleId])) = true
    rw [hnames]; exact h1
  · intro n
    show n ∈ resolverRuleLookupNames
      (st.trace ++ [CnaEvent.resolverRuleAssoc ruleItem vpcName ruleId]) ↔ _
    rw [hnames]; exact h2 n
  · intro n v i hm
    have hm' : CnaEvent.resolverRuleAssoc n v i ∈
        st.trace ++ [CnaEvent.resolverRuleAssoc ruleItem vpcName ruleId] := hm
    rcases List.mem_append.mp hm' with hm2 | hm2
    · exact h3 n v i hm2
    · rcases List.mem_singleton.mp hm2 with he
      injection he with e1 e2 e3
      subst e1; subst e3
      exact hsome

theorem qlInv_step (st : CnaState) (nameItem configId : String) (src : LookupSource)
    (hnone : mget st.queryLogMap nameItem = none)
    (h : QlInv st) :
    QlInv { st with
             queryLogMap := mset st.queryLogMap nameItem configId,
             trace := st.trace ++ [CnaEvent.queryLogLookup nameItem src configId] } := by
  obtain ⟨h1, h2, h3⟩ := h
  have hnot : nameItem ∉ queryLogLookupNames st.trace := by
    intro hm
    have hs := (h2 nameItem).mp hm
    rw [hnone] at hs
    cases hs
  refine ⟨?_, ?_, ?_⟩
  · show allDistinct (queryLogLookupNames
      (st.trace ++ [CnaEvent.queryLogLookup nameItem src configId])) = true
    rw [queryLogLookupNames_append]
    exact allDistinct_snoc _ _ h1 hnot
  · intro n
    show n ∈ queryLogLookupNames
      (st.trace ++ [CnaEvent.queryLogLookup nameItem src configId]) ↔ _
    rw [queryLogLookupNames_append]
    simp only [queryLogLookupNames, List.mem_append, List.mem_singleton]
    rw [mget_mset_isSome]
    constructor
    · rintro (hm | rfl)
      · exact Or.inr ((h2 n).mp hm)
      · exact Or.inl rfl
    · rintro (rfl | hs)
      · exact Or.inr rfl
      · exact Or.inl ((h2 n).mpr hs)
  · intro n v i hm
    have hm' : CnaEvent.queryLogAssoc n v i ∈
        st.trace ++ [CnaEvent.queryLogLookup nameItem src configId] := hm
    rcases List.mem_append.mp hm' with hm2 | hm2
    · have hne : n ≠ nameItem := by
        rintro rfl
        have hx := h3 n v i hm2
        rw [hnone] at hx
        cases hx
      show mget (mset st.queryLogMap nameItem configId) n = some i
      rw [mget_mset_ne _ _ _ _ hne]
      exact h3 n v i hm2
    · simp at hm2

theorem qlInv_assoc (st : CnaState) (nameItem vpcName configId : String)
    (hsome : mget st.queryLogMap nameItem = some configId)
    (h : QlInv st) :
    QlInv { st with trace := st.trace ++ [CnaEvent.queryLogAssoc nameItem vpcName configId] } := by
  obtain ⟨h1, h2, h3⟩ := h
  have hnames : queryLogLookupNames
      (st.trace ++ [CnaEvent.queryLogAssoc nameItem vpcName configId]) =
      queryLogLookupNames st.trace := by
    rw [queryLogLookupNames_append]
    simp [queryLogLookupNames]
  refine ⟨?_, ?_, ?_⟩
  · show allDistinct (queryLogLookupNames
      (st.trace ++ [CnaEvent.queryLogAssoc nameItem vpcName configId])) = true
    rw [hnames]; exact h1
  · intro n
    show n ∈ queryLogLookupNames
      (st.trace ++ [CnaEvent.queryLogAssoc nameItem vpcName configId]) ↔ _
    rw [hnames]; exact h2 n
  · intro n v i hm
    have hm' : CnaEvent.queryLogAssoc n v i ∈
        st.trace ++ [CnaEvent.queryLogAssoc nameItem vpcName configId] := hm
    rcases List.mem_append.mp hm' with hm2 | hm2
    · exact h3 n v i hm2
    · rcases List.mem_singleton.mp hm2 with he
      injection he with e1 e2 e3
      subst e1; subst e3
      exact hsome

theorem resolverRuleItems_spec (env : NaEnv) (own vpcName : String) :
    ∀ (items : List String) (st st' : CnaState),
    resolverRuleItems env own vpcName st items = Except.ok st' →
    st'.dnsFirewallMap = st.dnsFirewallMap ∧
    st'.queryLogMap = st.queryLogMap ∧
    (∃ Δ, st'.trace = st.trace ++ Δ ∧ ∀ e ∈ Δ, isRrEvent e = true) ∧
    (CnaInv st → CnaInv st') := by
  intro items
  induction items with
  | nil =>
    intro st st' h
    simp only [resolverRuleItems] at h
    cases h
    exact ⟨rfl, rfl, ⟨[], by simp, by simp⟩, id⟩
  | cons ruleItem rest ih =>
    intro st st' h
    simp only [resolverRuleItems] at h
    by_cases hpresent : (mget st.resolverRuleMap ruleItem).isSome = true
    · rw [if_pos hpresent] at h
      obtain ⟨ruleId, hsome⟩ := Option.isSome_iff_exists.mp hpresent
      rw [hsome] at h
      dsimp only at h
      obtain ⟨hf, hq, ⟨Δ, htr, hrr⟩, hinv⟩ := ih _ st' h
      refine ⟨hf, hq, ⟨CnaEvent.resolverRuleAssoc ruleItem vpcName ruleId :: Δ,
        by simpa using htr, ?_⟩, ?_⟩
      · intro e he
        rcases List.mem_cons.mp he with rfl | he
        · rfl
        · exact hrr e he
      · intro hcna
        refine hinv ⟨?_, ?_, rrInv_assoc st ruleItem vpcName ruleId hsome hcna.2.2⟩
        · exact fwInv_extend st _ [CnaEvent.resolverRuleAssoc ruleItem vpcName ruleId] rfl rfl
            (by simp [isFwEvent]) hcna.1
        · exact qlInv_extend st _ [CnaEvent.resolverRuleAssoc ruleItem vpcName ruleId] rfl rfl
            (by simp [isQlEvent]) hcna.2.1
    · rw [if_neg hpresent] at h
      have hnone : mget st.resolverRuleMap ruleItem = none := by
        cases hx : mget st.resolverRuleMap ruleItem with
        | none => rfl
        | some v => rw [hx] at hpresent; simp at hpresent
      by_cases hlocal : (own == env.account) = true
      · rw [if_pos hlocal] at h
        rw [mget_mset_self] at h
        dsimp only at h
        obtain ⟨hf, hq, ⟨Δ, htr, hrr⟩, hinv⟩ := ih _ st' h
        refine ⟨hf, hq, ?_, ?_⟩
        · refine ⟨CnaEvent.resolverRuleLookup ruleItem
            (LookupSource.localParam ("/accelerator/network/route53Resolver/rules/" ++ ruleItem ++ "/id"))
            (env.ssm ("/accelerator/network/route53Resolver/rules/" ++ ruleItem ++ "/id")) ::
            CnaEvent.resolverRuleAssoc ruleItem vpcName
              (env.ssm ("/accelerator/network/route53Resolver/rules/" ++ ruleItem ++ "/id")) :: Δ,
            by simpa using htr, ?_⟩
          intro e he
          rcases List.mem_cons.mp he with rfl | he
          · rfl
          rcases List.mem_cons.mp he with rfl | he
          · rfl
          · exact hrr e he
        · intro hcna
          refine hinv ?_
          have hst1 := rrInv_step st ruleItem
            (env.ssm ("/accelerator/network/route53Resolver/rules/" ++ ruleItem ++ "/id"))
            (LookupSource.localParam ("/accelerator/network/route53Resolver/rules/" ++ ruleItem ++ "/id"))
            hnone hcna.2.2
          refine ⟨?_, ?_, rrInv_assoc _ ruleItem vpcName _ (mget_mset_self _ _ _) hst1⟩
          · refine fwInv_extend st _ (_ :: _ :: []) (List.append_assoc _ _ _) rfl ?_ hcna.1
            intro e he
            rcases List.mem_cons.mp he with rfl | he
            · rfl
            rcases List.mem_cons.mp he with rfl | he
            · rfl
            · simp at he
          · refine qlInv_extend st _ (_ :: _ :: []) (List.append_assoc _ _ _) rfl ?_ hcna.2.1
            intro e he
            rcases List.mem_cons.mp he with rfl | he
            · rfl
            rcases List.mem_cons.mp he with rfl | he
            · rfl
            · simp at he
      · rw [if_neg hlocal] at h
        rw [mget_mset_self] at h
        dsimp only at h
        obtain ⟨hf, hq, ⟨Δ, htr, hrr⟩, hinv⟩ := ih _ st' h
        refine ⟨hf, hq, ?_, ?_⟩
        · refine ⟨CnaEvent.resolverRuleLookup ruleItem
            (LookupSource.resourceShare (ruleItem ++ "_ResolverRule")
              ("route53resolver:ResolverRule") own)
            (env.share (ruleItem ++ "_ResolverRule") ("route53resolver:ResolverRule") own) ::
            CnaEvent.resolverRuleAssoc ruleItem vpcName
              (env.share (ruleItem ++ "_ResolverRule") ("route53resolver:ResolverRule") own) :: Δ,
            by simpa using htr, ?_⟩
          intro e he
          rcases List.mem_cons.mp he with rfl | he
          · rfl
          rcases List.mem_cons.mp he with rfl | he
          · rfl
          · exact hrr e he
        · intro hcna
          refine hinv ?_
          have hst1 := rrInv_step st ruleItem
            (env.share (ruleItem ++ "_ResolverRule") ("route53resolver:ResolverRule") own)
            (LookupSource.resourceShare (ruleItem ++ "_ResolverRule")
              ("route53resolver:ResolverRule") own)
            hnone hcna.2.2
          refine ⟨?_, ?_, rrInv_assoc _ ruleItem vpcName _ (mget_mset_self _ _ _) hst1⟩
          · refine fwInv_extend st _ (_ :: _ :: []) (List.append_assoc _ _ _) rfl ?_ hcna.1
            intro e he
            rcases List.mem_cons.mp he with rfl | he
            · rfl
            rcases List.mem_cons.mp he with rfl | he
            · rfl
            · simp at he
          · refine qlInv_extend st _ (_ :: _ :: []) (List.append_assoc _ _ _) rfl ?_ hcna.2.1
            intro e he
            rcases List.mem_cons.mp he with rfl | he
            · rfl
            rcases List.mem_cons.mp he with rfl | he
            · rfl
            · simp at he

theorem queryLogLookups_spec (env : NaEnv) (own : String) :
    ∀ (names : List String) (st : CnaState),
    (queryLogLookups env own st names).dnsFirewallMap = st.dnsFirewallMap ∧
    (queryLogLookups env own st names).resolverRuleMap = st.resolverRuleMap ∧
    (∃ Δ, (queryLogLookups env own st names).trace = st.trace ++ Δ ∧
      ∀ e ∈ Δ, isQlEvent e = true) ∧
    (CnaInv st → CnaInv (queryLogLookups env own st names)) := by
  intro names
  induction names with
  | nil =>
    intro st
    exact ⟨rfl, rfl, ⟨[], by simp [queryLogLookups], by simp⟩, id⟩
  | cons nameItem rest ih =>
    intro st
    simp only [queryLogLookups]
    by_cases hpresent : (mget st.queryLogMap nameItem).isSome = true
    · rw [if_pos hpresent]
      exact ih st
    · rw [if_neg hpresent]
      have hnone : mget st.queryLogMap nameItem = none := by
        cases hx : mget st.queryLogMap nameItem with
        | none => rfl
        | some v => rw [hx] at hpresent; simp at hpresent
      by_cases hlocal : (own == env.account) = true
      · rw [if_pos hlocal]
        obtain ⟨hf, hr, ⟨Δ, htr, hql⟩, hinv⟩ := ih ({ st with
          queryLogMap := mset st.queryLogMap nameItem
            (env.ssm ("/accelerator/network/route53Resolver/queryLogConfigs/" ++ nameItem ++ "/id")),
          trace := st.trace ++ [CnaEvent.queryLogLookup nameItem
            (LookupSource.localParam ("/accelerator/network/route53Resolver/queryLogConfigs/" ++ nameItem ++ "/id"))
            (env.ssm ("/accelerator/network/route53Resolver/queryLogConfigs/" ++ nameItem ++ "/id"))] })
        refine ⟨hf, hr, ⟨CnaEvent.queryLogLookup nameItem
            (LookupSource.localParam ("/accelerator/network/route53Resolver/queryLogConfigs/" ++ nameItem ++ "/id"))
            (env.ssm ("/accelerator/network/route53Resolver/queryLogConfigs/" ++ nameItem ++ "/id")) :: Δ,
          by simpa using htr, ?_⟩, ?_⟩
        · intro e he
          rcases List.mem_cons.mp he with rfl | he
          · rfl
          · exact hql e he
        · intro hcna
          refine hinv ⟨?_, qlInv_step st nameItem _ _ hnone hcna.2.1, ?_⟩
          · exact fwInv_extend st _ [CnaEvent.queryLogLookup nameItem
              (LookupSource.localParam ("/accelerator/network/route53Resolver/queryLogConfigs/" ++ nameItem ++ "/id"))
              (env.ssm ("/accelerator/network/route53Resolver/queryLogConfigs/" ++ nameItem ++ "/id"))]
              rfl rfl (by simp [isFwEvent]) hcna.1
          · exact rrInv_extend st _ [CnaEvent.queryLogLookup nameItem
              (LookupSource.localParam ("/accelerator/network/route53Resolver/queryLogConfigs/" ++ nameItem ++ "/id"))
              (env.ssm ("/accelerator/network/route53Resolver/queryLogConfigs/" ++ nameItem ++ "/id"))]
              rfl rfl (by simp [isRrEvent]) hcna.2.2
      · rw [if_neg hlocal]
        obtain ⟨hf, hr, ⟨Δ, htr, hql⟩, hinv⟩ := ih ({ st with
          queryLogMap := mset st.queryLogMap nameItem
            (env.share (nameItem ++ "_QueryLogConfigShare") ("route53resolver:ResolverQueryLogConfig") own),
          trace := st.trace ++ [CnaEvent.queryLogLookup nameItem
            (LookupSource.resourceShare (nameItem ++ "_QueryLogConfigShare")
              ("route53resolver:ResolverQueryLogConfig") own)
            (env.share (nameItem ++ "_QueryLogConfigShare") ("route53resolver:ResolverQueryLogConfig") own)] })
        refine ⟨hf, hr, ⟨CnaEvent.queryLogLookup nameItem
            (LookupSource.resourceShare (nameItem ++ "_QueryLogConfigShare")
              ("route53resolver:ResolverQueryLogConfig") own)
            (env.share (nameItem ++ "_QueryLogConfigShare") ("route53resolver:ResolverQueryLogConfig") own) :: Δ,
          by simpa using htr, ?_⟩, ?_⟩
        · intro e he
          rcases List.mem_cons.mp he with rfl | he
          · rfl
          · exact hql e he
        · intro hcna
          refine hinv ⟨?_, qlInv_step st nameItem _ _ hnone hcna.2.1, ?_⟩
          · exact fwInv_extend st _ [CnaEvent.queryLogLookup nameItem
              (LookupSource.resourceShare (nameItem ++ "_QueryLogConfigShare")
                ("route53resolver:ResolverQueryLogConfig") own)
              (env.share (nameItem ++ "_QueryLogConfigShare") ("route53resolver:ResolverQueryLogConfig") own)]
              rfl rfl (by simp [isFwEvent]) hcna.1
          · exact rrInv_extend st _ [CnaEvent.queryLogLookup nameItem
              (LookupSource.resourceShare (nameItem ++ "_QueryLogConfigShare")
                ("route53resolver:ResolverQueryLogConfig") own)
              (env.share (nameItem ++ "_QueryLogConfigShare") ("route53resolver:ResolverQueryLogConfig") own)]
              rfl rfl (by simp [isRrEvent]) hcna.2.2

theorem queryLogAssocs_spec (vpcName : String) :
    ∀ (names : List String) (st st' : CnaState),
    queryLogAssocs vpcName st names = Except.ok st' →
    st'.dnsFirewallMap = st.dnsFirewallMap ∧
    st'.queryLogMap = st.queryLogMap ∧
    st'.resolverRuleMap = st.resolverRuleMap ∧
    (∃ Δ, st'.trace = st.trace ++ Δ ∧ ∀ e ∈ Δ, isQlEvent e = true) ∧
    (CnaInv st → CnaInv st') := by
  intro names
  induction names with
  | nil =>
    intro st st' h
    simp only [queryLogAssocs] at h
    cases h
    exact ⟨rfl, rfl, rfl, ⟨[], by simp, by simp⟩, id⟩
  | cons nameItem rest ih =>
    intro st st' h
    simp only [queryLogAssocs] at h
    cases hget : mget st.queryLogMap nameItem with
    | none => rw [hget] at h; cases h
    | some configId =>
      rw [hget] at h
      dsimp only at h
      obtain ⟨hf, hq, hr, ⟨Δ, htr, hql⟩, hinv⟩ := ih _ st' h
      refine ⟨hf, hq, hr, ⟨CnaEvent.queryLogAssoc nameItem vpcName configId :: Δ,
        by simpa using htr, ?_⟩, ?_⟩
      · intro e he
        rcases List.mem_cons.mp he with rfl | he
        · rfl
        · exact hql e he
      · intro hcna
        refine hinv ⟨?_, qlInv_assoc st nameItem vpcName configId hget hcna.2.1, ?_⟩
        · exact fwInv_extend st _ [CnaEvent.queryLogAssoc nameItem vpcName configId] rfl rfl
            (by simp [isFwEvent]) hcna.1
        · exact rrInv_extend st _ [CnaEvent.queryLogAssoc nameItem vpcName configId] rfl rfl
            (by simp [isRrEvent]) hcna.2.2

theorem queryLogItems_spec (env : NaEnv) (destinations : List String)
    (own vpcName : String) :
    ∀ (items : List String) (st st' : CnaState),
    queryLogItems env destinations own vpcName st items = Except.ok st' →
    st'.dnsFirewallMap = st.dnsFirewallMap ∧
    st'.resolverRuleMap = st.resolverRuleMap ∧
    (∃ Δ, st'.trace = st.trace ++ Δ ∧ ∀ e ∈ Δ, isQlEvent e = true) ∧
    (CnaInv st → CnaInv st') := by
  intro items
  induction items with
  | nil =>
    intro st st' h
    simp only [queryLogItems] at h
    cases h
    exact ⟨rfl, rfl, ⟨[], by simp, by simp⟩, id⟩
  | cons configItem rest ih =>
    intro st st' h
    simp only [queryLogItems] at h
    cases h1 : queryLogAssocs vpcName
        (queryLogLookups env own st (queryLogConfigNames destinations configItem))
        (queryLogConfigNames destinations configItem) with
    | error e => rw [h1] at h; cases h
    | ok st2 =>
      rw [h1] at h
      obtain ⟨hf0, hr0, ⟨Δ0, htr0, hql0⟩, hinv0⟩ :=
        queryLogLookups_spec env own (queryLogConfigNames destinations configItem) st
      obtain ⟨hf1, hq1, hr1, ⟨Δ1, htr1, hql1⟩, hinv1⟩ := queryLogAssocs_spec vpcName _ _ st2 h1
      obtain ⟨hf2, hr2, ⟨Δ2, htr2, hql2⟩, hinv2⟩ := ih st2 st' h
      refine ⟨hf2.trans (hf1.trans hf0), hr2.trans (hr1.trans hr0),
        ⟨Δ0 ++ Δ1 ++ Δ2, ?_, ?_⟩, fun hi => hinv2 (hinv1 (hinv0 hi))⟩
      · rw [htr2, htr1, htr0]
        simp [List.append_assoc]
      · intro e he
        simp only [List.mem_append] at he
        rcases he with (he | he) | he
        · exact hql0 e he
        · exact hql1 e he
        · exact hql2 e he

theorem centralNetworkVpcStep_spec (env : NaEnv) (central : CentralNetworkConfig)
    (st st' : CnaState) (vpcItem : VpcConfig)
    (h : centralNetworkVpcStep env central st vpcItem = Except.ok st')
    (hinv : CnaInv st) : CnaInv st' := by
  simp only [centralNetworkVpcStep] at h
  by_cases hscope : (env.acctId vpcItem.account == env.account &&
      vpcItem.region == env.region) = true
  · rw [if_pos hscope] at h
    cases h1 : createDnsFirewallAssociations env st vpcItem
        (env.acctId central.delegatedAdminAccount) with
    | error e => rw [h1] at h; cases h
    | ok st1 =>
      rw [h1] at h
      dsimp only at h
      cases h2 : createQueryLogConfigAssociations env central.queryLogDestinations st1 vpcItem
          (env.acctId central.delegatedAdminAccount) with
      | error e => rw [h2] at h; cases h
      | ok st2 =>
        rw [h2] at h
        dsimp only at h
        have i1 := (dnsFirewallItems_spec env _ vpcItem.name
          vpcItem.dnsFirewallRuleGroupNames st st1 h1).2.2.2 hinv
        have i2 := (queryLogItems_spec env central.queryLogDestinations _ vpcItem.name
          vpcItem.queryLogNames st1 st2 h2).2.2.2 i1
        exact (resolverRuleItems_spec env _ vpcItem.name
          vpcItem.resolverRuleNames st2 st' h).2.2.2 i2
  · rw [if_neg hscope] at h
    cases h
    exact hinv

theorem centralNetworkVpcs_spec (env : NaEnv) (central : CentralNetworkConfig) :
    ∀ (vpcs : List VpcConfig) (st st' : CnaState),
    centralNetworkVpcs env central st vpcs = Except.ok st' →
    CnaInv st → CnaInv st' := by
  intro vpcs
  induction vpcs with
  | nil =>
    intro st st' h
    simp only [centralNetworkVpcs] at h
    cases h
    exact id
  | cons vpc rest ih =>
    intro st st' h hinv
    simp only [centralNetworkVpcs] at h
    cases h1 : centralNetworkVpcStep env central st vpc with
    | error e => rw [h1] at h; cases h
    | ok st1 =>
      rw [h1] at h
      exact ih st1 st' h (centralNetworkVpcStep_spec env central st st1 vpc h1 hinv)

theorem cnaInv_empty : CnaInv {} := by
  refine ⟨⟨rfl, ?_, ?_⟩, ⟨rfl, ?_, ?_⟩, ⟨rfl, ?_, ?_⟩⟩ <;>
    (intro n
     simp [fwLookupNames, queryLogLookupNames, resolverRuleLookupNames, mget])

theorem allDistinct_eq_nodup (l : List String) : allDistinct l = true ↔ l.Nodup := by
  induction l with
  | nil => simp [allDistinct]
  | cons k rest ih => simp [allDistinct, ih]

theorem mem_keys_mset (m : SMap) (k v x : String)
    (h : x ∈ (mset m k v).map Prod.fst) : x ∈ m.map Prod.fst ∨ x = k := by
  induction m with
  | nil => simpa [mset] using h
  | cons p rest ih =>
    simp only [mset] at h
    simp only [List.map_cons, List.mem_cons]
    by_cases hp : (p.1 == k) = true
    · rw [if_pos hp] at h
      simp only [List.map_cons, List.mem_cons] at h
      rcases h with h | h
      · exact Or.inr h
      · exact Or.inl (Or.inr h)
    · rw [if_neg hp] at h
      simp only [List.map_cons, List.mem_cons] at h
      rcases h with h | h
      · exact Or.inl (Or.inl h)
      · rcases ih h with h' | h'
        · exact Or.inl (Or.inr h')
        · exact Or.inr h'

theorem keys_mset_nodup (m : SMap) (k v : String)
    (h : (m.map Prod.fst).Nodup) : ((mset m k v).map Prod.fst).Nodup := by
  induction m with
  | nil => simp [mset]
  | cons p rest ih =>
    simp only [List.map_cons, List.nodup_cons] at h
    obtain ⟨h1, h2⟩ := h
    simp only [mset]
    by_cases hp : (p.1 == k) = true
    · rw [if_pos hp]
      have hk : p.1 = k := by simpa using hp
      simp only [List.map_cons, List.nodup_cons]
      exact ⟨hk ▸ h1, h2⟩
    · rw [if_neg hp]
      simp only [List.map_cons, List.nodup_cons]
      refine ⟨?_, ih h2⟩
      intro hmem
      rcases mem_keys_mset rest k v p.1 hmem with h' | h'
      · exact h1 h'
      · exact absurd h' (by simpa using hp)

theorem append_left_cancel_str (s a b : String) (h : s ++ a = s ++ b) : a = b := by
  have hd := congrArg String.data h
  simp only [string_data_append] at hd
  have hc := List.append_cancel_left hd
  cases a
  cases b
  exact congrArg String.mk hc

theorem key_components_eq (a v b w : String)
    (ha : '_' ∉ a.data) (hb : '_' ∉ b.data)
    (h : a ++ "_" ++ v = b ++ "_" ++ w) : a = b ∧ v = w := by
  have hd : a.data ++ '_' :: v.data = b.data ++ '_' :: w.data := by
    have h' := congrArg String.data h
    simp only [string_data_append] at h'
    simpa using h'
  obtain ⟨h1, h2⟩ := sep_split_unique a.data b.data v.data w.data ha hb hd
  constructor
  · cases a; cases b; exact congrArg String.mk h1
  · cases v; cases w; exact congrArg String.mk h2

theorem prefixListItems_keys (env : NaEnv) :
    ∀ (items : List PrefixListConfig) (m : SMap),
    (prefixListItems env m items).2 =
      (items.filter (plInScope env)).map PrefixListConfig.name := by
  intro items
  induction items with
  | nil => intro m; rfl
  | cons item rest ih =>
    intro m
    simp only [prefixListItems, List.filter_cons]
    by_cases hc : plInScope env item = true
    · simp [hc, ih]
    · simp [hc, ih]

theorem routeTableItems_keys (env : NaEnv) (v : VpcConfig) :
    ∀ (rts : List RouteTableConfig) (m : SMap),
    (routeTableItems env v m rts).2 =
      rts.map (fun rt => v.name ++ "_" ++ rt.name) := by
  intro rts
  induction rts with
  | nil => intro m; rfl
  | cons rt rest ih =>
    intro m
    simp [routeTableItems, ih]

theorem routeTableVpcs_keys (env : NaEnv) :
    ∀ (vs : List VpcConfig) (m : SMap),
    (routeTableVpcs env m vs).2 = localRtKeys env vs := by
  intro vs
  induction vs with
  | nil => intro m; rfl
  | cons v rest ih =>
    intro m
    simp only [routeTableVpcs, localRtKeys]
    by_cases hc : (env.acctId v.account == env.account && v.region == env.region) = true
    · rw [if_pos hc, if_pos hc]
      simp [routeTableItems_keys, ih]
    · rw [if_neg hc, if_neg hc]
      exact ih m

theorem localRtKeys_mem (env : NaEnv) :
    ∀ (vs : List VpcConfig) (k : String), k ∈ localRtKeys env vs →
    ∃ v r, v ∈ vs ∧ k = v.name ++ "_" ++ r := by
  intro vs
  induction vs with
  | nil => intro k h; cases h
  | cons v rest ih =>
    intro k h
    simp only [localRtKeys] at h
    by_cases hc : (env.acctId v.account == env.account && v.region == env.region) = true
    · rw [if_pos hc] at h
      rcases List.mem_append.mp h with h1 | h2
      · rcases List.mem_map.mp h1 with ⟨rt, _, hk⟩
        exact ⟨v, rt.name, List.mem_cons_self _ _, hk.symm⟩
      · rcases ih k h2 with ⟨w, r, hw, hk⟩
        exact ⟨w, r, List.mem_cons_of_mem _ hw, hk⟩
    · rw [if_neg hc] at h
      rcases ih k h with ⟨w, r, hw, hk⟩
      exact ⟨w, r, List.mem_cons_of_mem _ hw, hk⟩

theorem localRtKeys_nodup (env : NaEnv) :
    ∀ (vs : List VpcConfig),
    (vs.map VpcConfig.name).Nodup →
    (∀ v ∈ vs, '_' ∉ v.name.data) →
    (∀ v ∈ vs, (v.routeTables.map RouteTableConfig.name).Nodup) →
    (localRtKeys env vs).Nodup := by
  intro vs
  induction vs with
  | nil => intro _ _ _; simp [localRtKeys]
  | cons v rest ih =>
    intro hn hs hr
    simp only [List.map_cons, List.nodup_cons] at hn
    obtain ⟨hv, hn'⟩ := hn
    have hsv := hs v (List.mem_cons_self _ _)
    have hrv := hr v (List.mem_cons_self _ _)
    have hs' : ∀ w ∈ rest, '_' ∉ w.name.data :=
      fun w hw => hs w (List.mem_cons_of_mem _ hw)
    have hr' : ∀ w ∈ rest, (w.routeTables.map RouteTableConfig.name).Nodup :=
      fun w hw => hr w (List.mem_cons_of_mem _ hw)
    simp only [localRtKeys]
    by_cases hc : (env.acctId v.account == env.account && v.region == env.region) = true
    · rw [if_pos hc]
      rw [List.nodup_append]
      refine ⟨?_, ih hn' hs' hr', ?_⟩
      · have hmm : v.routeTables.map (fun rt => v.name ++ "_" ++ rt.name) =
            (v.routeTables.map RouteTableConfig.name).map (fun n => v.name ++ "_" ++ n) := by
          rw [List.map_map]
          rfl
        have hinj : Function.Injective (fun n => v.name ++ "_" ++ n) := by
          intro a b hab
          exact append_left_cancel_str (v.name ++ "_") a b hab
        rw [hmm]
        exact List.Nodup.map hinj hrv
      · intro k hk1 hk2
        rcases List.mem_map.mp hk1 with ⟨rt, _, hkey⟩
        rcases localRtKeys_mem env rest k hk2 with ⟨w, r, hw, hkw⟩
        have hsw := hs' w hw
        have heq := key_components_eq v.name rt.name w.name r hsv hsw (hkey.trans hkw)
        apply hv
        rw [heq.1]
        exact List.mem_map_of_mem VpcConfig.name hw
    · rw [if_neg hc]
      exact ih hn' hs' hr'

theorem crossAcctPlEntries_nodup (env : NaEnv) (p : Peering) (acc : VpcConfig) :
    ∀ (es : List RouteTableEntryConfig) (m : SMap),
    (m.map Prod.fst).Nodup →
    ((crossAcctPlEntries env p acc m es).map Prod.fst).Nodup := by
  intro es
  induction es with
  | nil => intro m h; exact h
  | cons e rest ih =>
    intro m h
    simp only [crossAcctPlEntries]
    cases hdp : e.destinationPrefixList with
    | none => exact ih m h
    | some pl =>
      dsimp only
      by_cases hc : (isPeeringRouteEntry p.name e &&
          peeringCrossAccountCondition env p acc &&
          !(mget m (acc.account ++ "_" ++ acc.region ++ "_" ++ pl)).isSome) = true
      · rw [if_pos hc]
        exact ih _ (keys_mset_nodup _ _ _ h)
      · rw [if_neg hc]
        exact ih m h

theorem crossAcctPlTables_nodup (env : NaEnv) (p : Peering) (acc : VpcConfig) :
    ∀ (rts : List RouteTableConfig) (m : SMap),
    (m.map Prod.fst).Nodup →
    ((crossAcctPlTables env p acc m rts).map Prod.fst).Nodup := by
  intro rts
  induction rts with
  | nil => intro m h; exact h
  | cons rt rest ih =>
    intro m h
    exact ih _ (crossAcctPlEntries_nodup env p acc rt.routes m h)

theorem setCrossAcctPrefixLists_nodup (env : NaEnv) :
    ∀ (ps : List Peering) (m cm : SMap),
    (m.map Prod.fst).Nodup →
    setCrossAcctPrefixLists env ps m = Except.ok cm →
    (cm.map Prod.fst).Nodup := by
  intro ps
  induction ps with
  | nil =>
    intro m cm h hok
    simp only [setCrossAcctPrefixLists] at hok
    cases hok
    exact h
  | cons p rest ih =>
    intro m cm h hok
    simp only [setCrossAcctPrefixLists] at hok
    cases hacc : p.accepter with
    | none => rw [hacc] at hok; cases hok
    | some acc =>
      rw [hacc] at hok
      exact ih _ cm (crossAcctPlTables_nodup env p acc acc.routeTables m h) hok

theorem crossAcctRtEntries_nodup (env : NaEnv) (p : Peering) (acc : VpcConfig)
    (rt : RouteTableConfig) :
    ∀ (es : List RouteTableEntryConfig) (m : SMap),
    (m.map Prod.fst).Nodup →
    ((crossAcctRtEntries env p acc rt m es).map Prod.fst).Nodup := by
  intro es
  induction es with
  | nil => intro m h; exact h
  | cons e rest ih =>
    intro m h
    simp only [crossAcctRtEntries]
    by_cases hc : (isPeeringRouteEntry p.name e &&
        peeringCrossAccountCondition env p acc &&
        !(mget m (acc.name ++ "_" ++ rt.name)).isSome) = true
    · rw [if_pos hc]
      exact ih _ (keys_mset_nodup _ _ _ h)
    · rw [if_neg hc]
      exact ih m h

theorem crossAcctRtTables_nodup (env : NaEnv) (p : Peering) (acc : VpcConfig) :
    ∀ (rts : List RouteTableConfig) (m : SMap),
    (m.map Prod.fst).Nodup →
    ((crossAcctRtTables env p acc m rts).map Prod.fst).Nodup := by
  intro rts
  induction rts with
  | nil => intro m h; exact h
  | cons rt rest ih =>
    intro m h
    exact ih _ (crossAcctRtEntries_nodup env p acc rt rt.routes m h)

theorem setCrossAcctRouteTables_nodup (env : NaEnv) :
    ∀ (ps : List Peering) (m rm : SMap),
    (m.map Prod.fst).Nodup →
    setCrossAcctRouteTables env ps m = Except.ok rm →
    (rm.map Prod.fst).Nodup := by
  intro ps
  induction ps with
  | nil =>
    intro m rm h hok
    simp only [setCrossAcctRouteTables] at hok
    cases hok
    exact h
  | cons p rest ih =>
    intro m rm h hok
    simp only [setCrossAcctRouteTables] at hok
    cases hacc : p.accepter with
    | none => rw [hacc] at hok; cases hok
    | some acc =>
      rw [hacc] at hok
      exact ih _ rm (crossAcctRtTables_nodup env p acc acc.routeTables m h) hok

theorem nodup_filter_map_name (p : PrefixListConfig → Bool)
    (items : List PrefixListConfig)
    (h : (items.map PrefixListConfig.name).Nodup) :
    ((items.filter p).map PrefixListConfig.name).Nodup :=
  List.Nodup.sublist ((List.filter_sublist items).map PrefixListConfig.name) h

/-- C6 (amended): resolving the same reference twice within one run
returns the identical identifier for every per-scope map except the
transit gateway attachments map (which the counterexample shows can be
written twice under one key).  The three GUARDED maps (DNS firewall rule
groups, query-log configs, resolver rules) behave as caches: every name is
looked up at most once across the whole run and every association request
for the same name carries the identical resolved identifier.  The
prefix-list map and the route-table map are likewise populated at most
once per key: their cross-account loops are `has`-guarded
(unconditionally), and their in-scope loops write one key per validated
config item — distinct prefix-list names, and distinct VPC names
(separator-free) with per-VPC distinct route-table names — with the
in-scope keys disjoint from the cross-account keys. -/
theorem c6_amended_guarded_maps_idempotent (env : NaEnv) (cfg : NetworkConfig)
    (peerings : List Peering) (st' : CnaState)
    (h : createCentralNetworkAssociations env cfg = Except.ok st') :
    allDistinct (fwLookupNames st'.trace) = true ∧
    allDistinct (queryLogLookupNames st'.trace) = true ∧
    allDistinct (resolverRuleLookupNames st'.trace) = true ∧
    (∀ n v1 v2 i1 i2, CnaEvent.fwAssoc n v1 i1 ∈ st'.trace →
      CnaEvent.fwAssoc n v2 i2 ∈ st'.trace → i1 = i2) ∧
    (∀ n v1 v2 i1 i2, CnaEvent.queryLogAssoc n v1 i1 ∈ st'.trace →
      CnaEvent.queryLogAssoc n v2 i2 ∈ st'.trace → i1 = i2) ∧
    (∀ n v1 v2 i1 i2, CnaEvent.resolverRuleAssoc n v1 i1 ∈ st'.trace →
      CnaEvent.resolverRuleAssoc n v2 i2 ∈ st'.trace → i1 = i2) ∧
    (∀ cm, setCrossAcctPrefixLists env peerings [] = Except.ok cm →
      allDistinct (cm.map Prod.fst) = true ∧
      (allDistinct (cfg.prefixLists.map PrefixListConfig.name) = true →
       (∀ k ∈ (prefixListItems env [] cfg.prefixLists).2, k ∉ cm.map Prod.fst) →
       ∀ m ks, setPrefixListMap env cfg peerings = Except.ok (m, ks) →
         allDistinct ks = true)) ∧
    (∀ rm, setCrossAcctRouteTables env peerings [] = Except.ok rm →
      allDistinct (rm.map Prod.fst) = true ∧
      (allDistinct (cfg.vpcs.map VpcConfig.name) = true →
       (∀ v ∈ cfg.vpcs, '_' ∉ v.name.data) →
       (∀ v ∈ cfg.vpcs, allDistinct (v.routeTables.map RouteTableConfig.name) = true) →
       (∀ k ∈ (routeTableVpcs env [] cfg.vpcs).2, k ∉ rm.map Prod.fst) →
       ∀ m ks, setRouteTableMap env cfg peerings = Except.ok (m, ks) →
         allDistinct ks = true)) := by
  have hinv : CnaInv st' := by
    simp only [createCentralNetworkAssociations] at h
    cases hc : cfg.centralNetworkServices with
    | none => rw [hc] at h; cases h; exact cnaInv_empty
    | some central =>
      rw [hc] at h
      exact centralNetworkVpcs_spec env central cfg.vpcs _ st' h cnaInv_empty
  obtain ⟨⟨f1, _, f3⟩, ⟨q1, _, q3⟩, ⟨r1, _, r3⟩⟩ := hinv
  refine ⟨f1, q1, r1, ?_, ?_, ?_, ?_, ?_⟩
  · intro n v1 v2 i1 i2 h1 h2
    have e1 := f3 n v1 i1 h1
    have e2 := f3 n v2 i2 h2
    rw [e1] at e2
    exact Option.some.inj e2
  · intro n v1 v2 i1 i2 h1 h2
    have e1 := q3 n v1 i1 h1
    have e2 := q3 n v2 i2 h2
    rw [e1] at e2
    exact Option.some.inj e2
  · intro n v1 v2 i1 i2 h1 h2
    have e1 := r3 n v1 i1 h1
    have e2 := r3 n v2 i2 h2
    rw [e1] at e2
    exact Option.some.inj e2
  · intro cm hcm
    have hcross : (cm.map Prod.fst).Nodup :=
      setCrossAcctPrefixLists_nodup env peerings [] cm (by simp) hcm
    refine ⟨(allDistinct_eq_nodup _).mpr hcross, ?_⟩
    intro hnames hdisj m ks hok
    simp only [setPrefixListMap] at hok
    rw [hcm] at hok
    dsimp only at hok
    cases hok
    rw [allDistinct_eq_nodup, List.nodup_append]
    refine ⟨?_, hcross, fun k hk1 hk2 => hdisj k hk1 hk2⟩
    rw [prefixListItems_keys]
    exact nodup_filter_map_name _ _ ((allDistinct_eq_nodup _).mp hnames)
  · intro rm hrm
    have hcross : (rm.map Prod.fst).Nodup :=
      setCrossAcctRouteTables_nodup env peerings [] rm (by simp) hrm
    refine ⟨(allDistinct_eq_nodup _).mpr hcross, ?_⟩
    intro hnames hsep hrts hdisj m ks hok
    simp only [setRouteTableMap] at hok
    rw [hrm] at hok
    dsimp only at hok
    cases hok
    rw [allDistinct_eq_nodup, List.nodup_append]
    refine ⟨?_, hcross, fun k hk1 hk2 => hdisj k hk1 hk2⟩
    rw [routeTableVpcs_keys]
    exact localRtKeys_nodup env cfg.vpcs ((allDistinct_eq_nodup _).mp hnames) hsep
      (fun v hv => (allDistinct_eq_nodup _).mp (hrts v hv))

theorem c6_amended_guarded_maps_idempotent_witness :
    ∃ st', createCentralNetworkAssociations exEnv c7CfgLocal = Except.ok st' ∧
      ((allDistinct (fwLookupNames st'.trace) = true ∧
        allDistinct (queryLogLookupNames st'.trace) = true ∧
        allDistinct (resolverRuleLookupNames st'.trace) = true) ∧
       (∀ n v1 v2 i1 i2, CnaEvent.fwAssoc n v1 i1 ∈ st'.trace →
         CnaEvent.fwAssoc n v2 i2 ∈ st'.trace → i1 = i2) ∧
       (∃ cm, setCrossAcctPrefixLists exEnv c6Peers [] = Except.ok cm ∧
          allDistinct (cm.map Prod.fst) = true) ∧
       (∃ m ks, setPrefixListMap exEnv c7CfgLocal c6Peers = Except.ok (m, ks) ∧
          allDistinct ks = true) ∧
       (∃ rm, setCrossAcctRouteTables exEnv c6Peers [] = Except.ok rm ∧
          allDistinct (rm.map Prod.fst) = true) ∧
       (∃ m ks, setRouteTableMap exEnv c7CfgLocal c6Peers = Except.ok (m, ks) ∧
          allDistinct ks = true)) := by
  have hc := c6_amended_guarded_maps_idempotent exEnv c7CfgLocal c6Peers _ rfl
  refine ⟨_, rfl, ⟨hc.1, hc.2.1, hc.2.2.1⟩, hc.2.2.2.1, ?_, ?_, ?_, ?_⟩
  · exact ⟨_, rfl, (hc.2.2.2.2.2.2.1 _ rfl).1⟩
  · refine ⟨_, _, rfl, ?_⟩
    exact (hc.2.2.2.2.2.2.1 _ rfl).2 rfl (fun k hk => absurd hk (List.not_mem_nil k)) _ _ rfl
  · exact ⟨_, rfl, (hc.2.2.2.2.2.2.2 _ rfl).1⟩
  · refine ⟨_, _, rfl, ?_⟩
    exact (hc.2.2.2.2.2.2.2 _ rfl).2 (by decide) (by decide) (by decide)
      (fun k hk => absurd hk (List.not_mem_nil k)) _ _ rfl

theorem cnaWf_append (c o : String) (t1 t2 : List CnaEvent) :
    cnaLookupsWellFormed c o (t1 ++ t2) =
      (cnaLookupsWellFormed c o t1 && cnaLookupsWellFormed c o t2) := by
  induction t1 with
  | nil => simp [cnaLookupsWellFormed]
  | cons e rest ih => cases e <;> simp [cnaLookupsWellFormed, ih, Bool.and_assoc]

theorem lookupSourceMatches_local (c o p tag : String) (h : (o == c) = true) :
    lookupSourceMatches c o tag (LookupSource.localParam p) = true := by
  simp [lookupSourceMatches, h]

theorem lookupSourceMatches_share (c o s tag : String) (h : (o == c) = false) :
    lookupSourceMatches c o tag (LookupSource.resourceShare s tag o) = true := by
  have hne : o ≠ c := by
    intro he
    rw [he] at h
    simp at h
  simp [lookupSourceMatches, hne]

theorem dnsFirewallItems_wf (env : NaEnv) (own vpcName : String) :
    ∀ (items : List (String × Nat)) (st st' : CnaState),
    dnsFirewallItems env own vpcName st items = Except.ok st' →
    cnaLookupsWellFormed env.account own st.trace = true →
    cnaLookupsWellFormed env.account own st'.trace = true := by
  intro items
  induction items with
  | nil =>
    intro st st' h hwf
    simp only [dnsFirewallItems] at h
    cases h
    exact hwf
  | cons item rest ih =>
    intro st st' h hwf
    obtain ⟨fwName, prio⟩ := item
    simp only [dnsFirewallItems] at h
    by_cases hpresent : (mget st.dnsFirewallMap fwName).isSome = true
    · rw [if_pos hpresent] at h
      obtain ⟨ruleId, hsome⟩ := Option.isSome_iff_exists.mp hpresent
      rw [hsome] at h
      dsimp only at h
      refine ih _ st' h ?_
      show cnaLookupsWellFormed env.account own (st.trace ++ [CnaEvent.fwAssoc fwName vpcName ruleId]) = true
      rw [cnaWf_append, hwf]
      simp [cnaLookupsWellFormed]
    · rw [if_neg hpresent] at h
      by_cases hlocal : (own == env.account) = true
      · rw [if_pos hlocal] at h
        rw [mget_mset_self] at h
        dsimp only at h
        refine ih _ st' h ?_
        rw [cnaWf_append, cnaWf_append, hwf]
        simp [cnaLookupsWellFormed, lookupSourceMatches_local _ _ _ _ hlocal]
      · rw [if_neg hlocal] at h
        rw [mget_mset_self] at h
        dsimp only at h
        refine ih _ st' h ?_
        rw [cnaWf_append, cnaWf_append, hwf]
        have hno : (own == env.account) = false := by
          cases hx : own == env.account with
          | false => rfl
          | true => rw [hx] at hlocal; simp at hlocal
        simp [cnaLookupsWellFormed, lookupSourceMatches_share _ _ _ _ hno]

theorem resolverRuleItems_wf (env : NaEnv) (own vpcName : String) :
    ∀ (items : List String) (st st' : CnaState),
    resolverRuleItems env own vpcName st items = Except.ok st' →
    cnaLookupsWellFormed env.account own st.trace = true →
    cnaLookupsWellFormed env.account own st'.trace = true := by
  intro items
  induction items with
  | nil =>
    intro st st' h hwf
    simp only [resolverRuleItems] at h
    cases h
    exact hwf
  | cons ruleItem rest ih =>
    intro st st' h hwf
    simp only [resolverRuleItems] at h
    by_cases hpresent : (mget st.resolverRuleMap ruleItem).isSome = true
    · rw [if_pos hpresent] at h
      obtain ⟨ruleId, hsome⟩ := Option.isSome_iff_exists.mp hpresent
      rw [hsome] at h
      dsimp only at h
      refine ih _ st' h ?_
      show cnaLookupsWellFormed env.account own
        (st.trace ++ [CnaEvent.resolverRuleAssoc ruleItem vpcName ruleId]) = true
      rw [cnaWf_append, hwf]
      simp [cnaLookupsWellFormed]
    · rw [if_neg hpresent] at h
      by_cases hlocal : (own == env.account) = true
      · rw [if_pos hlocal] at h
        rw [mget_mset_self] at h
        dsimp only at h
        refine ih _ st' h ?_
        rw [cnaWf_append, cnaWf_append, hwf]
        simp [cnaLookupsWellFormed, lookupSourceMatches_local _ _ _ _ hlocal]
      · rw [if_neg hlocal] at h
        rw [mget_mset_self] at h
        dsimp only at h
        refine ih _ st' h ?_
        rw [cnaWf_append, cnaWf_append, hwf]
        have hno : (own == env.account) = false := by
          cases hx : own == env.account with
          | false => rfl
          | true => rw [hx] at hlocal; simp at hlocal
        simp [cnaLookupsWellFormed, lookupSourceMatches_share _ _ _ _ hno]

theorem queryLogLookups_wf (env : NaEnv) (own : String) :
    ∀ (names : List String) (st : CnaState),
    cnaLookupsWellFormed env.account own st.trace = true →
    cnaLookupsWellFormed env.account own (queryLogLookups env own st names).trace = true := by
  intro names
  induction names with
  | nil =>
    intro st hwf
    simpa [queryLogLookups] using hwf
  | cons nameItem rest ih =>
    intro st hwf
    simp only [queryLogLookups]
    by_cases hpresent : (mget st.queryLogMap nameItem).isSome = true
    · rw [if_pos hpresent]
      exact ih st hwf
    · rw [if_neg hpresent]
      by_cases hlocal : (own == env.account) = true
      · rw [if_pos hlocal]
        refine ih _ ?_
        show cnaLookupsWellFormed env.account own (st.trace ++ _) = true
        rw [cnaWf_append, hwf]
        simp [cnaLookupsWellFormed, lookupSourceMatches_local _ _ _ _ hlocal]
      · rw [if_neg hlocal]
        refine ih _ ?_
        show cnaLookupsWellFormed env.account own (st.trace ++ _) = true
        rw [cnaWf_append, hwf]
        have hno : (own == env.account) = false := by
          cases hx : own == env.account with
          | false => rfl
          | true => rw [hx] at hlocal; simp at hlocal
        simp [cnaLookupsWellFormed, lookupSourceMatches_share _ _ _ _ hno]

theorem queryLogAssocs_wf (own vpcName : String) (c : String) :
    ∀ (names : List String) (st st' : CnaState),
    queryLogAssocs vpcName st names = Except.ok st' →
    cnaLookupsWellFormed c own st.trace = true →
    cnaLookupsWellFormed c own st'.trace = true := by
  intro names
  induction names with
  | nil =>
    intro st st' h hwf
    simp only [queryLogAssocs] at h
    cases h
    exact hwf
  | cons nameItem rest ih =>
    intro st st' h hwf
    simp only [queryLogAssocs] at h
    cases hget : mget st.queryLogMap nameItem with
    | none => rw [hget] at h; cases h
    | some configId =>
      rw [hget] at h
      dsimp only at h
      refine ih _ st' h ?_
      show cnaLookupsWellFormed c own
        (st.trace ++ [CnaEvent.queryLogAssoc nameItem vpcName configId]) = true
      rw [cnaWf_append, hwf]
      simp [cnaLookupsWellFormed]

theorem queryLogItems_wf (env : NaEnv) (destinations : List String) (own vpcName : String) :
    ∀ (items : List String) (st st' : CnaState),
    queryLogItems env destinations own vpcName st items = Except.ok st' →
    cnaLookupsWellFormed env.account own st.trace = true →
    cnaLookupsWellFormed env.account own st'.trace = true := by
  intro items
  induction items with
  | nil =>
    intro st st' h hwf
    simp only [queryLogItems] at h
    cases h
    exact hwf
  | cons configItem rest ih =>
    intro st st' h hwf
    simp only [queryLogItems] at h
    cases h1 : queryLogAssocs vpcName
        (queryLogLookups env own st (queryLogConfigNames destinations configItem))
        (queryLogConfigNames destinations configItem) with
    | error e => rw [h1] at h; cases h
    | ok st2 =>
      rw [h1] at h
      refine ih st2 st' h ?_
      exact queryLogAssocs_wf own vpcName env.account _ _ st2 h1
        (queryLogLookups_wf env own _ st hwf)

theorem centralNetworkVpcs_wf (env : NaEnv) (central : CentralNetworkConfig) :
    ∀ (vpcs : List VpcConfig) (st st' : CnaState),
    centralNetworkVpcs env central st vpcs = Except.ok st' →
    cnaLookupsWellFormed env.account (env.acctId central.delegatedAdminAccount) st.trace = true →
    cnaLookupsWellFormed env.account (env.acctId central.delegatedAdminAccount) st'.trace = true := by
  intro vpcs
  induction vpcs with
  | nil =>
    intro st st' h hwf
    simp only [centralNetworkVpcs] at h
    cases h
    exact hwf
  | cons vpc rest ih =>
    intro st st' h hwf
    simp only [centralNetworkVpcs] at h
    cases h1 : centralNetworkVpcStep env central st vpc with
    | error e => rw [h1] at h; cases h
    | ok st1 =>
      rw [h1] at h
      refine ih st1 st' h ?_
      simp only [centralNetworkVpcStep] at h1
      by_cases hscope : (env.acctId vpc.account == env.account &&
          vpc.region == env.region) = true
      · rw [if_pos hscope] at h1
        cases h2 : createDnsFirewallAssociations env st vpc
            (env.acctId central.delegatedAdminAccount) with
        | error e => rw [h2] at h1; cases h1
        | ok sta =>
          rw [h2] at h1
          dsimp only at h1
          cases h3 : createQueryLogConfigAssociations env central.queryLogDestinations sta vpc
              (env.acctId central.delegatedAdminAccount) with
          | error e => rw [h3] at h1; cases h1
          | ok stb =>
            rw [h3] at h1
            dsimp only at h1
            have w1 := dnsFirewallItems_wf env _ vpc.name vpc.dnsFirewallRuleGroupNames
              st sta h2 hwf
            have w2 := queryLogItems_wf env central.queryLogDestinations _ vpc.name
              vpc.queryLogNames sta stb h3 w1
            exact resolverRuleItems_wf env _ vpc.name vpc.resolverRuleNames stb st1 h1 w2
      · rw [if_neg hscope] at h1
        cases h1
        exact hwf

theorem nfwPolicyFirewalls_wf (env : NaEnv) (own vpcName : String) :
    ∀ (fws : List NfwFirewallConfig) (m : SMap) (tr : List CnaEvent),
    cnaLookupsWellFormed env.account own tr = true →
    cnaLookupsWellFormed env.account own (nfwPolicyFirewalls env own vpcName m tr fws).2 = true := by
  intro fws
  induction fws with
  | nil =>
    intro m tr hwf
    simpa [nfwPolicyFirewalls] using hwf
  | cons fw rest ih =>
    intro m tr hwf
    simp only [nfwPolicyFirewalls]
    by_cases hcond : (fw.vpc == vpcName && !(mget m fw.firewallPolicy).isSome) = true
    · rw [if_pos hcond]
      by_cases hlocal : (own == env.account) = true
      · rw [if_pos hlocal]
        refine ih _ _ ?_
        rw [cnaWf_append, hwf]
        simp [cnaLookupsWellFormed, lookupSourceMatches_local _ _ _ _ hlocal]
      · rw [if_neg hlocal]
        refine ih _ _ ?_
        rw [cnaWf_append, hwf]
        have hno : (own == env.account) = false := by
          cases hx : own == env.account with
          | false => rfl
          | true => rw [hx] at hlocal; simp at hlocal
        simp [cnaLookupsWellFormed, lookupSourceMatches_share _ _ _ _ hno]
    · rw [if_neg hcond]
      exact ih _ _ hwf

theorem nfwPolicyVpcs_wf (env : NaEnv) (central : CentralNetworkConfig) :
    ∀ (vpcs : List VpcConfig) (m : SMap) (tr : List CnaEvent),
    cnaLookupsWellFormed env.account (env.acctId central.delegatedAdminAccount) tr = true →
    cnaLookupsWellFormed env.account (env.acctId central.delegatedAdminAccount)
      (nfwPolicyVpcs env central m tr vpcs).2 = true := by
  intro vpcs
  induction vpcs with
  | nil =>
    intro m tr hwf
    simpa [nfwPolicyVpcs] using hwf
  | cons vpc rest ih =>
    intro m tr hwf
    simp only [nfwPolicyVpcs]
    by_cases hscope : (env.acctId vpc.account == env.account && vpc.region == env.region) = true
    · rw [if_pos hscope]
      exact ih _ _ (nfwPolicyFirewalls_wf env _ vpc.name central.networkFirewalls m tr hwf)
    · rw [if_neg hscope]
      exact ih _ _ hwf

/-- C7: shared central resources (DNS firewall rule groups, query-log
configs, resolver rules, network-firewall policies) resolve through the
third branch distinct from Local and Cross-Account: a local namespaced
parameter read exactly when the current account is the delegated admin
account, and otherwise a query of the organization-wide resource share in
the owning account under the resource-specific type tag — by construction
these functions never invoke the cross-account remote value fetcher.  The
trace checker verifies the dispatch for every lookup. -/
theorem c7_shared_resource_third_branch (env : NaEnv) (cfg : NetworkConfig)
    (central : CentralNetworkConfig) (st' : CnaState)
    (hc : cfg.centralNetworkServices = some central)
    (h : createCentralNetworkAssociations env cfg = Except.ok st') :
    cnaLookupsWellFormed env.account (env.acctId central.delegatedAdminAccount) st'.trace = true ∧
    cnaLookupsWellFormed env.account (env.acctId central.delegatedAdminAccount)
      (setNfwPolicyMap env cfg).2 = true := by
  constructor
  · simp only [createCentralNetworkAssociations, hc] at h
    exact centralNetworkVpcs_wf env central cfg.vpcs _ st' h rfl
  · simp only [setNfwPolicyMap, hc]
    by_cases he : central.networkFirewalls.isEmpty = true
    · rw [if_pos he]; rfl
    · rw [if_neg he]
      exact nfwPolicyVpcs_wf env central cfg.vpcs [] [] rfl

theorem c7_shared_resource_third_branch_witness :
    ∃ st', createCentralNetworkAssociations exEnv c7CfgShare = Except.ok st' ∧
      (cnaLookupsWellFormed exEnv.account
          (exEnv.acctId ("SharedSvc")) st'.trace = true ∧
       cnaLookupsWellFormed exEnv.account (exEnv.acctId ("SharedSvc"))
          (setNfwPolicyMap exEnv c7CfgShare).2 = true) :=
  ⟨_, rfl, c7_shared_resource_third_branch exEnv c7CfgShare
    { delegatedAdminAccount := "SharedSvc",
      queryLogDestinations := ["s3"],
      networkFirewalls := [{ name := "Nfw1", vpc := "VpcD", firewallPolicy := "Pol1" }] }
    _ rfl rfl⟩

/-- C8: Direct Connect gateway / transit gateway association dispatch.  In
the transit gateway's (account, region) scope: (1) when the DX gateway's
owning account differs from the transit gateway's, the DX gateway
identifier is fetched cross-account from the owner; (2) when they match it
is read locally (home-region parameter read, else a same-account remote
read); (3) the association step emits an association proposal exactly when
the accounts differ and a direct association when they match, and records
the attachment identifier in the attachments map exactly when the
association construct publishes one; (4) the route-table step fails with an
error rather than proceeding when no attachment identifier is present
under the association's key; (5) with an attachment identifier present,
route-table associations and propagations are created with the published
identifier. -/
theorem c8_dx_association_dispatch (env : NaEnv)
    (m ms tgs att rts : SMap) (tr : List DxEvent)
    (dxgwItem : DxGatewayConfig) (tgw : TransitGatewayConfig)
    (tgwAccountId rtName : String)
    (hacct : (tgwAccountId == env.account) = true)
    (hreg : (tgw.region == env.region) = true) :
    ((dxgwItem.account != tgw.account) = true →
      setDxGatewayMap env m tr dxgwItem tgw tgwAccountId =
        (mset m dxgwItem.name
          (env.remoteSsm ("/accelerator/network/directConnectGateways/" ++ dxgwItem.name ++ "/id")
            (env.acctId dxgwItem.account) env.homeRegion),
         tr ++ [DxEvent.dxGatewayIdCrossAccountFetch dxgwItem.name
                  (env.acctId dxgwItem.account)])) ∧
    ((dxgwItem.account == tgw.account) = true →
      (setDxGatewayMap env m tr dxgwItem tgw tgwAccountId).2 =
        tr ++ [if tgw.region == env.homeRegion then
            DxEvent.dxGatewayIdLocalRead
              ("/accelerator/network/directConnectGateways/" ++ dxgwItem.name ++ "/id")
          else
            DxEvent.dxGatewayIdSameAcctRemoteRead
              ("/accelerator/network/directConnectGateways/" ++ dxgwItem.name ++ "/id")
              env.account]) ∧
    (∀ dxgwId tgwId m2 tr2,
      mget ms dxgwItem.name = some dxgwId →
      mget tgs tgw.name = some tgwId →
      createDxGatewayTgwAssociations env ms tgs att tr dxgwItem tgw tgwAccountId =
        Except.ok (m2, tr2) →
      tr2 = tr ++ [if dxgwItem.account != tgw.account then
          DxEvent.associationProposal dxgwItem.name tgw.name
        else DxEvent.directAssociation dxgwItem.name tgw.name] ∧
      m2 = (match env.dxAssocAttachmentId (dxgwItem.name ++ "_" ++ tgw.name) with
            | some attachId => mset att (dxgwItem.name ++ "_" ++ tgw.name) attachId
            | none => att)) ∧
    (mget att (dxgwItem.name ++ "_" ++ tgw.name) = none →
      createDxTgwRouteTableAssociations env att rts tr dxgwItem tgw rtName tgwAccountId =
        Except.error (RtError.thrown
          ("[network-associations-stack] Create DX TGW route table associations: unable to locate attachment " ++
            (dxgwItem.name ++ "_" ++ tgw.name)))) ∧
    (∀ attachId routeTableId,
      mget att (dxgwItem.name ++ "_" ++ tgw.name) = some attachId →
      mget rts (tgw.name ++ "_" ++ rtName) = some routeTableId →
      createDxTgwRouteTableAssociations env att rts tr dxgwItem tgw rtName tgwAccountId =
        Except.ok (tr ++ [DxEvent.rtAssociationCreated attachId routeTableId]) ∧
      createDxTgwRouteTablePropagations env att rts tr dxgwItem tgw rtName tgwAccountId =
        Except.ok (tr ++ [DxEvent.rtPropagationCreated attachId routeTableId])) := by
  refine ⟨?_, ?_, ?_, ?_, ?_⟩
  · intro hne
    have heqf : (dxgwItem.account == tgw.account) = false := by
      simpa [bne] using hne
    simp [setDxGatewayMap, hne, heqf, hacct, hreg]
  · intro heq
    have hnef : (dxgwItem.account != tgw.account) = false := by
      simp [bne, heq]
    cases hhr : tgw.region == env.homeRegion with
    | true => simp [setDxGatewayMap, heq, hnef, hacct, hreg, hhr]
    | false => simp [setDxGatewayMap, heq, hnef, hacct, hreg, hhr]
  · intro dxgwId tgwId m2 tr2 hdx htg h
    cases hx : dxgwItem.account != tgw.account with
    | true =>
      have heqf : (dxgwItem.account == tgw.account) = false := by
        simpa [bne] using hx
      cases hda : env.dxAssocAttachmentId (dxgwItem.name ++ "_" ++ tgw.name) with
      | some attachId =>
        simp [createDxGatewayTgwAssociations, hx, heqf, hacct, hreg, hdx, htg, hda] at h
        simp [hx, hda, h.1, h.2]
      | none =>
        simp [createDxGatewayTgwAssociations, hx, heqf, hacct, hreg, hdx, htg, hda] at h
        simp [hx, hda, h.1, h.2]
    | false =>
      have heqt : (dxgwItem.account == tgw.account) = true := by
        cases hy : dxgwItem.account == tgw.account with
        | true => rfl
        | false => rw [bne, hy] at hx; simp at hx
      cases hda : env.dxAssocAttachmentId (dxgwItem.name ++ "_" ++ tgw.name) with
      | some attachId =>
        simp [createDxGatewayTgwAssociations, hx, heqt, hacct, hreg, hdx, htg, hda] at h
        simp [hx, hda, h.1, h.2]
      | none =>
        simp [createDxGatewayTgwAssociations, hx, heqt, hacct, hreg, hdx, htg, hda] at h
        simp [hx, hda, h.1, h.2]
  · intro hnone
    simp [createDxTgwRouteTableAssociations, hacct, hreg, hnone]
  · intro attachId routeTableId hatt hrt
    constructor
    · simp [createDxTgwRouteTableAssociations, hacct, hreg, hatt, hrt]
    · simp [createDxTgwRouteTablePropagations, hacct, hreg, hatt, hrt]

theorem c8_dx_association_dispatch_witness :
    createDxTgwRouteTableAssociations exEnv [] [] [] c8Dxgw c8Tgw ("rtA") ("111122223333") =
      Except.error (RtError.thrown
        ("[network-associations-stack] Create DX TGW route table associations: unable to locate attachment " ++
          (c8Dxgw.name ++ "_" ++ c8Tgw.name))) ∧
    (setDxGatewayMap exEnv [] [] c8Dxgw c8Tgw ("111122223333")).2 =
      [] ++ [if c8Tgw.region == exEnv.homeRegion then
          DxEvent.dxGatewayIdLocalRead
            ("/accelerator/network/directConnectGateways/" ++ c8Dxgw.name ++ "/id")
        else
          DxEvent.dxGatewayIdSameAcctRemoteRead
            ("/accelerator/network/directConnectGateways/" ++ c8Dxgw.name ++ "/id")
            exEnv.account] :=
  ⟨(c8_dx_association_dispatch exEnv [] [] [] [] [] [] c8Dxgw c8Tgw ("111122223333")
      ("rtA") rfl rfl).2.2.2.1 rfl,
   (c8_dx_association_dispatch exEnv [] [] [] [] [] [] c8Dxgw c8Tgw ("111122223333")
      ("rtA") rfl rfl).2.1 rfl⟩
